import Mathlib

/-!
# Ray tracer: the renderer's frame loop and acceleration-structure setup

A shallow embedding of `source/renderer.cpp`.  The `Renderer` object is a record, the
Vulkan device is a log of the calls issued to it together with counters that hand out fresh
object handles, and every member function is a program of the `Host` monad: state passing
over the pair (renderer, device) with C++ exceptions as `Except`.
What the driver answers (result codes, sizes, addresses, the acquired image) is an input.
-/

namespace RayTracer

/-! ## Handles and Vulkan value types -/

/-- A Vulkan object handle; `0` is `VK_NULL_HANDLE`, the n-th object created of a kind has
handle `n` (counted from one), so live objects of one kind have distinct handles. -/
abbrev Handle := Nat

/-- The code of `vk::Result`; `0` is `eSuccess`. -/
abbrev Result := Int

def eSuccess : Result := 0

/-- The value `std::numeric_limits<uint64_t>::max()`. -/
def UINT64_MAX : Nat := 2 ^ 64 - 1

inductive ImageLayout where
  | eUndefined
  | eGeneral
  | ePresentSrcKHR
  deriving DecidableEq, Repr

inductive PipelineStage where
  | eColorAttachmentOutput
  deriving DecidableEq, Repr

inductive Queue where
  | graphics
  | present
  deriving DecidableEq, Repr

/-- The fields of `vk::SubmitInfo` that `Render` fills in. -/
structure SubmitInfo where
  waitSemaphores : List Handle := []
  waitDstStageMask : List PipelineStage := []
  commandBuffers : List Handle := []
  signalSemaphores : List Handle := []
  deriving DecidableEq, Repr

/-- The fields of `vk::PresentInfoKHR` that `Render` fills in. -/
structure PresentInfoKHR where
  waitSemaphores : List Handle := []
  swapchains : List Handle := []
  imageIndices : List Nat := []
  deriving DecidableEq, Repr

/-- A 32-bit float, by its IEEE-754 bit pattern. -/
abbrev Float32 := Nat

def f32_zero : Float32 := 0x00000000

def f32_one : Float32 := 0x3F800000

def f32_minusOne : Float32 := 0xBF800000

/-- `Vertex`: a `glm::vec3` position, twelve bytes. -/
structure Vertex where
  position : List Float32
  deriving DecidableEq, Repr

def sizeof_Vertex : Nat := 12

def sizeof_uint32_t : Nat := 4

/-- `VkTransformMatrixKHR`: a row-major 3x4 matrix of floats, 48 bytes. -/
structure VkTransformMatrixKHR where
  matrix : List (List Float32)
  deriving DecidableEq, Repr

def sizeof_VkTransformMatrixKHR : Nat := 48

inductive BufferUsage where
  | eAccelerationStructureBuildInputReadOnlyKHR
  | eShaderDeviceAddress
  | eAccelerationStructureStorageKHR
  | eStorageBuffer
  | eUniformBuffer
  deriving DecidableEq, Repr

inductive VmaMemoryUsage where
  | VMA_MEMORY_USAGE_AUTO_PREFER_DEVICE
  | VMA_MEMORY_USAGE_GPU_ONLY
  deriving DecidableEq, Repr

/-- `BufferCreation` (gpu_resources.hpp): what the builder calls `SetName`, `SetUsageFlags`,
`SetMemoryUsage`, `SetIsMappable` and `SetSize` record. -/
structure BufferCreation where
  name : String := ""
  usage : List BufferUsage := []
  memoryUsage : VmaMemoryUsage := VmaMemoryUsage.VMA_MEMORY_USAGE_AUTO_PREFER_DEVICE
  isMappable : Bool := false
  size : Nat := 0
  deriving DecidableEq, Repr

/-- A live `Buffer` object: its `vk::Buffer` handle and the request it was made from.
A mappable buffer's `mappedPtr` addresses the `creation.size` bytes of that buffer. -/
structure Buffer where
  buffer : Handle
  creation : BufferCreation
  deriving DecidableEq, Repr

inductive AccelerationStructureTypeKHR where
  | eTopLevel
  | eBottomLevel
  deriving DecidableEq, Repr

inductive GeometryTypeKHR where
  | eTriangles
  | eInstances
  deriving DecidableEq, Repr

inductive GeometryFlagBitsKHR where
  | eOpaque
  deriving DecidableEq, Repr

inductive BuildAccelerationStructureFlagBitsKHR where
  | ePreferFastTrace
  deriving DecidableEq, Repr

inductive BuildAccelerationStructureModeKHR where
  | eBuild
  | eUpdate
  deriving DecidableEq, Repr

inductive AccelerationStructureBuildTypeKHR where
  | eDevice
  deriving DecidableEq, Repr

inductive Format where
  | eUndefined
  | eR32G32B32Sfloat
  deriving DecidableEq, Repr

inductive IndexType where
  | eUint16
  | eUint32
  deriving DecidableEq, Repr

/-- `vk::AccelerationStructureGeometryTrianglesDataKHR`; addresses are device addresses. -/
structure AccelerationStructureGeometryTrianglesDataKHR where
  vertexFormat : Format := Format.eUndefined
  vertexData : Nat := 0
  vertexStride : Nat := 0
  maxVertex : Nat := 0
  indexType : IndexType := IndexType.eUint16
  indexData : Nat := 0
  transformData : Nat := 0
  deriving DecidableEq, Repr

/-- `vk::AccelerationStructureGeometryInstancesDataKHR`. -/
structure AccelerationStructureGeometryInstancesDataKHR where
  arrayOfPointers : Bool := false
  data : Nat := 0
  deriving DecidableEq, Repr

/-- The union `vk::AccelerationStructureGeometryDataKHR`, by the member last written. -/
inductive AccelerationStructureGeometryDataKHR where
  | triangles (data : AccelerationStructureGeometryTrianglesDataKHR)
  | instances (data : AccelerationStructureGeometryInstancesDataKHR)
  deriving DecidableEq, Repr

/-- `vk::AccelerationStructureGeometryKHR`. -/
structure AccelerationStructureGeometryKHR where
  geometryType : GeometryTypeKHR := GeometryTypeKHR.eTriangles
  geometry : AccelerationStructureGeometryDataKHR := .triangles {}
  flags : List GeometryFlagBitsKHR := []
  deriving DecidableEq, Repr

/-- `vk::AccelerationStructureBuildGeometryInfoKHR`; `pGeometries` is the list of the
`geometryCount` geometries the pointer addresses when the structure is read. -/
structure AccelerationStructureBuildGeometryInfoKHR where
  type : AccelerationStructureTypeKHR := AccelerationStructureTypeKHR.eTopLevel
  flags : List BuildAccelerationStructureFlagBitsKHR := []
  mode : BuildAccelerationStructureModeKHR := BuildAccelerationStructureModeKHR.eBuild
  srcAccelerationStructure : Handle := 0
  dstAccelerationStructure : Handle := 0
  geometryCount : Nat := 0
  pGeometries : List AccelerationStructureGeometryKHR := []
  scratchData : Nat := 0
  deriving DecidableEq, Repr

/-- `vk::AccelerationStructureBuildSizesInfoKHR`: the answer of the size query. -/
structure AccelerationStructureBuildSizesInfoKHR where
  accelerationStructureSize : Nat := 0
  updateScratchSize : Nat := 0
  buildScratchSize : Nat := 0
  deriving DecidableEq, Repr

/-- `vk::AccelerationStructureCreateInfoKHR`. -/
structure AccelerationStructureCreateInfoKHR where
  buffer : Handle := 0
  offset : Nat := 0
  size : Nat := 0
  type : AccelerationStructureTypeKHR := AccelerationStructureTypeKHR.eTopLevel
  deriving DecidableEq, Repr

/-- `vk::AccelerationStructureBuildRangeInfoKHR`. -/
structure AccelerationStructureBuildRangeInfoKHR where
  primitiveCount : Nat := 0
  primitiveOffset : Nat := 0
  firstVertex : Nat := 0
  transformOffset : Nat := 0
  deriving DecidableEq, Repr

inductive GeometryInstanceFlagBitsKHR where
  | VK_GEOMETRY_INSTANCE_TRIANGLE_FACING_CULL_DISABLE_BIT_KHR
  deriving DecidableEq, Repr

/-- `vk::AccelerationStructureInstanceKHR`, field by field. -/
structure AccelerationStructureInstanceKHR where
  transform : VkTransformMatrixKHR := { matrix := [] }
  instanceCustomIndex : Nat := 0
  mask : Nat := 0
  instanceShaderBindingTableRecordOffset : Nat := 0
  flags : List GeometryInstanceFlagBitsKHR := []
  accelerationStructureReference : Nat := 0
  deriving DecidableEq, Repr

def sizeof_AccelerationStructureInstanceKHR : Nat := 64

/-- The host object a `memcpy` reads from. -/
inductive HostData where
  | vertices (data : List Vertex)
  | indices (data : List Nat)
  | transformMatrix (data : VkTransformMatrixKHR)
  | accelerationStructureInstance (data : AccelerationStructureInstanceKHR)
  deriving DecidableEq, Repr

inductive DescriptorType where
  | eSampler
  | eStorageImage
  | eUniformBuffer
  | eAccelerationStructureKHR
  deriving DecidableEq, Repr

inductive ShaderStageFlagBits where
  | eRaygenKHR
  deriving DecidableEq, Repr

/-- `vk::DescriptorSetLayoutBinding`; a value-initialised one has type `eSampler` (the
enumeration's zero) and count zero. -/
structure DescriptorSetLayoutBinding where
  binding : Nat := 0
  descriptorType : DescriptorType := DescriptorType.eSampler
  descriptorCount : Nat := 0
  stageFlags : List ShaderStageFlagBits := []
  deriving DecidableEq, Repr

/-- `vk::DescriptorPoolSize`; a value-initialised one has type `eSampler` and count zero. -/
structure DescriptorPoolSize where
  type : DescriptorType := DescriptorType.eSampler
  descriptorCount : Nat := 0
  deriving DecidableEq, Repr

/-- `vk::DescriptorPoolCreateInfo`. -/
structure DescriptorPoolCreateInfo where
  maxSets : Nat := 0
  poolSizeCount : Nat := 0
  pPoolSizes : List DescriptorPoolSize := []
  deriving DecidableEq, Repr

/-- `vk::DescriptorSetAllocateInfo`. -/
structure DescriptorSetAllocateInfo where
  descriptorPool : Handle := 0
  descriptorSetCount : Nat := 0
  pSetLayouts : List Handle := []
  deriving DecidableEq, Repr

/-- `vk::DescriptorImageInfo`. -/
structure DescriptorImageInfo where
  sampler : Handle := 0
  imageView : Handle := 0
  imageLayout : ImageLayout := ImageLayout.eUndefined
  deriving DecidableEq, Repr

/-- `vk::WriteDescriptorSetAccelerationStructureKHR`. -/
structure WriteDescriptorSetAccelerationStructureKHR where
  accelerationStructureCount : Nat := 0
  pAccelerationStructures : List Handle := []
  deriving DecidableEq, Repr

/-- `vk::DescriptorBufferInfo`. -/
structure DescriptorBufferInfo where
  buffer : Handle := 0
  offset : Nat := 0
  range : Nat := 0
  deriving DecidableEq, Repr

/-- `vk::WriteDescriptorSet`; a null pointer is `none`. -/
structure WriteDescriptorSet where
  pNext : Option WriteDescriptorSetAccelerationStructureKHR := none
  dstSet : Handle := 0
  dstBinding : Nat := 0
  dstArrayElement : Nat := 0
  descriptorCount : Nat := 0
  descriptorType : DescriptorType := DescriptorType.eSampler
  pImageInfo : Option DescriptorImageInfo := none
  pBufferInfo : Option DescriptorBufferInfo := none
  deriving DecidableEq, Repr

/-- `UniformData` of `InitializeDescriptorSets`: two `glm::mat4`, 128 bytes. -/
structure UniformData where
  viewInverse : List Float32 := []
  projInverse : List Float32 := []
  deriving DecidableEq, Repr

def sizeof_UniformData : Nat := 128

/-- One call issued to the device (or to a helper that wraps it), with its arguments; a
created object's handle is the last argument. `memcpy` is the host's write through a mapped
pointer. `Device().destroy(x)` is `destroyFence` or `destroySemaphore` by the type of `x`. -/
inductive Call where
  | createSwapChain (width height : Nat) (swapchain : Handle)
  | allocateCommandBuffers (count : Nat) (first : Handle)
  | createSemaphore (semaphore : Handle)
  | createFence (signaled : Bool) (fence : Handle)
  | waitForFences (fences : List Handle) (waitAll : Bool) (timeout : Nat)
  | acquireNextImageKHR (swapchain : Handle) (timeout : Nat) (semaphore fence : Handle)
  | resetFences (fences : List Handle)
  | commandBufferReset (commandBuffer : Handle)
  | commandBufferBegin (commandBuffer : Handle)
  | transitionImageLayout (commandBuffer : Handle) (swapChainImageIndex : Nat)
      (oldLayout newLayout : ImageLayout)
  | commandBufferEnd (commandBuffer : Handle)
  | queueSubmit (queue : Queue) (submitInfo : SubmitInfo) (fence : Handle)
  | presentKHR (queue : Queue) (presentInfo : PresentInfoKHR)
  | createBuffer (creation : BufferCreation) (buffer : Handle)
  | memcpy (dst : Buffer) (src : HostData) (bytes : Nat)
  | getBufferAddress (buffer : Handle)
  | getAccelerationStructureBuildSizesKHR (buildType : AccelerationStructureBuildTypeKHR)
      (buildInfo : AccelerationStructureBuildGeometryInfoKHR) (maxPrimitiveCounts : Nat)
  | createAccelerationStructureKHR (createInfo : AccelerationStructureCreateInfoKHR)
      (structure_ : Handle)
  | getAccelerationStructureAddressKHR (structure_ : Handle)
  | buildAccelerationStructuresKHR (buildInfo : AccelerationStructureBuildGeometryInfoKHR)
      (buildRangeInfos : List AccelerationStructureBuildRangeInfoKHR)
  | singleTimeCommandsSubmit
  | createDescriptorSetLayout (bindings : List DescriptorSetLayoutBinding) (layout : Handle)
  | createDescriptorPool (createInfo : DescriptorPoolCreateInfo) (pool : Handle)
  | allocateDescriptorSets (allocateInfo : DescriptorSetAllocateInfo) (set : Handle)
  | updateDescriptorSets (descriptorWrites : List WriteDescriptorSet)
  | destroyDescriptorSetLayout (layout : Handle)
  | destroyDescriptorPool (pool : Handle)
  | destroyAccelerationStructureKHR (structure_ : Handle)
  | destroyFence (fence : Handle)
  | destroySemaphore (semaphore : Handle)
  deriving DecidableEq, Repr

/-! ## Program state -/

/-- The device as the host sees it: the calls issued so far, oldest first, and the number
of objects created so far (the next object's handle is that number plus one). -/
structure Device where
  calls : List Call := []
  objects : Nat := 0
  deriving DecidableEq, Repr

/-- `AccelerationStructure` as renderer.cpp uses `_blas` and `_tlas`: the structure handle
and the owned buffers (`std::unique_ptr<Buffer>`, null is `none`). -/
structure AccelerationStructure where
  vkStructure : Handle := 0
  structureBuffer : Option Buffer := none
  scratchBuffer : Option Buffer := none
  instancesBuffer : Option Buffer := none
  deriving DecidableEq, Repr

/-- The data members of `Renderer` that renderer.cpp uses.  A
`std::array<T, MAX_FRAMES_IN_FLIGHT>` is a list of that length; `_currentResourcesFrame`
starts at zero. -/
structure Renderer where
  _swapChain : Handle := 0
  _commandBuffers : List Handle
  _imageAvailableSemaphores : List Handle
  _renderFinishedSemaphores : List Handle
  _inFlightFences : List Handle
  _currentResourcesFrame : Nat := 0
  _vertexBuffer : Option Buffer := none
  _indexBuffer : Option Buffer := none
  _transformBuffer : Option Buffer := none
  _blas : AccelerationStructure := {}
  _tlas : AccelerationStructure := {}
  _uniformBuffer : Option Buffer := none
  _descriptorSetLayout : Handle := 0
  _descriptorPool : Handle := 0
  _descriptorSet : Handle := 0
  deriving DecidableEq, Repr

/-- The renderer together with the device it drives. -/
structure Machine where
  self : Renderer
  device : Device := {}
  deriving DecidableEq, Repr

/-- Host code: it transforms the machine and either returns a value or raises an
exception; the machine reached when the exception was raised is kept. -/
def Host (α : Type) : Type := Machine → Except String α × Machine

def Host.run {α : Type} (m : Host α) (s : Machine) : Except String α × Machine := m s

def Host.pure {α : Type} (a : α) : Host α := fun s => (Except.ok a, s)

def Host.bind {α β : Type} (m : Host α) (f : α → Host β) : Host β := fun s =>
  match m s with
  | (Except.ok a, s') => f a s'
  | (Except.error e, s') => (Except.error e, s')

instance : Monad Host where
  pure := Host.pure
  bind := Host.bind

/-- Raise an exception. -/
def raise {α : Type} (message : String) : Host α := fun s => (Except.error message, s)

/-- Read the renderer's members. -/
def getSelf : Host Renderer := fun s => (Except.ok s.self, s)

/-- Assign to the renderer's members. -/
def modifySelf (f : Renderer → Renderer) : Host Unit :=
  fun s => (Except.ok (), { s with self := f s.self })

/-- Issue a call to the device: it is appended to the log. -/
def issue (c : Call) : Host Unit :=
  fun s => (Except.ok (), { s with device := { s.device with calls := s.device.calls ++ [c] } })

/-- Take the next `count` object handles; the first of them is returned. -/
def newHandles (count : Nat) : Host Handle := fun s =>
  (Except.ok (s.device.objects + 1),
    { s with device := { s.device with objects := s.device.objects + count } })

/-- What lies outside the embedding and is taken as given while the renderer is
constructed: the result code the driver gives each fallible call, the sizes it reports for
a build description, the device addresses of buffers and structures, and the camera
matrices glm computes in floating point for a window size. -/
structure Environment where
  result : Call → Result
  getAccelerationStructureBuildSizesKHR :
    AccelerationStructureBuildGeometryInfoKHR → Nat → AccelerationStructureBuildSizesInfoKHR
  getBufferAddress : Handle → Nat
  getAccelerationStructureAddressKHR : Handle → Nat
  cameraData : Nat → Nat → UniformData

/-- Modelled from the spec: `VkCheckResult` of vk_common.hpp, which is not among the
sources.  "Every device-API result is checked and a non-success result immediately aborts
the corresponding operation with context": a result other than `eSuccess` raises the
message. -/
def VkCheckResult (result : Result) (message : String) : Host Unit :=
  if result = eSuccess then pure () else raise message

/-- A vulkan.hpp call that returns its value: the call is issued and a result other than
`eSuccess` is raised as the exception vulkan.hpp throws. -/
def vkCall (env : Environment) (c : Call) : Host Unit := do
  issue c
  if env.result c = eSuccess then pure () else raise "vk::SystemError"

/-- The checked element access `std::array::at`: it raises `std::out_of_range` when the
index is not below the size. -/
def arrayAt (xs : List Handle) (i : Nat) : Host Handle :=
  match xs[i]? with
  | some x => pure x
  | none => raise "std::out_of_range"

/-- The access `p->` through a `std::unique_ptr<Buffer>`; a null pointer has no value. -/
def deref (p : Option Buffer) : Host Buffer :=
  match p with
  | some b => pure b
  | none => raise "null std::unique_ptr"

/-- The loop `for (size_t i = 0; i < n; ++i) body(i)`, with `remaining` iterations to go
from `i` on. -/
def forLoop (body : Nat → Host Unit) : (remaining : Nat) → (i : Nat) → Host Unit
  | 0, _ => pure ()
  | k + 1, i => do
    body i
    forLoop body k (i + 1)

/-- Modelled from the spec: the constructor of `Buffer` (gpu_resources.hpp, not among the
sources), "a memory allocator capable of device-local and host-visible allocations" whose
"allocation failure" is fatal: it creates a buffer of the requested size, or raises. -/
def Buffer.make_unique (env : Environment) (creation : BufferCreation) : Host (Option Buffer) := do
  let buffer ← newHandles 1
  issue (.createBuffer creation buffer)
  if env.result (.createBuffer creation buffer) = eSuccess then
    pure (some { buffer := buffer, creation := creation })
  else raise "[VULKAN] Failed creating buffer!"

/-- Modelled from the spec: the constructor of `SwapChain` (swap_chain.hpp, not among the
sources), the external "swap-chain/surface management": one creation for the window
size. -/
def SwapChain.make_unique (env : Environment) (width height : Nat) : Host Handle := do
  let swapchain ← newHandles 1
  issue (.createSwapChain width height swapchain)
  if env.result (.createSwapChain width height swapchain) = eSuccess then pure swapchain
  else raise "[VULKAN] Failed creating swap chain!"

/-- Modelled from the spec: `SingleTimeCommands::Record` (single_time_commands.hpp, not
among the sources), the first half of the one-shot executor's "`Record(commands) →
Submit()`": the commands are recorded into the executor's command buffer. -/
def SingleTimeCommands.Record (commands : Host Unit) : Host Unit := commands

/-- Modelled from the spec: `SingleTimeCommands::Submit`, which "blocks the caller until
device execution of the recorded commands completes"; a device that "reports the build
command did not complete successfully" is fatal. -/
def SingleTimeCommands.Submit (env : Environment) : Host Unit := do
  issue .singleTimeCommandsSubmit
  VkCheckResult (env.result .singleTimeCommandsSubmit) "[VULKAN] Failed submitting one time commands!"

/-! ## The frame loop -/

/-- What the driver answers during one call of `Render`: the result code of each checked
call and the image index written by `acquireNextImageKHR`. -/
structure FrameResults where
  waitForFences : Result := eSuccess
  acquireNextImageKHR : Result := eSuccess
  swapChainImageIndex : Nat := 0
  resetFences : Result := eSuccess
  commandBufferBegin : Result := eSuccess
  queueSubmit : Result := eSuccess
  presentKHR : Result := eSuccess
  deriving DecidableEq, Repr

/-- `Renderer::RecordCommands`: one layout transition of the acquired swap-chain image. -/
def Renderer.RecordCommands (commandBuffer : Handle) (swapChainImageIndex : Nat) : Host Unit :=
  issue (.transitionImageLayout commandBuffer swapChainImageIndex
    ImageLayout.eUndefined ImageLayout.ePresentSrcKHR)

/-- `Renderer::Render`, with `MAX_FRAMES_IN_FLIGHT` (common.hpp, not among the sources) as
the parameter `maxFramesInFlight`. -/
def Renderer.Render (maxFramesInFlight : Nat) (driver : FrameResults) : Host Unit := do
  let fence ← arrayAt (← getSelf)._inFlightFences (← getSelf)._currentResourcesFrame
  issue (.waitForFences [fence] true UINT64_MAX)
  VkCheckResult driver.waitForFences "[VULKAN] Failed waiting on in flight fence!"

  let swapChainImageIndex := driver.swapChainImageIndex
  let imageAvailable ← arrayAt (← getSelf)._imageAvailableSemaphores (← getSelf)._currentResourcesFrame
  issue (.acquireNextImageKHR (← getSelf)._swapChain UINT64_MAX imageAvailable 0)
  VkCheckResult driver.acquireNextImageKHR "[VULKAN] Failed to acquire swap chain image!"

  let fence ← arrayAt (← getSelf)._inFlightFences (← getSelf)._currentResourcesFrame
  issue (.resetFences [fence])
  VkCheckResult driver.resetFences "[VULKAN] Failed resetting fences!"

  let commandBuffer ← arrayAt (← getSelf)._commandBuffers (← getSelf)._currentResourcesFrame
  issue (.commandBufferReset commandBuffer)

  issue (.commandBufferBegin commandBuffer)
  VkCheckResult driver.commandBufferBegin "[VULKAN] Failed to begin recording command buffer!"
  Renderer.RecordCommands commandBuffer swapChainImageIndex
  issue (.commandBufferEnd commandBuffer)

  let waitSemaphore ← arrayAt (← getSelf)._imageAvailableSemaphores (← getSelf)._currentResourcesFrame
  let waitStage := PipelineStage.eColorAttachmentOutput
  let signalSemaphore ← arrayAt (← getSelf)._renderFinishedSemaphores (← getSelf)._currentResourcesFrame

  let submitInfo : SubmitInfo :=
    { waitSemaphores := [waitSemaphore]
      waitDstStageMask := [waitStage]
      commandBuffers := [commandBuffer]
      signalSemaphores := [signalSemaphore] }
  let fence ← arrayAt (← getSelf)._inFlightFences (← getSelf)._currentResourcesFrame
  issue (.queueSubmit Queue.graphics submitInfo fence)
  VkCheckResult driver.queueSubmit "[VULKAN] Failed submitting to graphics queue!"

  let swapchain := (← getSelf)._swapChain
  let presentInfo : PresentInfoKHR :=
    { waitSemaphores := [signalSemaphore]
      swapchains := [swapchain]
      imageIndices := [swapChainImageIndex] }
  issue (.presentKHR Queue.present presentInfo)
  VkCheckResult driver.presentKHR "[VULKAN] Failed to present swap chain image!"

  modifySelf fun r =>
    { r with _currentResourcesFrame := (r._currentResourcesFrame + 1) % maxFramesInFlight }

/-! ## Construction -/

/-- `Renderer::InitializeCommandBuffers`: one allocation of as many command buffers as the
array holds, written to the array on success. -/
def Renderer.InitializeCommandBuffers (env : Environment) : Host Unit := do
  let commandBufferCount := (← getSelf)._commandBuffers.length
  let first ← newHandles commandBufferCount
  issue (.allocateCommandBuffers commandBufferCount first)
  VkCheckResult (env.result (.allocateCommandBuffers commandBufferCount first))
    "[VULKAN] Failed allocating command buffer!"
  modifySelf fun r =>
    { r with _commandBuffers := (List.range commandBufferCount).map fun i => first + i }

/-- The body of the loop of `Renderer::InitializeSynchronizationObjects` for slot `i`: two
semaphores and one fence, the fence created signaled
(`fenceCreateInfo.flags = vk::FenceCreateFlagBits::eSignaled`). -/
def Renderer.InitializeSynchronizationObjects.body (env : Environment) (i : Nat) : Host Unit := do
  let signaled := true
  let errorMsg := "[VULKAN] Failed creating sync object!"
  let imageAvailable ← newHandles 1
  issue (.createSemaphore imageAvailable)
  VkCheckResult (env.result (.createSemaphore imageAvailable)) errorMsg
  modifySelf fun r =>
    { r with _imageAvailableSemaphores := r._imageAvailableSemaphores.set i imageAvailable }
  let renderFinished ← newHandles 1
  issue (.createSemaphore renderFinished)
  VkCheckResult (env.result (.createSemaphore renderFinished)) errorMsg
  modifySelf fun r =>
    { r with _renderFinishedSemaphores := r._renderFinishedSemaphores.set i renderFinished }
  let fence ← newHandles 1
  issue (.createFence signaled fence)
  VkCheckResult (env.result (.createFence signaled fence)) errorMsg
  modifySelf fun r => { r with _inFlightFences := r._inFlightFences.set i fence }

/-- `Renderer::InitializeSynchronizationObjects`: the loop over the slots. -/
def Renderer.InitializeSynchronizationObjects (maxFramesInFlight : Nat) (env : Environment) :
    Host Unit :=
  forLoop (Renderer.InitializeSynchronizationObjects.body env) maxFramesInFlight 0

/-- `Renderer::InitializeTriangle`: the three geometry buffers and the copies into their
mappings. -/
def Renderer.InitializeTriangle (env : Environment) : Host Unit := do
  let vertices : List Vertex :=
    [ { position := [f32_one, f32_one, f32_zero] },
      { position := [f32_minusOne, f32_one, f32_zero] },
      { position := [f32_zero, f32_minusOne, f32_zero] } ]

  let indices : List Nat := [0, 1, 2]

  let transformMatrix : VkTransformMatrixKHR :=
    { matrix :=
        [ [f32_one, f32_zero, f32_zero, f32_zero],
          [f32_zero, f32_one, f32_zero, f32_zero],
          [f32_zero, f32_zero, f32_one, f32_zero] ] }

  let vertexBufferCreation : BufferCreation :=
    { name := "Vertex Buffer"
      usage := [BufferUsage.eAccelerationStructureBuildInputReadOnlyKHR, BufferUsage.eShaderDeviceAddress]
      memoryUsage := VmaMemoryUsage.VMA_MEMORY_USAGE_AUTO_PREFER_DEVICE
      isMappable := true
      size := sizeof_Vertex * vertices.length }

  let vertexBuffer ← Buffer.make_unique env vertexBufferCreation
  modifySelf fun r => { r with _vertexBuffer := vertexBuffer }
  issue (.memcpy (← deref (← getSelf)._vertexBuffer) (.vertices vertices) (sizeof_Vertex * vertices.length))

  let indexBufferCreation : BufferCreation :=
    { name := "Index Buffer"
      usage := [BufferUsage.eAccelerationStructureBuildInputReadOnlyKHR, BufferUsage.eShaderDeviceAddress]
      memoryUsage := VmaMemoryUsage.VMA_MEMORY_USAGE_AUTO_PREFER_DEVICE
      isMappable := true
      size := sizeof_uint32_t * indices.length }

  let indexBuffer ← Buffer.make_unique env indexBufferCreation
  modifySelf fun r => { r with _indexBuffer := indexBuffer }
  issue (.memcpy (← deref (← getSelf)._indexBuffer) (.indices indices) (sizeof_uint32_t * indices.length))

  let transformBufferCreation : BufferCreation :=
    { name := "Transform Buffer"
      usage := [BufferUsage.eAccelerationStructureBuildInputReadOnlyKHR, BufferUsage.eShaderDeviceAddress]
      memoryUsage := VmaMemoryUsage.VMA_MEMORY_USAGE_AUTO_PREFER_DEVICE
      isMappable := true
      size := sizeof_uint32_t * indices.length }

  let transformBuffer ← Buffer.make_unique env transformBufferCreation
  modifySelf fun r => { r with _transformBuffer := transformBuffer }
  issue (.memcpy (← deref (← getSelf)._transformBuffer) (.transformMatrix transformMatrix)
    sizeof_VkTransformMatrixKHR)

/-- The member function `vk::Device::getBufferAddress`. -/
def getBufferAddress (env : Environment) (buffer : Handle) : Host Nat := do
  issue (.getBufferAddress buffer)
  pure (env.getBufferAddress buffer)

/-- `Renderer::InitializeBLAS`. -/
def Renderer.InitializeBLAS (env : Environment) : Host Unit := do
  let vertexBufferDeviceAddress ← getBufferAddress env (← deref (← getSelf)._vertexBuffer).buffer
  let indexBufferDeviceAddress ← getBufferAddress env (← deref (← getSelf)._indexBuffer).buffer
  let transformBufferDeviceAddress ← getBufferAddress env (← deref (← getSelf)._transformBuffer).buffer

  let trianglesData : AccelerationStructureGeometryTrianglesDataKHR :=
    { vertexFormat := Format.eR32G32B32Sfloat
      vertexData := vertexBufferDeviceAddress
      vertexStride := sizeof_Vertex
      maxVertex := 0
      indexType := IndexType.eUint32
      indexData := indexBufferDeviceAddress
      transformData := transformBufferDeviceAddress }

  let accelerationStructureGeometry : AccelerationStructureGeometryKHR :=
    { flags := [GeometryFlagBitsKHR.eOpaque]
      geometryType := GeometryTypeKHR.eTriangles
      geometry := .triangles trianglesData }

  let buildInfo : AccelerationStructureBuildGeometryInfoKHR :=
    { type := AccelerationStructureTypeKHR.eBottomLevel
      flags := [BuildAccelerationStructureFlagBitsKHR.ePreferFastTrace]
      mode := BuildAccelerationStructureModeKHR.eBuild
      srcAccelerationStructure := 0
      dstAccelerationStructure := 0
      geometryCount := 1
      pGeometries := [accelerationStructureGeometry]
      scratchData := 0 }

  issue (.getAccelerationStructureBuildSizesKHR AccelerationStructureBuildTypeKHR.eDevice buildInfo 1)
  let buildSizesInfo := env.getAccelerationStructureBuildSizesKHR buildInfo 1

  let structureBufferCreation : BufferCreation :=
    { name := "BLAS Structure Buffer"
      usage := [BufferUsage.eAccelerationStructureStorageKHR, BufferUsage.eShaderDeviceAddress]
      memoryUsage := VmaMemoryUsage.VMA_MEMORY_USAGE_GPU_ONLY
      isMappable := false
      size := buildSizesInfo.accelerationStructureSize }
  let structureBuffer ← Buffer.make_unique env structureBufferCreation
  modifySelf fun r => { r with _blas := { r._blas with structureBuffer := structureBuffer } }

  let scratchBufferCreation : BufferCreation :=
    { name := "BLAS Scratch Buffer"
      usage := [BufferUsage.eStorageBuffer, BufferUsage.eShaderDeviceAddress]
      memoryUsage := VmaMemoryUsage.VMA_MEMORY_USAGE_GPU_ONLY
      isMappable := false
      size := buildSizesInfo.buildScratchSize }
  let scratchBuffer ← Buffer.make_unique env scratchBufferCreation
  modifySelf fun r => { r with _blas := { r._blas with scratchBuffer := scratchBuffer } }

  let createInfo : AccelerationStructureCreateInfoKHR :=
    { buffer := (← deref (← getSelf)._blas.structureBuffer).buffer
      offset := 0
      size := buildSizesInfo.accelerationStructureSize
      type := AccelerationStructureTypeKHR.eBottomLevel }
  let vkStructure ← newHandles 1
  vkCall env (.createAccelerationStructureKHR createInfo vkStructure)
  modifySelf fun r => { r with _blas := { r._blas with vkStructure := vkStructure } }

  let buildInfo := { buildInfo with dstAccelerationStructure := (← getSelf)._blas.vkStructure }
  let buildInfo := { buildInfo with
    scratchData := (← getBufferAddress env (← deref (← getSelf)._blas.scratchBuffer).buffer) }

  let buildRangeInfo : AccelerationStructureBuildRangeInfoKHR :=
    { primitiveCount := 1
      primitiveOffset := 0
      firstVertex := 0
      transformOffset := 0 }
  let accelerationBuildStructureRangeInfos := [buildRangeInfo]

  SingleTimeCommands.Record
    (issue (.buildAccelerationStructuresKHR buildInfo accelerationBuildStructureRangeInfos))
  SingleTimeCommands.Submit env

/-- `Renderer::InitializeTLAS`.  `buildInfo.pGeometries` points at the local
`accelerationStructureGeometry`, so each use of `buildInfo` reads the geometry as it is
then. -/
def Renderer.InitializeTLAS (env : Environment) : Host Unit := do
  let accelerationStructureGeometry : AccelerationStructureGeometryKHR :=
    { flags := [GeometryFlagBitsKHR.eOpaque]
      geometryType := GeometryTypeKHR.eInstances
      geometry := .instances {} }

  let buildInfo : AccelerationStructureBuildGeometryInfoKHR :=
    { type := AccelerationStructureTypeKHR.eTopLevel
      flags := [BuildAccelerationStructureFlagBitsKHR.ePreferFastTrace]
      mode := BuildAccelerationStructureModeKHR.eBuild
      srcAccelerationStructure := 0
      dstAccelerationStructure := 0
      geometryCount := 1
      pGeometries := [accelerationStructureGeometry] }

  issue (.getAccelerationStructureBuildSizesKHR AccelerationStructureBuildTypeKHR.eDevice buildInfo 1)
  let buildSizesInfo := env.getAccelerationStructureBuildSizesKHR buildInfo 1

  let structureBufferCreation : BufferCreation :=
    { name := "TLAS Structure Buffer"
      usage := [BufferUsage.eAccelerationStructureStorageKHR, BufferUsage.eShaderDeviceAddress]
      memoryUsage := VmaMemoryUsage.VMA_MEMORY_USAGE_GPU_ONLY
      isMappable := false
      size := buildSizesInfo.accelerationStructureSize }
  let structureBuffer ← Buffer.make_unique env structureBufferCreation
  modifySelf fun r => { r with _tlas := { r._tlas with structureBuffer := structureBuffer } }

  let scratchBufferCreation : BufferCreation :=
    { name := "TLAS Scratch Buffer"
      usage := [BufferUsage.eStorageBuffer, BufferUsage.eShaderDeviceAddress]
      memoryUsage := VmaMemoryUsage.VMA_MEMORY_USAGE_GPU_ONLY
      isMappable := false
      size := buildSizesInfo.buildScratchSize }
  let scratchBuffer ← Buffer.make_unique env scratchBufferCreation
  modifySelf fun r => { r with _tlas := { r._tlas with scratchBuffer := scratchBuffer } }

  let createInfo : AccelerationStructureCreateInfoKHR :=
    { buffer := (← deref (← getSelf)._blas.structureBuffer).buffer
      offset := 0
      size := buildSizesInfo.accelerationStructureSize
      type := AccelerationStructureTypeKHR.eTopLevel }
  let vkStructure ← newHandles 1
  vkCall env (.createAccelerationStructureKHR createInfo vkStructure)
  modifySelf fun r => { r with _tlas := { r._tlas with vkStructure := vkStructure } }

  let identityMatrix : VkTransformMatrixKHR :=
    { matrix :=
        [ [f32_one, f32_zero, f32_zero, f32_zero],
          [f32_zero, f32_one, f32_zero, f32_zero],
          [f32_zero, f32_zero, f32_one, f32_zero] ] }

  issue (.getAccelerationStructureAddressKHR (← getSelf)._blas.vkStructure)
  let accelerationStructureInstance : AccelerationStructureInstanceKHR :=
    { flags := [GeometryInstanceFlagBitsKHR.VK_GEOMETRY_INSTANCE_TRIANGLE_FACING_CULL_DISABLE_BIT_KHR]
      transform := identityMatrix
      instanceCustomIndex := 0
      mask := 0xFF
      instanceShaderBindingTableRecordOffset := 0
      accelerationStructureReference :=
        env.getAccelerationStructureAddressKHR (← getSelf)._blas.vkStructure }

  let instancesBufferCreation : BufferCreation :=
    { name := "TLAS Instances Buffer"
      usage := [BufferUsage.eAccelerationStructureBuildInputReadOnlyKHR, BufferUsage.eShaderDeviceAddress]
      memoryUsage := VmaMemoryUsage.VMA_MEMORY_USAGE_AUTO_PREFER_DEVICE
      isMappable := true
      size := buildSizesInfo.accelerationStructureSize }
  let instancesBuffer ← Buffer.make_unique env instancesBufferCreation
  modifySelf fun r => { r with _tlas := { r._tlas with instancesBuffer := instancesBuffer } }
  issue (.memcpy (← deref (← getSelf)._tlas.instancesBuffer)
    (.accelerationStructureInstance accelerationStructureInstance)
    sizeof_AccelerationStructureInstanceKHR)

  let buildInfo := { buildInfo with dstAccelerationStructure := (← getSelf)._tlas.vkStructure }
  let buildInfo := { buildInfo with
    scratchData := (← getBufferAddress env (← deref (← getSelf)._tlas.scratchBuffer).buffer) }

  let instancesData : AccelerationStructureGeometryInstancesDataKHR :=
    { arrayOfPointers := false
      data := (← getBufferAddress env (← deref (← getSelf)._tlas.instancesBuffer).buffer) }
  let accelerationStructureGeometry :=
    { accelerationStructureGeometry with geometry := .instances instancesData }
  let buildInfo := { buildInfo with pGeometries := [accelerationStructureGeometry] }

  let buildRangeInfo : AccelerationStructureBuildRangeInfoKHR :=
    { primitiveCount := 1
      primitiveOffset := 0
      firstVertex := 0
      transformOffset := 0 }
  let accelerationBuildStructureRangeInfos := [buildRangeInfo]

  SingleTimeCommands.Record
    (issue (.buildAccelerationStructuresKHR buildInfo accelerationBuildStructureRangeInfos))
  SingleTimeCommands.Submit env

/-- `Renderer::InitializeDescriptorSets`.  The camera data is computed and the uniform
buffer is created; the three layout bindings, the pool sizes, the set and the three writes
follow the source statement by statement (`x.at(k)` of a `std::array` of three is `set k`). -/
def Renderer.InitializeDescriptorSets (env : Environment) (windowSize : Nat × Nat) :
    Host Unit := do
  let _cameraData : UniformData := env.cameraData windowSize.1 windowSize.2

  let uniformBufferSize := sizeof_UniformData
  let uniformBufferCreation : BufferCreation :=
    { name := "Camera Uniform Buffer"
      usage := [BufferUsage.eUniformBuffer]
      memoryUsage := VmaMemoryUsage.VMA_MEMORY_USAGE_AUTO_PREFER_DEVICE
      isMappable := true
      size := uniformBufferSize }
  let uniformBuffer ← Buffer.make_unique env uniformBufferCreation
  modifySelf fun r => { r with _uniformBuffer := uniformBuffer }

  let bindingLayouts : List DescriptorSetLayoutBinding := [{}, {}, {}]

  let bindingLayouts := bindingLayouts.set 0
    { binding := 0
      descriptorType := DescriptorType.eStorageImage
      descriptorCount := 1
      stageFlags := [ShaderStageFlagBits.eRaygenKHR] }

  let bindingLayouts := bindingLayouts.set 1
    { binding := 1
      descriptorType := DescriptorType.eAccelerationStructureKHR
      descriptorCount := 1
      stageFlags := [ShaderStageFlagBits.eRaygenKHR] }

  let bindingLayouts := bindingLayouts.set 2
    { binding := 2
      descriptorType := DescriptorType.eUniformBuffer
      descriptorCount := 1
      stageFlags := [ShaderStageFlagBits.eRaygenKHR] }

  let descriptorSetLayout ← newHandles 1
  vkCall env (.createDescriptorSetLayout bindingLayouts descriptorSetLayout)
  modifySelf fun r => { r with _descriptorSetLayout := descriptorSetLayout }

  let poolSizes : List DescriptorPoolSize := [{}, {}, {}]

  let poolSizes := poolSizes.set 0
    { type := DescriptorType.eStorageImage
      descriptorCount := 1 }

  let poolSizes := poolSizes.set 0
    { type := DescriptorType.eAccelerationStructureKHR
      descriptorCount := 1 }

  let poolSizes := poolSizes.set 0
    { type := DescriptorType.eUniformBuffer
      descriptorCount := 1 }

  let descriptorPoolCreateInfo : DescriptorPoolCreateInfo :=
    { maxSets := 1
      poolSizeCount := poolSizes.length
      pPoolSizes := poolSizes }
  let descriptorPool ← newHandles 1
  vkCall env (.createDescriptorPool descriptorPoolCreateInfo descriptorPool)
  modifySelf fun r => { r with _descriptorPool := descriptorPool }

  let descriptorSetAllocateInfo : DescriptorSetAllocateInfo :=
    { descriptorPool := (← getSelf)._descriptorPool
      descriptorSetCount := 1
      pSetLayouts := [(← getSelf)._descriptorSetLayout] }
  let descriptorSet ← newHandles 1
  vkCall env (.allocateDescriptorSets descriptorSetAllocateInfo descriptorSet)
  modifySelf fun r => { r with _descriptorSet := descriptorSet }

  let descriptorImageInfo : DescriptorImageInfo :=
    { imageLayout := ImageLayout.eGeneral }

  let descriptorAccelerationStructureInfo : WriteDescriptorSetAccelerationStructureKHR :=
    { accelerationStructureCount := 1
      pAccelerationStructures := [(← getSelf)._tlas.vkStructure] }

  let descriptorBufferInfo : DescriptorBufferInfo :=
    { buffer := (← deref (← getSelf)._uniformBuffer).buffer
      offset := 0
      range := uniformBufferSize }

  let descriptorWrites : List WriteDescriptorSet := [{}, {}, {}]

  let descriptorWrites := descriptorWrites.set 0
    { dstSet := (← getSelf)._descriptorSet
      dstBinding := 0
      dstArrayElement := 0
      descriptorCount := 1
      descriptorType := DescriptorType.eStorageImage
      pImageInfo := some descriptorImageInfo }

  let descriptorWrites := descriptorWrites.set 1
    { pNext := some descriptorAccelerationStructureInfo
      dstSet := (← getSelf)._descriptorSet
      dstBinding := 1
      dstArrayElement := 0
      descriptorCount := 1
      descriptorType := DescriptorType.eAccelerationStructureKHR }

  let descriptorWrites := descriptorWrites.set 2
    { dstSet := (← getSelf)._descriptorSet
      dstBinding := 2
      dstArrayElement := 0
      descriptorCount := 1
      descriptorType := DescriptorType.eUniformBuffer
      pBufferInfo := some descriptorBufferInfo }

  issue (.updateDescriptorSets descriptorWrites)

/-- `VulkanInitInfo`, the fields the renderer reads. -/
structure VulkanInitInfo where
  width : Nat
  height : Nat
  deriving DecidableEq, Repr

/-- The state of a `Renderer` whose members are default-initialised: arrays of
`maxFramesInFlight` null handles, null pointers, slot index zero. -/
def Renderer.members (maxFramesInFlight : Nat) : Renderer :=
  { _commandBuffers := List.replicate maxFramesInFlight 0
    _imageAvailableSemaphores := List.replicate maxFramesInFlight 0
    _renderFinishedSemaphores := List.replicate maxFramesInFlight 0
    _inFlightFences := List.replicate maxFramesInFlight 0 }

/-- The constructor `Renderer::Renderer`, run on default-initialised members. -/
def Renderer.constructor (maxFramesInFlight : Nat) (env : Environment) (initInfo : VulkanInitInfo) :
    Host Unit := do
  let swapChain ← SwapChain.make_unique env initInfo.width initInfo.height
  modifySelf fun r => { r with _swapChain := swapChain }
  Renderer.InitializeCommandBuffers env
  Renderer.InitializeSynchronizationObjects maxFramesInFlight env

  Renderer.InitializeTriangle env
  Renderer.InitializeBLAS env
  Renderer.InitializeTLAS env
  Renderer.InitializeDescriptorSets env (initInfo.width, initInfo.height)

/-- A fresh device and a default-initialised renderer: where the constructor starts. -/
def Machine.initial (maxFramesInFlight : Nat) : Machine :=
  { self := Renderer.members maxFramesInFlight, device := {} }

/-- The caller's frame loop: `Render` is called once per element of `frames`, each element
being what the driver answers during that call; the first exception ends the loop. -/
def renderFrames (maxFramesInFlight : Nat) : List FrameResults → Host Unit
  | [] => pure ()
  | driver :: rest => do
    Renderer.Render maxFramesInFlight driver
    renderFrames maxFramesInFlight rest

/-- Every checked call of one `Render` returned `eSuccess`. -/
def FrameResults.allSuccess (d : FrameResults) : Prop :=
  d.waitForFences = eSuccess ∧ d.acquireNextImageKHR = eSuccess ∧ d.resetFences = eSuccess ∧
    d.commandBufferBegin = eSuccess ∧ d.queueSubmit = eSuccess ∧ d.presentKHR = eSuccess

instance (d : FrameResults) : Decidable d.allSuccess := by
  unfold FrameResults.allSuccess; infer_instance

/-! ## The per-frame protocol of the specification -/

/-- The spec's FrameSlot: "command-recording context, image-ready signal, render-complete
signal, work-done host-waitable fence". -/
structure FrameSlot where
  commandContext : Handle
  imageReady : Handle
  renderComplete : Handle
  workDone : Handle
  deriving DecidableEq, Repr

/-- The slot record made of element `i` of each of the renderer's per-frame arrays. -/
def Renderer.frameSlot (r : Renderer) (i : Nat) : Option FrameSlot :=
  match r._commandBuffers[i]?, r._imageAvailableSemaphores[i]?,
      r._renderFinishedSemaphores[i]?, r._inFlightFences[i]? with
  | some c, some a, some f, some w =>
    some { commandContext := c, imageReady := a, renderComplete := f, workDone := w }
  | _, _, _, _ => none

/-- The per-frame protocol as the specification words it (4.3, steps 1 to 6), for one slot:
wait on the slot's fence; acquire, signaling "image-ready"; reset the fence and the command
context; record (begin, the layout transition of the acquired image, end); submit, waiting
on "image-ready" and signaling "render-complete" and the fence; present the acquired image,
waiting on "render-complete". -/
def perFrameProtocol (slot : FrameSlot) (swapchain : Handle) (image : Nat) : List Call :=
  [ Call.waitForFences [slot.workDone] true UINT64_MAX,
    Call.acquireNextImageKHR swapchain UINT64_MAX slot.imageReady 0,
    Call.resetFences [slot.workDone],
    Call.commandBufferReset slot.commandContext,
    Call.commandBufferBegin slot.commandContext,
    Call.transitionImageLayout slot.commandContext image ImageLayout.eUndefined
      ImageLayout.ePresentSrcKHR,
    Call.commandBufferEnd slot.commandContext,
    Call.queueSubmit Queue.graphics
      { waitSemaphores := [slot.imageReady]
        waitDstStageMask := [PipelineStage.eColorAttachmentOutput]
        commandBuffers := [slot.commandContext]
        signalSemaphores := [slot.renderComplete] }
      slot.workDone,
    Call.presentKHR Queue.present
      { waitSemaphores := [slot.renderComplete]
        swapchains := [swapchain]
        imageIndices := [image] } ]

/-- The fences a call names. -/
def Call.fencesUsed : Call → List Handle
  | .createFence _ f => [f]
  | .waitForFences fs _ _ => fs
  | .acquireNextImageKHR _ _ _ f => [f]
  | .resetFences fs => fs
  | .queueSubmit _ _ f => [f]
  | _ => []

/-- The semaphores a call names. -/
def Call.semaphoresUsed : Call → List Handle
  | .createSemaphore s => [s]
  | .acquireNextImageKHR _ _ s _ => [s]
  | .queueSubmit _ info _ => info.waitSemaphores ++ info.signalSemaphores
  | .presentKHR _ info => info.waitSemaphores
  | _ => []

/-- The frame command buffers a call names. -/
def Call.commandBuffersUsed : Call → List Handle
  | .commandBufferReset c => [c]
  | .commandBufferBegin c => [c]
  | .transitionImageLayout c _ _ _ => [c]
  | .commandBufferEnd c => [c]
  | .queueSubmit _ info _ => info.commandBuffers
  | _ => []

/-! ## Fences and submissions on the device -/

/-- The device state the frame loop synchronises on: the fences that are signaled, and for
every queue submission still executing the fence it was made with. -/
structure FenceWorld where
  signaled : List Handle := []
  outstanding : List Handle := []
  deriving DecidableEq, Repr

/-- An event of host and device together: a call of the host returns successfully, or the
device completes a submission made with the given fence. -/
inductive Event where
  | host (c : Call)
  | complete (fence : Handle)
  deriving DecidableEq, Repr

/-- One event.  A fence is created with no submission and signaled or not as asked; a wait
returns only when every fence it names is signaled; a reset unsignals; a submission made
with a fence is outstanding until the device completes it, which signals that fence.
An event that cannot happen in the state has no successor. -/
def FenceWorld.step (w : FenceWorld) : Event → Option FenceWorld
  | .host (.createFence signaled f) =>
    some { signaled := if signaled then f :: w.signaled else w.signaled.filter (· ≠ f)
           outstanding := w.outstanding.filter (· ≠ f) }
  | .host (.waitForFences fences _ _) =>
    if fences.all (· ∈ w.signaled) then some w else none
  | .host (.resetFences fences) =>
    some { w with signaled := w.signaled.filter (· ∉ fences) }
  | .host (.queueSubmit _ _ fence) =>
    some { w with outstanding := fence :: w.outstanding }
  | .host _ => some w
  | .complete fence =>
    if fence ∈ w.outstanding then
      some { signaled := fence :: w.signaled, outstanding := w.outstanding.erase fence }
    else none

/-- A sequence of events, from the left. -/
def FenceWorld.exec (w : FenceWorld) : List Event → Option FenceWorld
  | [] => some w
  | e :: es => (w.step e).bind fun w' => w'.exec es

/-- The calls of the host among the events, in order. -/
def hostCalls : List Event → List Call
  | [] => []
  | .host c :: es => c :: hostCalls es
  | .complete _ :: es => hostCalls es

/-! ## Notions the proofs use -/

/-- The machine after the calls `cs` were issued. -/
def Machine.issued (s : Machine) (cs : List Call) : Machine :=
  { s with device := { s.device with calls := s.device.calls ++ cs } }

/-- The four per-frame arrays have `N` elements each. -/
def Renderer.Framed (N : Nat) (r : Renderer) : Prop :=
  r._commandBuffers.length = N ∧ r._imageAvailableSemaphores.length = N ∧
    r._renderFinishedSemaphores.length = N ∧ r._inFlightFences.length = N

/-- The calls of the frames `frames` when the first of them runs on slot `i`: one
per-frame protocol after the other, the slot advancing modulo `N`. -/
def frameCalls (N : Nat) (r : Renderer) : (i : Nat) → (frames : List FrameResults) → List Call
  | _, [] => []
  | i, d :: ds =>
    (match r.frameSlot i with
      | some slot => perFrameProtocol slot r._swapChain d.swapChainImageIndex
      | none => []) ++ frameCalls N r ((i + 1) % N) ds

/-- Whether the call creates a semaphore, or a fence in the signaled state. -/
def Call.isSyncCreate : Call → Bool
  | .createSemaphore _ => true
  | .createFence signaled _ => signaled
  | _ => false

/-- Whether the call is a queue submission. -/
def Call.isQueueSubmit : Call → Bool
  | .queueSubmit _ _ _ => true
  | _ => false

/-! ## What each phase of the construction does when it runs to its end -/

/-- The vertices `InitializeTriangle` uploads. -/
def triangleVertices : List Vertex :=
  [ { position := [f32_one, f32_one, f32_zero] },
    { position := [f32_minusOne, f32_one, f32_zero] },
    { position := [f32_zero, f32_minusOne, f32_zero] } ]

/-- The row-major 3x4 identity both `InitializeTriangle` and `InitializeTLAS` write. -/
def identityTransform : VkTransformMatrixKHR :=
  { matrix :=
      [ [f32_one, f32_zero, f32_zero, f32_zero],
        [f32_zero, f32_one, f32_zero, f32_zero],
        [f32_zero, f32_zero, f32_one, f32_zero] ] }

/-- A geometry buffer as `InitializeTriangle` requests it. -/
def geometryBuffer (name : String) (size : Nat) (handle : Handle) : Buffer :=
  { buffer := handle
    creation :=
      { name := name
        usage := [BufferUsage.eAccelerationStructureBuildInputReadOnlyKHR,
          BufferUsage.eShaderDeviceAddress]
        memoryUsage := VmaMemoryUsage.VMA_MEMORY_USAGE_AUTO_PREFER_DEVICE
        isMappable := true
        size := size } }

/-- The calls of an `InitializeTriangle` that runs to its end, `o` objects existing before. -/
def triangleCalls (o : Nat) : List Call :=
  [ Call.createBuffer (geometryBuffer "Vertex Buffer" 36 (o + 1)).creation (o + 1),
    Call.memcpy (geometryBuffer "Vertex Buffer" 36 (o + 1)) (.vertices triangleVertices) 36,
    Call.createBuffer (geometryBuffer "Index Buffer" 12 (o + 2)).creation (o + 2),
    Call.memcpy (geometryBuffer "Index Buffer" 12 (o + 2)) (.indices [0, 1, 2]) 12,
    Call.createBuffer (geometryBuffer "Transform Buffer" 12 (o + 3)).creation (o + 3),
    Call.memcpy (geometryBuffer "Transform Buffer" 12 (o + 3))
      (.transformMatrix identityTransform) 48 ]

/-- The machine an `InitializeTriangle` that runs to its end leaves. -/
def Machine.afterTriangle (s : Machine) : Machine :=
  { self := { s.self with
      _vertexBuffer := some (geometryBuffer "Vertex Buffer" 36 (s.device.objects + 1))
      _indexBuffer := some (geometryBuffer "Index Buffer" 12 (s.device.objects + 2))
      _transformBuffer := some (geometryBuffer "Transform Buffer" 12 (s.device.objects + 3)) }
    device :=
      { calls := s.device.calls ++ triangleCalls s.device.objects
        objects := s.device.objects + 3 } }

/-- The build description `InitializeBLAS` hands to the size query: one opaque triangle
geometry over the three geometry buffers, no destination and no scratch yet. -/
def blasQuery (env : Environment) (vb ib tb : Buffer) :
    AccelerationStructureBuildGeometryInfoKHR :=
  { type := AccelerationStructureTypeKHR.eBottomLevel
    flags := [BuildAccelerationStructureFlagBitsKHR.ePreferFastTrace]
    mode := BuildAccelerationStructureModeKHR.eBuild
    srcAccelerationStructure := 0
    dstAccelerationStructure := 0
    geometryCount := 1
    pGeometries :=
      [ { flags := [GeometryFlagBitsKHR.eOpaque]
          geometryType := GeometryTypeKHR.eTriangles
          geometry := .triangles
            { vertexFormat := Format.eR32G32B32Sfloat
              vertexData := env.getBufferAddress vb.buffer
              vertexStride := 12
              maxVertex := 0
              indexType := IndexType.eUint32
              indexData := env.getBufferAddress ib.buffer
              transformData := env.getBufferAddress tb.buffer } } ]
    scratchData := 0 }

/-- What the driver answers to the size query of `InitializeBLAS`. -/
def blasSizes (env : Environment) (vb ib tb : Buffer) : AccelerationStructureBuildSizesInfoKHR :=
  env.getAccelerationStructureBuildSizesKHR (blasQuery env vb ib tb) 1

/-- A structure (backing-storage) buffer as both builds request it. -/
def storageBuffer (name : String) (size : Nat) (handle : Handle) : Buffer :=
  { buffer := handle
    creation :=
      { name := name
        usage := [BufferUsage.eAccelerationStructureStorageKHR, BufferUsage.eShaderDeviceAddress]
        memoryUsage := VmaMemoryUsage.VMA_MEMORY_USAGE_GPU_ONLY
        isMappable := false
        size := size } }

/-- A scratch buffer as both builds request it. -/
def scratchBuffer (name : String) (size : Nat) (handle : Handle) : Buffer :=
  { buffer := handle
    creation :=
      { name := name
        usage := [BufferUsage.eStorageBuffer, BufferUsage.eShaderDeviceAddress]
        memoryUsage := VmaMemoryUsage.VMA_MEMORY_USAGE_GPU_ONLY
        isMappable := false
        size := size } }

/-- The build range both builds use: one primitive, no offsets. -/
def onePrimitive : AccelerationStructureBuildRangeInfoKHR :=
  { primitiveCount := 1, primitiveOffset := 0, firstVertex := 0, transformOffset := 0 }

/-- The calls of an `InitializeBLAS` that runs to its end, `o` objects existing before: the
three buffer addresses, the size query, the two allocations of the reported sizes, the
structure on the structure buffer, the scratch address, the build and its submission. -/
def blasCalls (env : Environment) (vb ib tb : Buffer) (o : Nat) : List Call :=
  [ Call.getBufferAddress vb.buffer,
    Call.getBufferAddress ib.buffer,
    Call.getBufferAddress tb.buffer,
    Call.getAccelerationStructureBuildSizesKHR AccelerationStructureBuildTypeKHR.eDevice
      (blasQuery env vb ib tb) 1,
    Call.createBuffer (storageBuffer "BLAS Structure Buffer"
      (blasSizes env vb ib tb).accelerationStructureSize (o + 1)).creation (o + 1),
    Call.createBuffer (scratchBuffer "BLAS Scratch Buffer"
      (blasSizes env vb ib tb).buildScratchSize (o + 2)).creation (o + 2),
    Call.createAccelerationStructureKHR
      { buffer := o + 1
        offset := 0
        size := (blasSizes env vb ib tb).accelerationStructureSize
        type := AccelerationStructureTypeKHR.eBottomLevel } (o + 3),
    Call.getBufferAddress (o + 2),
    Call.buildAccelerationStructuresKHR
      { blasQuery env vb ib tb with
        dstAccelerationStructure := o + 3
        scratchData := env.getBufferAddress (o + 2) } [onePrimitive],
    Call.singleTimeCommandsSubmit ]

/-- The calls of `InitializeBLAS` whose result is checked, `o` objects existing before: the
two allocations, the creation of the structure and the one-shot submission. -/
def blasChecked (env : Environment) (vb ib tb : Buffer) (o : Nat) : List Call :=
  [ Call.createBuffer (storageBuffer "BLAS Structure Buffer"
      (blasSizes env vb ib tb).accelerationStructureSize (o + 1)).creation (o + 1),
    Call.createBuffer (scratchBuffer "BLAS Scratch Buffer"
      (blasSizes env vb ib tb).buildScratchSize (o + 2)).creation (o + 2),
    Call.createAccelerationStructureKHR
      { buffer := o + 1
        offset := 0
        size := (blasSizes env vb ib tb).accelerationStructureSize
        type := AccelerationStructureTypeKHR.eBottomLevel } (o + 3),
    Call.singleTimeCommandsSubmit ]

/-- The machine an `InitializeBLAS` that runs to its end leaves. -/
def Machine.afterBLAS (s : Machine) (env : Environment) (vb ib tb : Buffer) : Machine :=
  { self := { s.self with
      _blas :=
        { vkStructure := s.device.objects + 3
          structureBuffer := some (storageBuffer "BLAS Structure Buffer"
            (blasSizes env vb ib tb).accelerationStructureSize (s.device.objects + 1))
          scratchBuffer := some (scratchBuffer "BLAS Scratch Buffer"
            (blasSizes env vb ib tb).buildScratchSize (s.device.objects + 2))
          instancesBuffer := s.self._blas.instancesBuffer } }
    device :=
      { calls := s.device.calls ++ blasCalls env vb ib tb s.device.objects
        objects := s.device.objects + 3 } }

/-- The build description `InitializeTLAS` hands to the size query: one opaque instances
geometry whose instance data is still empty. -/
def tlasQuery : AccelerationStructureBuildGeometryInfoKHR :=
  { type := AccelerationStructureTypeKHR.eTopLevel
    flags := [BuildAccelerationStructureFlagBitsKHR.ePreferFastTrace]
    mode := BuildAccelerationStructureModeKHR.eBuild
    srcAccelerationStructure := 0
    dstAccelerationStructure := 0
    geometryCount := 1
    pGeometries :=
      [ { flags := [GeometryFlagBitsKHR.eOpaque]
          geometryType := GeometryTypeKHR.eInstances
          geometry := .instances {} } ] }

/-- What the driver answers to the size query of `InitializeTLAS`. -/
def tlasSizes (env : Environment) : AccelerationStructureBuildSizesInfoKHR :=
  env.getAccelerationStructureBuildSizesKHR tlasQuery 1

/-- The single instance `InitializeTLAS` writes, referring to the structure `blas`. -/
def tlasInstance (env : Environment) (blas : Handle) : AccelerationStructureInstanceKHR :=
  { flags := [GeometryInstanceFlagBitsKHR.VK_GEOMETRY_INSTANCE_TRIANGLE_FACING_CULL_DISABLE_BIT_KHR]
    transform := identityTransform
    instanceCustomIndex := 0
    mask := 0xFF
    instanceShaderBindingTableRecordOffset := 0
    accelerationStructureReference := env.getAccelerationStructureAddressKHR blas }

/-- The calls of an `InitializeTLAS` that runs to its end, `o` objects existing before, on
a renderer whose `_blas` holds the structure `blas` and the structure buffer `blasBuffer`. -/
def tlasCalls (env : Environment) (blas : Handle) (blasBuffer : Buffer) (o : Nat) : List Call :=
  [ Call.getAccelerationStructureBuildSizesKHR AccelerationStructureBuildTypeKHR.eDevice
      tlasQuery 1,
    Call.createBuffer (storageBuffer "TLAS Structure Buffer"
      (tlasSizes env).accelerationStructureSize (o + 1)).creation (o + 1),
    Call.createBuffer (scratchBuffer "TLAS Scratch Buffer"
      (tlasSizes env).buildScratchSize (o + 2)).creation (o + 2),
    Call.createAccelerationStructureKHR
      { buffer := blasBuffer.buffer
        offset := 0
        size := (tlasSizes env).accelerationStructureSize
        type := AccelerationStructureTypeKHR.eTopLevel } (o + 3),
    Call.getAccelerationStructureAddressKHR blas,
    Call.createBuffer (geometryBuffer "TLAS Instances Buffer"
      (tlasSizes env).accelerationStructureSize (o + 4)).creation (o + 4),
    Call.memcpy (geometryBuffer "TLAS Instances Buffer"
      (tlasSizes env).accelerationStructureSize (o + 4))
      (.accelerationStructureInstance (tlasInstance env blas)) 64,
    Call.getBufferAddress (o + 2),
    Call.getBufferAddress (o + 4),
    Call.buildAccelerationStructuresKHR
      { tlasQuery with
        dstAccelerationStructure := o + 3
        scratchData := env.getBufferAddress (o + 2)
        pGeometries :=
          [ { flags := [GeometryFlagBitsKHR.eOpaque]
              geometryType := GeometryTypeKHR.eInstances
              geometry := .instances
                { arrayOfPointers := false, data := env.getBufferAddress (o + 4) } } ] }
      [onePrimitive],
    Call.singleTimeCommandsSubmit ]

/-- The machine an `InitializeTLAS` that runs to its end leaves. -/
def Machine.afterTLAS (s : Machine) (env : Environment) (blasBuffer : Buffer) : Machine :=
  { self := { s.self with
      _tlas :=
        { vkStructure := s.device.objects + 3
          structureBuffer := some (storageBuffer "TLAS Structure Buffer"
            (tlasSizes env).accelerationStructureSize (s.device.objects + 1))
          scratchBuffer := some (scratchBuffer "TLAS Scratch Buffer"
            (tlasSizes env).buildScratchSize (s.device.objects + 2))
          instancesBuffer := some (geometryBuffer "TLAS Instances Buffer"
            (tlasSizes env).accelerationStructureSize (s.device.objects + 4)) } }
    device :=
      { calls := s.device.calls ++
          tlasCalls env s.self._blas.vkStructure blasBuffer s.device.objects
        objects := s.device.objects + 4 } }

/-- The camera uniform buffer as `InitializeDescriptorSets` requests it. -/
def uniformBuffer (handle : Handle) : Buffer :=
  { buffer := handle
    creation :=
      { name := "Camera Uniform Buffer"
        usage := [BufferUsage.eUniformBuffer]
        memoryUsage := VmaMemoryUsage.VMA_MEMORY_USAGE_AUTO_PREFER_DEVICE
        isMappable := true
        size := 128 } }

/-- The layout bindings `InitializeDescriptorSets` passes to `createDescriptorSetLayout`. -/
def layoutBindings : List DescriptorSetLayoutBinding :=
  [ { binding := 0, descriptorType := DescriptorType.eStorageImage, descriptorCount := 1,
      stageFlags := [ShaderStageFlagBits.eRaygenKHR] },
    { binding := 1, descriptorType := DescriptorType.eAccelerationStructureKHR,
      descriptorCount := 1, stageFlags := [ShaderStageFlagBits.eRaygenKHR] },
    { binding := 2, descriptorType := DescriptorType.eUniformBuffer, descriptorCount := 1,
      stageFlags := [ShaderStageFlagBits.eRaygenKHR] } ]

/-- The pool description `InitializeDescriptorSets` passes to `createDescriptorPool`: all
three assignments went to element 0 of `poolSizes`, the last one stays. -/
def poolCreateInfo : DescriptorPoolCreateInfo :=
  { maxSets := 1
    poolSizeCount := 3
    pPoolSizes :=
      [ { type := DescriptorType.eUniformBuffer, descriptorCount := 1 },
        { type := DescriptorType.eSampler, descriptorCount := 0 },
        { type := DescriptorType.eSampler, descriptorCount := 0 } ] }

/-- The three writes `InitializeDescriptorSets` passes to `updateDescriptorSets` for the
set `set`, the top-level structure `tlas` and the uniform buffer `uniform`; the image
write carries the layout and a null image view. -/
def descriptorWrites (set tlas uniform : Handle) : List WriteDescriptorSet :=
  [ { dstSet := set, dstBinding := 0, dstArrayElement := 0, descriptorCount := 1,
      descriptorType := DescriptorType.eStorageImage,
      pImageInfo := some { sampler := 0, imageView := 0, imageLayout := ImageLayout.eGeneral } },
    { pNext := some { accelerationStructureCount := 1, pAccelerationStructures := [tlas] },
      dstSet := set, dstBinding := 1, dstArrayElement := 0, descriptorCount := 1,
      descriptorType := DescriptorType.eAccelerationStructureKHR },
    { dstSet := set, dstBinding := 2, dstArrayElement := 0, descriptorCount := 1,
      descriptorType := DescriptorType.eUniformBuffer,
      pBufferInfo := some { buffer := uniform, offset := 0, range := 128 } } ]

/-- The calls of an `InitializeDescriptorSets` that runs to its end, `o` objects existing
before, on a renderer whose `_tlas` holds the structure `tlas`. -/
def descriptorCalls (tlas : Handle) (o : Nat) : List Call :=
  [ Call.createBuffer (uniformBuffer (o + 1)).creation (o + 1),
    Call.createDescriptorSetLayout layoutBindings (o + 2),
    Call.createDescriptorPool poolCreateInfo (o + 3),
    Call.allocateDescriptorSets
      { descriptorPool := o + 3, descriptorSetCount := 1, pSetLayouts := [o + 2] } (o + 4),
    Call.updateDescriptorSets (descriptorWrites (o + 4) tlas (o + 1)) ]

/-- The machine an `InitializeDescriptorSets` that runs to its end leaves. -/
def Machine.afterDescriptorSets (s : Machine) : Machine :=
  { self := { s.self with
      _uniformBuffer := some (uniformBuffer (s.device.objects + 1))
      _descriptorSetLayout := s.device.objects + 2
      _descriptorPool := s.device.objects + 3
      _descriptorSet := s.device.objects + 4 }
    device :=
      { calls := s.device.calls ++ descriptorCalls s.self._tlas.vkStructure s.device.objects
        objects := s.device.objects + 4 } }

/-- The calls of the loop of `InitializeSynchronizationObjects` over `k` slots when it runs
to its end, `o` objects existing before: per slot two semaphores and a signaled fence. -/
def syncCalls : (k : Nat) → (o : Nat) → List Call
  | 0, _ => []
  | k + 1, o =>
    [Call.createSemaphore (o + 1), Call.createSemaphore (o + 2), Call.createFence true (o + 3)]
      ++ syncCalls k (o + 3)

/-- The machine after the swap chain, the command buffers and the synchronization objects
were created: the swap chain is object 1, the command buffers are objects `2` to `N + 1`,
and slot `i` has the semaphores `N + 2 + 3 i`, `N + 3 + 3 i` and the fence `N + 4 + 3 i`. -/
def Machine.afterSync (N : Nat) (initInfo : VulkanInitInfo) : Machine :=
  { self := { Renderer.members N with
      _swapChain := 1
      _commandBuffers := (List.range N).map fun i => 2 + i
      _imageAvailableSemaphores := (List.range N).map fun i => N + 2 + 3 * i
      _renderFinishedSemaphores := (List.range N).map fun i => N + 3 + 3 * i
      _inFlightFences := (List.range N).map fun i => N + 4 + 3 * i }
    device :=
      { calls := [Call.createSwapChain initInfo.width initInfo.height 1,
          Call.allocateCommandBuffers N 2] ++ syncCalls N (1 + N)
        objects := 1 + N + 3 * N } }

/-- The machine a construction that runs to its end leaves: after the synchronization
objects the triangle's buffers, the bottom-level build on them, the top-level build and
the descriptor set. -/
def Machine.constructed (N : Nat) (env : Environment) (initInfo : VulkanInitInfo) : Machine :=
  ((((Machine.afterSync N initInfo).afterTriangle).afterBLAS env
      (geometryBuffer "Vertex Buffer" 36 (1 + N + 3 * N + 1))
      (geometryBuffer "Index Buffer" 12 (1 + N + 3 * N + 2))
      (geometryBuffer "Transform Buffer" 12 (1 + N + 3 * N + 3))).afterTLAS env
      (storageBuffer "BLAS Structure Buffer"
        (blasSizes env (geometryBuffer "Vertex Buffer" 36 (1 + N + 3 * N + 1))
          (geometryBuffer "Index Buffer" 12 (1 + N + 3 * N + 2))
          (geometryBuffer "Transform Buffer" 12 (1 + N + 3 * N + 3))).accelerationStructureSize
        (1 + N + 3 * N + 3 + 1))).afterDescriptorSets

/-! ## What the host knows of the fences -/

/-- What the host knows of the fences from its own calls alone: the fences with no
submission outstanding (it waited on them), and those of them that are also unsignaled (it
reset them after the wait). -/
structure Gate where
  idle : List Handle := []
  unsignaled : List Handle := []
  deriving DecidableEq, Repr

/-- One call of the host: a wait makes its fences idle, a reset makes the idle ones among
its fences unsignaled, a submission needs its fence idle and unsignaled and ends both; a
newly created fence is not known. -/
def Gate.step (g : Gate) : Call → Option Gate
  | .createFence _ f =>
    some { idle := g.idle.filter (· ≠ f), unsignaled := g.unsignaled.filter (· ≠ f) }
  | .waitForFences fences _ _ => some { g with idle := fences ++ g.idle }
  | .resetFences fences =>
    some { g with unsignaled := fences.filter (· ∈ g.idle) ++ g.unsignaled }
  | .queueSubmit _ _ f =>
    if f ∈ g.unsignaled then
      some { idle := g.idle.filter (· ≠ f), unsignaled := g.unsignaled.filter (· ≠ f) }
    else none
  | _ => some g

/-- The calls of a log, from the left; `none` when a submission is not gated. -/
def Gate.run (g : Gate) : List Call → Option Gate
  | [] => some g
  | c :: cs => (g.step c).bind fun g' => g'.run cs

/-- The device state agrees with what the host knows: at most one submission per fence is
outstanding, a signaled fence has none, and so has a fence the host knows idle; a fence the
host knows unsignaled is. -/
def FenceWorld.Agrees (w : FenceWorld) (g : Gate) : Prop :=
  w.outstanding.Nodup ∧ (∀ f ∈ w.signaled, f ∉ w.outstanding) ∧
    (∀ f ∈ g.idle, f ∉ w.outstanding) ∧
    (∀ f ∈ g.unsignaled, f ∉ w.signaled ∧ f ∉ w.outstanding)

/-! ## Builds of acceleration structures in the log -/

/-- The builds of acceleration structures as the log shows them: those recorded into the
one-shot command buffer and not yet submitted, and those whose submission has returned. -/
structure BuildState where
  recorded : List Handle := []
  completed : List Handle := []
  deriving DecidableEq, Repr

/-- Modelled from the spec: `SingleTimeCommands::Submit` (single_time_commands.hpp, not
among the sources) "blocks the caller until device execution of the recorded commands
completes", so when it has returned the builds recorded before it are complete. -/
def BuildState.step (b : BuildState) : Call → BuildState
  | .buildAccelerationStructuresKHR buildInfo _ =>
    { b with recorded := buildInfo.dstAccelerationStructure :: b.recorded }
  | .singleTimeCommandsSubmit => { recorded := [], completed := b.recorded ++ b.completed }
  | _ => b

/-- The structures whose build is complete after the calls `calls`. -/
def completedBuilds (calls : List Call) : List Handle :=
  (calls.foldl BuildState.step {}).completed

/-- What is asked of a call given the builds before it: an address is taken of `blas`
only, a top-level build is recorded and an instance is written only with the build of
`blas` complete, and an instance refers to the address of `blas`. -/
def BuildState.Admits (env : Environment) (blas : Handle) (b : BuildState) (c : Call) : Prop :=
  (∀ h, c = Call.getAccelerationStructureAddressKHR h → h = blas ∧ blas ∈ b.completed) ∧
  (∀ buildInfo ranges, c = Call.buildAccelerationStructuresKHR buildInfo ranges →
    buildInfo.type = AccelerationStructureTypeKHR.eTopLevel → blas ∈ b.completed) ∧
  (∀ dst inst bytes, c = Call.memcpy dst (.accelerationStructureInstance inst) bytes →
    inst.accelerationStructureReference = env.getAccelerationStructureAddressKHR blas ∧
    blas ∈ b.completed)

/-- Every call of the list is admitted in the state the calls before it leave. -/
def BuildState.AdmitsAll (env : Environment) (blas : Handle) : BuildState → List Call → Prop
  | _, [] => True
  | b, c :: cs => b.Admits env blas c ∧ BuildState.AdmitsAll env blas (b.step c) cs

/-! ## Teardown -/

/-- The body of the loop of `Renderer::~Renderer` for slot `i`: the fence and the two
semaphores of the slot are destroyed, each reached with the checked `.at(i)`. -/
def Renderer.destructor.body (i : Nat) : Host Unit := do
  issue (.destroyFence (← arrayAt (← getSelf)._inFlightFences i))
  issue (.destroySemaphore (← arrayAt (← getSelf)._renderFinishedSemaphores i))
  issue (.destroySemaphore (← arrayAt (← getSelf)._imageAvailableSemaphores i))

/-- The destructor `Renderer::~Renderer`, its body: the layout and the pool of the
descriptor set, the two acceleration structures, then the loop over the slots. -/
def Renderer.destructor (maxFramesInFlight : Nat) : Host Unit := do
  issue (.destroyDescriptorSetLayout (← getSelf)._descriptorSetLayout)
  issue (.destroyDescriptorPool (← getSelf)._descriptorPool)

  issue (.destroyAccelerationStructureKHR (← getSelf)._tlas.vkStructure)
  issue (.destroyAccelerationStructureKHR (← getSelf)._blas.vkStructure)

  forLoop Renderer.destructor.body maxFramesInFlight 0

/-- The groups of resources the teardown order of the specification names. -/
inductive ResourceGroup where
  | synchronization
  | bottomLevel
  | topLevel
  | bindingSet
  deriving DecidableEq, Repr

/-- The group of an acceleration structure of the given type. -/
def ResourceGroup.ofType : AccelerationStructureTypeKHR → ResourceGroup
  | .eBottomLevel => .bottomLevel
  | .eTopLevel => .topLevel

/-- The type the structure `h` was created with in the log `created`, if it was. -/
def structureType (created : List Call) (h : Handle) : Option AccelerationStructureTypeKHR :=
  created.findSome? fun c =>
    match c with
    | .createAccelerationStructureKHR createInfo structure_ =>
      if structure_ = h then some createInfo.type else none
    | _ => none

/-- The group of the object a call creates or destroys, for the objects the destructor
releases: semaphores and fences, acceleration structures (a destroyed one by the type it
was created with in `created`), and the layout, pool and set of the descriptor set. -/
def Call.group (created : List Call) : Call → Option ResourceGroup
  | .createSemaphore _ => some .synchronization
  | .createFence _ _ => some .synchronization
  | .destroySemaphore _ => some .synchronization
  | .destroyFence _ => some .synchronization
  | .createAccelerationStructureKHR createInfo _ => some (ResourceGroup.ofType createInfo.type)
  | .destroyAccelerationStructureKHR h => (structureType created h).map ResourceGroup.ofType
  | .createDescriptorSetLayout _ _ => some .bindingSet
  | .createDescriptorPool _ _ => some .bindingSet
  | .allocateDescriptorSets _ _ => some .bindingSet
  | .destroyDescriptorSetLayout _ => some .bindingSet
  | .destroyDescriptorPool _ => some .bindingSet
  | _ => none

/-- The order in which the calls `calls` go through the groups: the group of each call
that creates or destroys an object, a run of calls on one group counted once. -/
def groupOrder (created calls : List Call) : List ResourceGroup :=
  (calls.filterMap (Call.group created)).destutter (· ≠ ·)

/-- The calls of the destructor's loop for slot `i`. -/
def Renderer.slotReleases (r : Renderer) (i : Nat) : List Call :=
  match r._inFlightFences[i]?, r._renderFinishedSemaphores[i]?,
      r._imageAvailableSemaphores[i]? with
  | some fence, some renderFinished, some imageAvailable =>
    [Call.destroyFence fence, Call.destroySemaphore renderFinished,
      Call.destroySemaphore imageAvailable]
  | _, _, _ => []

/-- The calls of a destructor that runs to its end. -/
def Renderer.releases (N : Nat) (r : Renderer) : List Call :=
  [ Call.destroyDescriptorSetLayout r._descriptorSetLayout,
    Call.destroyDescriptorPool r._descriptorPool,
    Call.destroyAccelerationStructureKHR r._tlas.vkStructure,
    Call.destroyAccelerationStructureKHR r._blas.vkStructure ]
    ++ (List.range' 0 N).flatMap r.slotReleases

/-! ## The instance record -/

/-- The value of a `VkGeometryInstanceFlagBitsKHR` bit. -/
def GeometryInstanceFlagBitsKHR.value : GeometryInstanceFlagBitsKHR → Nat
  | .VK_GEOMETRY_INSTANCE_TRIANGLE_FACING_CULL_DISABLE_BIT_KHR => 0x00000001

/-- Modelled from the spec: the C structure `VkAccelerationStructureInstanceKHR`
(vulkan_core.h, not among the sources), "the instance layout the device consumes", field by
field: the transform, `instanceCustomIndex:24` and `mask:8` in one 32-bit word,
`instanceShaderBindingTableRecordOffset:24` and `flags:8` in the next, and the 64-bit
`accelerationStructureReference`. -/
structure VkAccelerationStructureInstanceKHR where
  transform : VkTransformMatrixKHR
  instanceCustomIndex : Nat
  mask : Nat
  instanceShaderBindingTableRecordOffset : Nat
  flags : Nat
  accelerationStructureReference : Nat
  deriving DecidableEq, Repr

/-- The C structure a `vk::AccelerationStructureInstanceKHR` wraps; the flags are the bits
or-ed together. -/
def AccelerationStructureInstanceKHR.toC (i : AccelerationStructureInstanceKHR) :
    VkAccelerationStructureInstanceKHR :=
  { transform := i.transform
    instanceCustomIndex := i.instanceCustomIndex
    mask := i.mask
    instanceShaderBindingTableRecordOffset := i.instanceShaderBindingTableRecordOffset
    flags := i.flags.foldl (fun acc bit => acc ||| bit.value) 0
    accelerationStructureReference := i.accelerationStructureReference }

/-- The matrix has three rows of four 32-bit floats. -/
def VkTransformMatrixKHR.Fits (m : VkTransformMatrixKHR) : Prop :=
  m.matrix.length = 3 ∧ ∀ row ∈ m.matrix, row.length = 4 ∧ ∀ x ∈ row, x < 2 ^ 32

/-- Every field fits its width. -/
def VkAccelerationStructureInstanceKHR.Fits (i : VkAccelerationStructureInstanceKHR) : Prop :=
  i.transform.Fits ∧ i.instanceCustomIndex < 2 ^ 24 ∧ i.mask < 2 ^ 8 ∧
    i.instanceShaderBindingTableRecordOffset < 2 ^ 24 ∧ i.flags < 2 ^ 8 ∧
    i.accelerationStructureReference < 2 ^ 64

/-- The four bytes of a 32-bit word, the least significant first. -/
def bytes32 (w : Nat) : List Nat :=
  [w % 256, w / 256 % 256, w / 65536 % 256, w / 16777216 % 256]

/-- The eight bytes of a 64-bit word, the least significant first. -/
def bytes64 (w : Nat) : List Nat :=
  bytes32 (w % 4294967296) ++ bytes32 (w / 4294967296)

/-- The 32-bit word whose four bytes start at offset `o` of `b`. -/
def word32 (b : List Nat) (o : Nat) : Nat :=
  b.getD o 0 + 256 * b.getD (o + 1) 0 + 65536 * b.getD (o + 2) 0 + 16777216 * b.getD (o + 3) 0

/-- Modelled from the spec: the 64 bytes of a `VkAccelerationStructureInstanceKHR`, which
`memcpy` copies: the twelve floats row by row at offset 0, the word of custom index (low 24
bits) and mask (high 8 bits) at offset 48, the word of record offset (low 24 bits) and
flags (high 8 bits) at offset 52, the reference at offset 56. -/
def VkAccelerationStructureInstanceKHR.bytes (i : VkAccelerationStructureInstanceKHR) :
    List Nat :=
  i.transform.matrix.flatten.flatMap bytes32
    ++ bytes32 (i.instanceCustomIndex + 16777216 * i.mask)
    ++ bytes32 (i.instanceShaderBindingTableRecordOffset + 16777216 * i.flags)
    ++ bytes64 i.accelerationStructureReference

/-- Modelled from the spec: the fields read back from the 64 bytes of a
`VkAccelerationStructureInstanceKHR`. -/
def VkAccelerationStructureInstanceKHR.ofBytes (b : List Nat) :
    VkAccelerationStructureInstanceKHR :=
  { transform :=
      { matrix :=
          [ [word32 b 0, word32 b 4, word32 b 8, word32 b 12],
            [word32 b 16, word32 b 20, word32 b 24, word32 b 28],
            [word32 b 32, word32 b 36, word32 b 40, word32 b 44] ] }
    instanceCustomIndex := word32 b 48 % 16777216
    mask := word32 b 48 / 16777216
    instanceShaderBindingTableRecordOffset := word32 b 52 % 16777216
    flags := word32 b 52 / 16777216
    accelerationStructureReference := word32 b 56 + 4294967296 * word32 b 60 }

/-! ## An example -/

/-- A driver that reports success for every call, the sizes 256 and 128 for every build
description, and addresses derived from the handle. -/
def exampleEnvironment : Environment :=
  { result := fun _ => eSuccess
    getAccelerationStructureBuildSizesKHR := fun _ _ =>
      { accelerationStructureSize := 256, buildScratchSize := 128 }
    getBufferAddress := fun h => 4096 * h
    getAccelerationStructureAddressKHR := fun h => 65536 + h
    cameraData := fun _ _ => {} }

/-- A window of 800 by 600. -/
def exampleInitInfo : VulkanInitInfo := { width := 800, height := 600 }

/-- What the driver answers in a frame whose queue submission fails with
`VK_ERROR_DEVICE_LOST`. -/
def submitFails : FrameResults := { queueSubmit := (-4 : Int) }

/-- The objects of slot 0 of the example renderer. -/
def exampleSlot : FrameSlot :=
  { commandContext := 2, imageReady := 4, renderComplete := 5, workDone := 6 }

/-- The renderer constructed with two frames in flight on the example driver. -/
def exampleMachine : Machine := Machine.constructed 2 exampleEnvironment exampleInitInfo

/-- Three frames on the example renderer as host and device may interleave them: the
construction, the frame of slot 0, the frame of slot 1, the device completing the
submission of slot 0 (fence 6), and the next frame of slot 0. -/
def exampleEvents : List Event :=
  (exampleMachine.device.calls ++ frameCalls 2 exampleMachine.self 0 [{}, {}]).map Event.host
    ++ [Event.complete 6]
    ++ (frameCalls 2 exampleMachine.self 0 [{}]).map Event.host

/-- A driver that reports a structure size of 256 and a scratch size of zero, and whose
allocator rejects an empty buffer with `VK_ERROR_INITIALIZATION_FAILED`. -/
def noScratchEnvironment : Environment :=
  { exampleEnvironment with
    result := fun c =>
      match c with
      | .createBuffer creation _ => if creation.size = 0 then (-3 : Int) else eSuccess
      | _ => eSuccess
    getAccelerationStructureBuildSizesKHR := fun _ _ =>
      { accelerationStructureSize := 256, buildScratchSize := 0 } }

/-- The example renderer before `InitializeBLAS`: two frames in flight, the triangle's
buffers 10, 11 and 12 created. -/
def exampleGeometryMachine : Machine := (Machine.afterSync 2 exampleInitInfo).afterTriangle

/-! ## Running host code -/

theorem run_pure {α : Type} (a : α) (s : Machine) : (pure a : Host α) s = (Except.ok a, s) := rfl

theorem run_bind {α β : Type} (m : Host α) (f : α → Host β) (s : Machine) :
    (m >>= f) s = match m s with
      | (Except.ok a, s') => f a s'
      | (Except.error e, s') => (Except.error e, s') := rfl

theorem run_raise {α : Type} (msg : String) (s : Machine) :
    (raise msg : Host α) s = (Except.error msg, s) := rfl

theorem run_getSelf (s : Machine) : getSelf s = (Except.ok s.self, s) := rfl

theorem run_modifySelf (f : Renderer → Renderer) (s : Machine) :
    modifySelf f s = (Except.ok (), { s with self := f s.self }) := rfl

theorem run_issue (c : Call) (s : Machine) :
    issue c s = (Except.ok (),
      { s with device := { s.device with calls := s.device.calls ++ [c] } }) := rfl

theorem run_VkCheckResult (r : Result) (msg : String) (s : Machine) :
    VkCheckResult r msg s = if r = eSuccess then (Except.ok (), s) else (Except.error msg, s) := by
  unfold VkCheckResult
  split <;> rfl

theorem run_arrayAt_some {xs : List Handle} {i : Nat} {x : Handle} (h : xs[i]? = some x)
    (s : Machine) : arrayAt xs i s = (Except.ok x, s) := by
  unfold arrayAt
  rw [h]
  rfl

theorem frameSlot_eq_some {r : Renderer} {i : Nat} {slot : FrameSlot}
    (h : r.frameSlot i = some slot) :
    r._commandBuffers[i]? = some slot.commandContext ∧
    r._imageAvailableSemaphores[i]? = some slot.imageReady ∧
    r._renderFinishedSemaphores[i]? = some slot.renderComplete ∧
    r._inFlightFences[i]? = some slot.workDone := by
  unfold Renderer.frameSlot at h
  split at h
  · simp at h
    subst h
    simp_all
  · simp at h

theorem Render_run (N : Nat) (d : FrameResults) (s : Machine) (slot : FrameSlot)
    (h : s.self.frameSlot s.self._currentResourcesFrame = some slot) :
    (Renderer.Render N d).run s =
      if d.waitForFences ≠ eSuccess then
        (Except.error "[VULKAN] Failed waiting on in flight fence!",
          s.issued ((perFrameProtocol slot s.self._swapChain d.swapChainImageIndex).take 1))
      else if d.acquireNextImageKHR ≠ eSuccess then
        (Except.error "[VULKAN] Failed to acquire swap chain image!",
          s.issued ((perFrameProtocol slot s.self._swapChain d.swapChainImageIndex).take 2))
      else if d.resetFences ≠ eSuccess then
        (Except.error "[VULKAN] Failed resetting fences!",
          s.issued ((perFrameProtocol slot s.self._swapChain d.swapChainImageIndex).take 3))
      else if d.commandBufferBegin ≠ eSuccess then
        (Except.error "[VULKAN] Failed to begin recording command buffer!",
          s.issued ((perFrameProtocol slot s.self._swapChain d.swapChainImageIndex).take 5))
      else if d.queueSubmit ≠ eSuccess then
        (Except.error "[VULKAN] Failed submitting to graphics queue!",
          s.issued ((perFrameProtocol slot s.self._swapChain d.swapChainImageIndex).take 8))
      else if d.presentKHR ≠ eSuccess then
        (Except.error "[VULKAN] Failed to present swap chain image!",
          s.issued (perFrameProtocol slot s.self._swapChain d.swapChainImageIndex))
      else
        (Except.ok (),
          { self := { s.self with
              _currentResourcesFrame := (s.self._currentResourcesFrame + 1) % N }
            device := (s.issued
              (perFrameProtocol slot s.self._swapChain d.swapChainImageIndex)).device }) := by
  obtain ⟨hc, ha, hr, hf⟩ := frameSlot_eq_some h
  by_cases h1 : d.waitForFences = eSuccess
  case neg =>
    simp [Renderer.Render, Host.run, run_bind, run_pure, run_getSelf, run_issue,
      run_VkCheckResult, run_arrayAt_some hf, Machine.issued, perFrameProtocol, h1]
  by_cases h2 : d.acquireNextImageKHR = eSuccess
  case neg =>
    simp [Renderer.Render, Host.run, run_bind, run_pure, run_getSelf, run_issue,
      run_VkCheckResult, run_arrayAt_some hf, run_arrayAt_some ha, Machine.issued,
      perFrameProtocol, h1, h2]
  by_cases h3 : d.resetFences = eSuccess
  case neg =>
    simp [Renderer.Render, Host.run, run_bind, run_pure, run_getSelf, run_issue,
      run_VkCheckResult, run_arrayAt_some hf, run_arrayAt_some ha, Machine.issued,
      perFrameProtocol, h1, h2, h3]
  by_cases h4 : d.commandBufferBegin = eSuccess
  case neg =>
    simp [Renderer.Render, Host.run, run_bind, run_pure, run_getSelf, run_issue,
      run_VkCheckResult, run_arrayAt_some hf, run_arrayAt_some ha, run_arrayAt_some hc,
      Machine.issued, perFrameProtocol, h1, h2, h3, h4]
  by_cases h5 : d.queueSubmit = eSuccess
  case neg =>
    simp [Renderer.Render, Host.run, run_bind, run_pure, run_getSelf, run_issue,
      run_VkCheckResult, run_arrayAt_some hf, run_arrayAt_some ha, run_arrayAt_some hc,
      run_arrayAt_some hr, Renderer.RecordCommands, Machine.issued, perFrameProtocol,
      h1, h2, h3, h4, h5]
  by_cases h6 : d.presentKHR = eSuccess
  case neg =>
    simp [Renderer.Render, Host.run, run_bind, run_pure, run_getSelf, run_issue,
      run_VkCheckResult, run_arrayAt_some hf, run_arrayAt_some ha, run_arrayAt_some hc,
      run_arrayAt_some hr, Renderer.RecordCommands, Machine.issued, perFrameProtocol,
      h1, h2, h3, h4, h5, h6]
  simp [Renderer.Render, Host.run, run_bind, run_pure, run_getSelf, run_issue,
    run_VkCheckResult, run_arrayAt_some hf, run_arrayAt_some ha, run_arrayAt_some hc,
    run_arrayAt_some hr, Renderer.RecordCommands, run_modifySelf, Machine.issued,
    perFrameProtocol, h1, h2, h3, h4, h5, h6]

/-- A bind that returns normally: both halves did. -/
theorem bind_ok {α β : Type} {m : Host α} {f : α → Host β} {s s' : Machine} {b : β}
    (h : (m >>= f) s = (Except.ok b, s')) :
    ∃ a s1, m s = (Except.ok a, s1) ∧ f a s1 = (Except.ok b, s') := by
  rw [run_bind] at h
  rcases hms : m s with ⟨r, s1⟩
  rw [hms] at h
  cases r with
  | error e => simp at h
  | ok a => exact ⟨a, s1, rfl, h⟩

theorem run_newHandles (n : Nat) (s : Machine) :
    newHandles n s = (Except.ok (s.device.objects + 1),
      { s with device := { s.device with objects := s.device.objects + n } }) := rfl

theorem run_make_unique (env : Environment) (creation : BufferCreation) (s : Machine) :
    Buffer.make_unique env creation s =
      if env.result (Call.createBuffer creation (s.device.objects + 1)) = eSuccess then
        (Except.ok (some { buffer := s.device.objects + 1, creation := creation }),
          { s with device :=
            { calls := s.device.calls ++ [Call.createBuffer creation (s.device.objects + 1)]
              objects := s.device.objects + 1 } })
      else
        (Except.error "[VULKAN] Failed creating buffer!",
          { s with device :=
            { calls := s.device.calls ++ [Call.createBuffer creation (s.device.objects + 1)]
              objects := s.device.objects + 1 } }) := by
  simp only [Buffer.make_unique, run_bind, run_newHandles, run_issue]
  split <;> rfl

theorem run_deref_some (b : Buffer) (s : Machine) : deref (some b) s = (Except.ok b, s) := rfl

theorem run_vkCall (env : Environment) (c : Call) (s : Machine) :
    vkCall env c s =
      if env.result c = eSuccess then
        (Except.ok (), { s with device := { s.device with calls := s.device.calls ++ [c] } })
      else
        (Except.error "vk::SystemError",
          { s with device := { s.device with calls := s.device.calls ++ [c] } }) := by
  simp only [vkCall, run_bind, run_issue]
  split <;> rfl

theorem run_getBufferAddress (env : Environment) (b : Handle) (s : Machine) :
    getBufferAddress env b s = (Except.ok (env.getBufferAddress b),
      { s with device := { s.device with calls := s.device.calls ++ [Call.getBufferAddress b] } }) :=
  rfl

theorem run_Submit (env : Environment) (s : Machine) :
    SingleTimeCommands.Submit env s =
      if env.result Call.singleTimeCommandsSubmit = eSuccess then
        (Except.ok (), { s with device :=
          { s.device with calls := s.device.calls ++ [Call.singleTimeCommandsSubmit] } })
      else
        (Except.error "[VULKAN] Failed submitting one time commands!",
          { s with device :=
            { s.device with calls := s.device.calls ++ [Call.singleTimeCommandsSubmit] } }) := by
  simp only [SingleTimeCommands.Submit, run_bind, run_issue, run_VkCheckResult]

/-! ## The phases of the construction -/

/-- `InitializeTriangle` either runs to its end, leaving `afterTriangle`, or raises. -/
theorem InitializeTriangle_cases (env : Environment) (s : Machine) :
    ((∀ c ∈ triangleCalls s.device.objects, env.result c = eSuccess) →
      Renderer.InitializeTriangle env s = (Except.ok (), s.afterTriangle)) ∧
    (∀ s', Renderer.InitializeTriangle env s = (Except.ok (), s') → s' = s.afterTriangle) := by
  by_cases h1 : env.result
      (Call.createBuffer (geometryBuffer "Vertex Buffer" 36 (s.device.objects + 1)).creation
        (s.device.objects + 1)) = eSuccess
  case neg =>
    constructor
    · intro h
      exact absurd (h _ (by simp [triangleCalls])) h1
    · intro s' h
      simp only [geometryBuffer] at h1
      simp [Renderer.InitializeTriangle, run_bind, run_make_unique, sizeof_Vertex, h1] at h
  by_cases h2 : env.result
      (Call.createBuffer (geometryBuffer "Index Buffer" 12 (s.device.objects + 2)).creation
        (s.device.objects + 2)) = eSuccess
  case neg =>
    constructor
    · intro h
      exact absurd (h _ (by simp [triangleCalls])) h2
    · intro s' h
      simp only [geometryBuffer] at h1 h2
      simp [Renderer.InitializeTriangle, run_bind, run_make_unique, run_modifySelf, run_getSelf,
        run_deref_some, run_issue, sizeof_Vertex, sizeof_uint32_t, h1, h2] at h
  by_cases h3 : env.result
      (Call.createBuffer (geometryBuffer "Transform Buffer" 12 (s.device.objects + 3)).creation
        (s.device.objects + 3)) = eSuccess
  case neg =>
    constructor
    · intro h
      exact absurd (h _ (by simp [triangleCalls])) h3
    · intro s' h
      simp only [geometryBuffer] at h1 h2 h3
      simp [Renderer.InitializeTriangle, run_bind, run_make_unique, run_modifySelf, run_getSelf,
        run_deref_some, run_issue, sizeof_Vertex, sizeof_uint32_t, h1, h2, h3] at h
  have hrun : Renderer.InitializeTriangle env s = (Except.ok (), s.afterTriangle) := by
    simp only [geometryBuffer] at h1 h2 h3
    simp [Renderer.InitializeTriangle, run_bind, run_pure, run_make_unique, run_modifySelf,
      run_getSelf, run_deref_some, run_issue, sizeof_Vertex, sizeof_uint32_t,
      sizeof_VkTransformMatrixKHR, h1, h2, h3, Machine.afterTriangle, triangleCalls,
      geometryBuffer, triangleVertices, identityTransform]
  constructor
  · intro _
    exact hrun
  · intro s' h
    rw [hrun] at h
    exact (Prod.mk.inj h).2.symm

/-- `InitializeBLAS` on a machine that holds the three geometry buffers either runs to its
end, leaving `afterBLAS`, or raises; it runs to its end when the driver reports success
for its calls, whatever sizes the query reports. -/
theorem InitializeBLAS_cases (env : Environment) (s : Machine) (vb ib tb : Buffer)
    (hv : s.self._vertexBuffer = some vb) (hi : s.self._indexBuffer = some ib)
    (ht : s.self._transformBuffer = some tb) :
    ((∀ c ∈ blasCalls env vb ib tb s.device.objects, env.result c = eSuccess) →
      Renderer.InitializeBLAS env s = (Except.ok (), s.afterBLAS env vb ib tb)) ∧
    (∀ s', Renderer.InitializeBLAS env s = (Except.ok (), s') → s' = s.afterBLAS env vb ib tb) := by
  by_cases h1 : env.result (Call.createBuffer (storageBuffer "BLAS Structure Buffer"
      (blasSizes env vb ib tb).accelerationStructureSize (s.device.objects + 1)).creation
      (s.device.objects + 1)) = eSuccess
  case neg =>
    constructor
    · intro h
      exact absurd (h _ (by simp [blasCalls])) h1
    · intro s' h
      simp only [blasSizes, blasQuery, storageBuffer] at h1
      simp [Renderer.InitializeBLAS, run_bind, run_pure, run_make_unique, run_modifySelf,
        run_getSelf, run_deref_some, run_issue, run_getBufferAddress, sizeof_Vertex, hv, hi,
        ht, h1] at h
  by_cases h2 : env.result (Call.createBuffer (scratchBuffer "BLAS Scratch Buffer"
      (blasSizes env vb ib tb).buildScratchSize (s.device.objects + 2)).creation
      (s.device.objects + 2)) = eSuccess
  case neg =>
    constructor
    · intro h
      exact absurd (h _ (by simp [blasCalls])) h2
    · intro s' h
      simp only [blasSizes, blasQuery, storageBuffer, scratchBuffer] at h1 h2
      simp [Renderer.InitializeBLAS, run_bind, run_pure, run_make_unique, run_modifySelf,
        run_getSelf, run_deref_some, run_issue, run_getBufferAddress, sizeof_Vertex, hv, hi,
        ht, h1, h2] at h
  by_cases h3 : env.result (Call.createAccelerationStructureKHR
      { buffer := s.device.objects + 1
        offset := 0
        size := (blasSizes env vb ib tb).accelerationStructureSize
        type := AccelerationStructureTypeKHR.eBottomLevel } (s.device.objects + 3)) = eSuccess
  case neg =>
    constructor
    · intro h
      exact absurd (h _ (by simp [blasCalls])) h3
    · intro s' h
      simp only [blasSizes, blasQuery, storageBuffer, scratchBuffer] at h1 h2 h3
      simp [Renderer.InitializeBLAS, run_bind, run_pure, run_make_unique, run_modifySelf,
        run_getSelf, run_deref_some, run_issue, run_getBufferAddress, run_newHandles,
        run_vkCall, sizeof_Vertex, hv, hi, ht, h1, h2, h3] at h
  by_cases h4 : env.result Call.singleTimeCommandsSubmit = eSuccess
  case neg =>
    constructor
    · intro h
      exact absurd (h _ (by simp [blasCalls])) h4
    · intro s' h
      simp only [blasSizes, blasQuery, storageBuffer, scratchBuffer] at h1 h2 h3
      simp [Renderer.InitializeBLAS, run_bind, run_pure, run_make_unique, run_modifySelf,
        run_getSelf, run_deref_some, run_issue, run_getBufferAddress, run_newHandles,
        run_vkCall, run_Submit, SingleTimeCommands.Record, sizeof_Vertex, hv, hi, ht, h1, h2,
        h3, h4] at h
  have hrun : Renderer.InitializeBLAS env s = (Except.ok (), s.afterBLAS env vb ib tb) := by
    simp only [blasSizes, blasQuery, storageBuffer, scratchBuffer] at h1 h2 h3
    simp [Renderer.InitializeBLAS, run_bind, run_pure, run_make_unique, run_modifySelf,
      run_getSelf, run_deref_some, run_issue, run_getBufferAddress, run_newHandles,
      run_vkCall, run_Submit, SingleTimeCommands.Record, sizeof_Vertex, hv, hi, ht, h1, h2,
      h3, h4, Machine.afterBLAS, blasCalls, blasSizes, blasQuery, storageBuffer, scratchBuffer,
      onePrimitive]
  constructor
  · intro _
    exact hrun
  · intro s' h
    rw [hrun] at h
    exact (Prod.mk.inj h).2.symm

/-- `InitializeTLAS` on a machine whose `_blas` holds a structure buffer either runs to its
end, leaving `afterTLAS`, or raises; it runs to its end when the driver reports success
for its calls. -/
theorem InitializeTLAS_cases (env : Environment) (s : Machine) (blasBuffer : Buffer)
    (hb : s.self._blas.structureBuffer = some blasBuffer) :
    ((∀ c ∈ tlasCalls env s.self._blas.vkStructure blasBuffer s.device.objects,
        env.result c = eSuccess) →
      Renderer.InitializeTLAS env s = (Except.ok (), s.afterTLAS env blasBuffer)) ∧
    (∀ s', Renderer.InitializeTLAS env s = (Except.ok (), s') →
      s' = s.afterTLAS env blasBuffer) := by
  by_cases h1 : env.result (Call.createBuffer (storageBuffer "TLAS Structure Buffer"
      (tlasSizes env).accelerationStructureSize (s.device.objects + 1)).creation
      (s.device.objects + 1)) = eSuccess
  case neg =>
    constructor
    · intro h
      exact absurd (h _ (by simp [tlasCalls])) h1
    · intro s' h
      simp only [tlasSizes, tlasQuery, storageBuffer] at h1
      simp [Renderer.InitializeTLAS, run_bind, run_pure, run_make_unique, run_modifySelf,
        run_getSelf, run_deref_some, run_issue, run_getBufferAddress, hb, h1] at h
  by_cases h2 : env.result (Call.createBuffer (scratchBuffer "TLAS Scratch Buffer"
      (tlasSizes env).buildScratchSize (s.device.objects + 2)).creation
      (s.device.objects + 2)) = eSuccess
  case neg =>
    constructor
    · intro h
      exact absurd (h _ (by simp [tlasCalls])) h2
    · intro s' h
      simp only [tlasSizes, tlasQuery, storageBuffer, scratchBuffer] at h1 h2
      simp [Renderer.InitializeTLAS, run_bind, run_pure, run_make_unique, run_modifySelf,
        run_getSelf, run_deref_some, run_issue, run_getBufferAddress, hb, h1, h2] at h
  by_cases h3 : env.result (Call.createAccelerationStructureKHR
      { buffer := blasBuffer.buffer
        offset := 0
        size := (tlasSizes env).accelerationStructureSize
        type := AccelerationStructureTypeKHR.eTopLevel } (s.device.objects + 3)) = eSuccess
  case neg =>
    constructor
    · intro h
      exact absurd (h _ (by simp [tlasCalls])) h3
    · intro s' h
      simp only [tlasSizes, tlasQuery, storageBuffer, scratchBuffer] at h1 h2 h3
      simp [Renderer.InitializeTLAS, run_bind, run_pure, run_make_unique, run_modifySelf,
        run_getSelf, run_deref_some, run_issue, run_getBufferAddress, run_newHandles,
        run_vkCall, hb, h1, h2, h3] at h
  by_cases h4 : env.result (Call.createBuffer (geometryBuffer "TLAS Instances Buffer"
      (tlasSizes env).accelerationStructureSize (s.device.objects + 4)).creation
      (s.device.objects + 4)) = eSuccess
  case neg =>
    constructor
    · intro h
      exact absurd (h _ (by simp [tlasCalls])) h4
    · intro s' h
      simp only [tlasSizes, tlasQuery, storageBuffer, scratchBuffer, geometryBuffer]
        at h1 h2 h3 h4
      simp [Renderer.InitializeTLAS, run_bind, run_pure, run_make_unique, run_modifySelf,
        run_getSelf, run_deref_some, run_issue, run_getBufferAddress, run_newHandles,
        run_vkCall, hb, h1, h2, h3, h4] at h
  by_cases h5 : env.result Call.singleTimeCommandsSubmit = eSuccess
  case neg =>
    constructor
    · intro h
      exact absurd (h _ (by simp [tlasCalls])) h5
    · intro s' h
      simp only [tlasSizes, tlasQuery, storageBuffer, scratchBuffer, geometryBuffer]
        at h1 h2 h3 h4
      simp [Renderer.InitializeTLAS, run_bind, run_pure, run_make_unique, run_modifySelf,
        run_getSelf, run_deref_some, run_issue, run_getBufferAddress, run_newHandles,
        run_vkCall, run_Submit, SingleTimeCommands.Record, hb, h1, h2, h3, h4, h5] at h
  have hrun : Renderer.InitializeTLAS env s = (Except.ok (), s.afterTLAS env blasBuffer) := by
    simp only [tlasSizes, tlasQuery, storageBuffer, scratchBuffer, geometryBuffer]
      at h1 h2 h3 h4
    simp [Renderer.InitializeTLAS, run_bind, run_pure, run_make_unique, run_modifySelf,
      run_getSelf, run_deref_some, run_issue, run_getBufferAddress, run_newHandles,
      run_vkCall, run_Submit, SingleTimeCommands.Record, hb, h1, h2, h3, h4, h5,
      Machine.afterTLAS, tlasCalls, tlasSizes, tlasQuery, tlasInstance, storageBuffer,
      scratchBuffer, geometryBuffer, onePrimitive, identityTransform,
      sizeof_AccelerationStructureInstanceKHR]
  constructor
  · intro _
    exact hrun
  · intro s' h
    rw [hrun] at h
    exact (Prod.mk.inj h).2.symm

/-- `InitializeDescriptorSets` either runs to its end, leaving `afterDescriptorSets`, or
raises; it runs to its end when the driver reports success for its calls. -/
theorem InitializeDescriptorSets_cases (env : Environment) (windowSize : Nat × Nat)
    (s : Machine) :
    ((∀ c ∈ descriptorCalls s.self._tlas.vkStructure s.device.objects,
        env.result c = eSuccess) →
      Renderer.InitializeDescriptorSets env windowSize s =
        (Except.ok (), s.afterDescriptorSets)) ∧
    (∀ s', Renderer.InitializeDescriptorSets env windowSize s = (Except.ok (), s') →
      s' = s.afterDescriptorSets) := by
  by_cases h1 : env.result (Call.createBuffer (uniformBuffer (s.device.objects + 1)).creation
      (s.device.objects + 1)) = eSuccess
  case neg =>
    constructor
    · intro h
      exact absurd (h _ (by simp [descriptorCalls])) h1
    · intro s' h
      simp only [uniformBuffer] at h1
      simp [Renderer.InitializeDescriptorSets, run_bind, run_pure, run_make_unique,
        sizeof_UniformData, h1] at h
  by_cases h2 : env.result
      (Call.createDescriptorSetLayout layoutBindings (s.device.objects + 2)) = eSuccess
  case neg =>
    constructor
    · intro h
      exact absurd (h _ (by simp [descriptorCalls])) h2
    · intro s' h
      simp only [uniformBuffer, layoutBindings] at h1 h2
      simp [Renderer.InitializeDescriptorSets, run_bind, run_pure, run_make_unique,
        run_modifySelf, run_newHandles, run_vkCall, sizeof_UniformData, h1, h2] at h
  by_cases h3 : env.result
      (Call.createDescriptorPool poolCreateInfo (s.device.objects + 3)) = eSuccess
  case neg =>
    constructor
    · intro h
      exact absurd (h _ (by simp [descriptorCalls])) h3
    · intro s' h
      simp only [uniformBuffer, layoutBindings, poolCreateInfo] at h1 h2 h3
      simp [Renderer.InitializeDescriptorSets, run_bind, run_pure, run_make_unique,
        run_modifySelf, run_newHandles, run_vkCall, sizeof_UniformData, h1, h2, h3] at h
  by_cases h4 : env.result (Call.allocateDescriptorSets
      { descriptorPool := s.device.objects + 3, descriptorSetCount := 1,
        pSetLayouts := [s.device.objects + 2] } (s.device.objects + 4)) = eSuccess
  case neg =>
    constructor
    · intro h
      exact absurd (h _ (by simp [descriptorCalls])) h4
    · intro s' h
      simp only [uniformBuffer, layoutBindings, poolCreateInfo] at h1 h2 h3
      simp [Renderer.InitializeDescriptorSets, run_bind, run_pure, run_make_unique,
        run_modifySelf, run_getSelf, run_newHandles, run_vkCall, sizeof_UniformData, h1, h2,
        h3, h4] at h
  have hrun : Renderer.InitializeDescriptorSets env windowSize s =
      (Except.ok (), s.afterDescriptorSets) := by
    simp only [uniformBuffer, layoutBindings, poolCreateInfo] at h1 h2 h3
    simp [Renderer.InitializeDescriptorSets, run_bind, run_pure, run_make_unique,
      run_modifySelf, run_getSelf, run_deref_some, run_issue, run_newHandles, run_vkCall,
      sizeof_UniformData, h1, h2, h3, h4, Machine.afterDescriptorSets, descriptorCalls,
      descriptorWrites, uniformBuffer, layoutBindings, poolCreateInfo]
  constructor
  · intro _
    exact hrun
  · intro s' h
    rw [hrun] at h
    exact (Prod.mk.inj h).2.symm

/-! ## The synchronization objects -/

theorem body_ok {env : Environment} {i : Nat} {s s1 : Machine}
    (h : Renderer.InitializeSynchronizationObjects.body env i s = (Except.ok (), s1)) :
    s1 =
      { self := { s.self with
          _imageAvailableSemaphores :=
            s.self._imageAvailableSemaphores.set i (s.device.objects + 1)
          _renderFinishedSemaphores :=
            s.self._renderFinishedSemaphores.set i (s.device.objects + 2)
          _inFlightFences := s.self._inFlightFences.set i (s.device.objects + 3) }
        device :=
          { calls := s.device.calls ++
              [Call.createSemaphore (s.device.objects + 1),
               Call.createSemaphore (s.device.objects + 2),
               Call.createFence true (s.device.objects + 3)]
            objects := s.device.objects + 3 } } := by
  by_cases h1 : env.result (Call.createSemaphore (s.device.objects + 1)) = eSuccess
  case neg =>
    simp [Renderer.InitializeSynchronizationObjects.body, run_bind, run_pure, run_issue,
      run_VkCheckResult, newHandles, h1] at h
  by_cases h2 : env.result (Call.createSemaphore (s.device.objects + 2)) = eSuccess
  case neg =>
    simp [Renderer.InitializeSynchronizationObjects.body, run_bind, run_pure, run_issue,
      run_VkCheckResult, run_modifySelf, newHandles, h1, h2] at h
  by_cases h3 : env.result (Call.createFence true (s.device.objects + 3)) = eSuccess
  case neg =>
    simp [Renderer.InitializeSynchronizationObjects.body, run_bind, run_pure, run_issue,
      run_VkCheckResult, run_modifySelf, newHandles, h1, h2, h3] at h
  simp [Renderer.InitializeSynchronizationObjects.body, run_bind, run_pure, run_issue,
    run_VkCheckResult, run_modifySelf, newHandles, h1, h2, h3] at h
  rw [← h]

theorem forLoop_succ (body : Nat → Host Unit) (k i : Nat) :
    forLoop body (k + 1) i = (body i >>= fun _ => forLoop body k (i + 1)) := rfl

theorem make_unique_swapChain_ok {env : Environment} {w h : Nat} {s s1 : Machine} {sc : Handle}
    (hrun : SwapChain.make_unique env w h s = (Except.ok sc, s1)) :
    sc = s.device.objects + 1 ∧
    s1 = { s with device :=
      { calls := s.device.calls ++ [Call.createSwapChain w h (s.device.objects + 1)]
        objects := s.device.objects + 1 } } := by
  by_cases h1 : env.result (Call.createSwapChain w h (s.device.objects + 1)) = eSuccess
  · simp [SwapChain.make_unique, run_bind, run_pure, run_issue, newHandles, h1] at hrun
    exact ⟨hrun.1.symm, hrun.2.symm⟩
  · simp [SwapChain.make_unique, run_bind, run_pure, run_issue, run_raise, newHandles, h1] at hrun

theorem InitializeCommandBuffers_ok {env : Environment} {s s1 : Machine}
    (hrun : Renderer.InitializeCommandBuffers env s = (Except.ok (), s1)) :
    s1 =
      { self := { s.self with
          _commandBuffers :=
            (List.range s.self._commandBuffers.length).map fun i => s.device.objects + 1 + i }
        device :=
          { calls := s.device.calls ++
              [Call.allocateCommandBuffers s.self._commandBuffers.length (s.device.objects + 1)]
            objects := s.device.objects + s.self._commandBuffers.length } } := by
  by_cases h1 : env.result
      (Call.allocateCommandBuffers s.self._commandBuffers.length (s.device.objects + 1)) = eSuccess
  · simp [Renderer.InitializeCommandBuffers, run_bind, run_pure, run_issue, run_getSelf,
      run_VkCheckResult, run_modifySelf, newHandles, h1] at hrun
    rw [← hrun]
  · simp [Renderer.InitializeCommandBuffers, run_bind, run_pure, run_issue, run_getSelf,
      run_VkCheckResult, run_modifySelf, newHandles, h1] at hrun

theorem body_total {env : Environment} {i : Nat} {s : Machine}
    (h : ∀ c ∈ syncCalls 1 s.device.objects, env.result c = eSuccess) :
    Renderer.InitializeSynchronizationObjects.body env i s =
      (Except.ok (),
        { self := { s.self with
            _imageAvailableSemaphores :=
              s.self._imageAvailableSemaphores.set i (s.device.objects + 1)
            _renderFinishedSemaphores :=
              s.self._renderFinishedSemaphores.set i (s.device.objects + 2)
            _inFlightFences := s.self._inFlightFences.set i (s.device.objects + 3) }
          device :=
            { calls := s.device.calls ++ syncCalls 1 s.device.objects
              objects := s.device.objects + 3 } }) := by
  have h1 := h (Call.createSemaphore (s.device.objects + 1)) (by simp [syncCalls])
  have h2 := h (Call.createSemaphore (s.device.objects + 2)) (by simp [syncCalls])
  have h3 := h (Call.createFence true (s.device.objects + 3)) (by simp [syncCalls])
  simp [Renderer.InitializeSynchronizationObjects.body, run_bind, run_pure, run_issue,
    run_VkCheckResult, run_modifySelf, run_newHandles, h1, h2, h3, syncCalls]

theorem syncLoop_ok (env : Environment) : ∀ (k i : Nat) (s s' : Machine),
    forLoop (Renderer.InitializeSynchronizationObjects.body env) k i s = (Except.ok (), s') →
    s'.device =
      { calls := s.device.calls ++ syncCalls k s.device.objects
        objects := s.device.objects + 3 * k } ∧
    s'.self = { s.self with
      _imageAvailableSemaphores := s'.self._imageAvailableSemaphores
      _renderFinishedSemaphores := s'.self._renderFinishedSemaphores
      _inFlightFences := s'.self._inFlightFences } ∧
    (∀ j, s'.self._imageAvailableSemaphores[j]? =
      if i ≤ j ∧ j < i + k ∧ j < s.self._imageAvailableSemaphores.length then
        some (s.device.objects + 3 * (j - i) + 1)
      else s.self._imageAvailableSemaphores[j]?) ∧
    (∀ j, s'.self._renderFinishedSemaphores[j]? =
      if i ≤ j ∧ j < i + k ∧ j < s.self._renderFinishedSemaphores.length then
        some (s.device.objects + 3 * (j - i) + 2)
      else s.self._renderFinishedSemaphores[j]?) ∧
    (∀ j, s'.self._inFlightFences[j]? =
      if i ≤ j ∧ j < i + k ∧ j < s.self._inFlightFences.length then
        some (s.device.objects + 3 * (j - i) + 3)
      else s.self._inFlightFences[j]?) := by
  intro k
  induction k with
  | zero =>
    intro i s s' h
    have hs : s' = s := by
      simp [forLoop, run_pure] at h
      exact h.symm
    subst hs
    refine ⟨by simp [syncCalls], rfl, ?_, ?_, ?_⟩ <;>
      · intro j
        rw [if_neg]
        omega
  | succ k ih =>
    intro i s s' h
    rw [forLoop_succ] at h
    obtain ⟨_, s1, hb, hrest⟩ := bind_ok h
    have h1 := body_ok hb
    obtain ⟨ed, es, a1, a2, a3⟩ := ih (i + 1) s1 s' hrest
    subst h1
    simp only [List.length_set] at ed es a1 a2 a3
    refine ⟨?_, ?_, ?_, ?_, ?_⟩
    · rw [ed]
      simp only [syncCalls, List.append_assoc, Device.mk.injEq]
      exact ⟨trivial, by omega⟩
    · rw [es]
    all_goals clear es ed hb hrest h ih
    · intro j
      rw [a1 j, List.getElem?_set]
      split_ifs <;> first | rfl | omega | (congr 1; omega) | simp_all
    · intro j
      rw [a2 j, List.getElem?_set]
      split_ifs <;> first | rfl | omega | (congr 1; omega) | simp_all
    · intro j
      rw [a3 j, List.getElem?_set]
      split_ifs <;> first | rfl | omega | (congr 1; omega) | simp_all

theorem syncCalls_succ (k o : Nat) :
    syncCalls (k + 1) o = syncCalls 1 o ++ syncCalls k (o + 3) := by
  simp [syncCalls]

theorem syncLoop_total (env : Environment) : ∀ (k i : Nat) (s : Machine),
    (∀ c ∈ syncCalls k s.device.objects, env.result c = eSuccess) →
    ∃ s', forLoop (Renderer.InitializeSynchronizationObjects.body env) k i s =
      (Except.ok (), s') := by
  intro k
  induction k with
  | zero => intro i s _; exact ⟨s, rfl⟩
  | succ k ih =>
    intro i s h
    rw [syncCalls_succ] at h
    have hb := @body_total env i s (fun c hc => h c (List.mem_append_left _ hc))
    obtain ⟨s', hs'⟩ := ih (i + 1)
      { self := { s.self with
          _imageAvailableSemaphores :=
            s.self._imageAvailableSemaphores.set i (s.device.objects + 1)
          _renderFinishedSemaphores :=
            s.self._renderFinishedSemaphores.set i (s.device.objects + 2)
          _inFlightFences := s.self._inFlightFences.set i (s.device.objects + 3) }
        device :=
          { calls := s.device.calls ++ syncCalls 1 s.device.objects
            objects := s.device.objects + 3 } }
      (fun c hc => h c (List.mem_append_right _ hc))
    refine ⟨s', ?_⟩
    rw [forLoop_succ, run_bind, hb]
    exact hs'

theorem afterSync_of_loop {N : Nat} {initInfo : VulkanInitInfo} {env : Environment}
    {s4 : Machine}
    (h4 : forLoop (Renderer.InitializeSynchronizationObjects.body env) N 0
      { self := { Renderer.members N with
          _swapChain := 1
          _commandBuffers := (List.range N).map fun i => 0 + 1 + 1 + i }
        device :=
          { calls := [] ++ [Call.createSwapChain initInfo.width initInfo.height (0 + 1)] ++
              [Call.allocateCommandBuffers N (0 + 1 + 1)]
            objects := 0 + 1 + N } } = (Except.ok (), s4)) :
    s4 = Machine.afterSync N initInfo := by
  obtain ⟨ed, es, a1, a2, a3⟩ := syncLoop_ok env N 0 _ s4 h4
  simp only [Renderer.members, List.length_replicate, Nat.zero_le, Nat.zero_add, true_and,
    Nat.sub_zero, and_self] at ed es a1 a2 a3
  have e1 : s4.self._imageAvailableSemaphores = (List.range N).map fun i => N + 2 + 3 * i := by
    apply List.ext_getElem?
    intro j
    rw [a1 j]
    by_cases hj : j < N
    · simp [hj, List.getElem?_range]
      omega
    · have hj' : N ≤ j := Nat.le_of_not_lt hj
      rw [if_neg hj, List.getElem?_eq_none (by simpa using hj'),
        List.getElem?_eq_none (by simpa using hj')]
  have e2 : s4.self._renderFinishedSemaphores = (List.range N).map fun i => N + 3 + 3 * i := by
    apply List.ext_getElem?
    intro j
    rw [a2 j]
    by_cases hj : j < N
    · simp [hj, List.getElem?_range]
      omega
    · have hj' : N ≤ j := Nat.le_of_not_lt hj
      rw [if_neg hj, List.getElem?_eq_none (by simpa using hj'),
        List.getElem?_eq_none (by simpa using hj')]
  have e3 : s4.self._inFlightFences = (List.range N).map fun i => N + 4 + 3 * i := by
    apply List.ext_getElem?
    intro j
    rw [a3 j]
    by_cases hj : j < N
    · simp [hj, List.getElem?_range]
      omega
    · have hj' : N ≤ j := Nat.le_of_not_lt hj
      rw [if_neg hj, List.getElem?_eq_none (by simpa using hj'),
        List.getElem?_eq_none (by simpa using hj')]
  rw [e1, e2, e3] at es
  have hm : s4 = { self := s4.self, device := s4.device } := rfl
  rw [hm, es, ed]
  simp only [Machine.afterSync, Renderer.members, Machine.mk.injEq, Device.mk.injEq,
    Renderer.mk.injEq, List.nil_append, List.cons_append, List.singleton_append, true_and,
    and_true]

/-- A construction that returns has left `Machine.constructed`. -/
theorem constructor_ok {N : Nat} {env : Environment} {initInfo : VulkanInitInfo} {m0 : Machine}
    (h : (Renderer.constructor N env initInfo).run (Machine.initial N) = (Except.ok (), m0)) :
    m0 = Machine.constructed N env initInfo := by
  unfold Renderer.constructor Host.run at h
  obtain ⟨sc, s1, h1, g1⟩ := bind_ok h
  obtain ⟨hsc, hs1⟩ := make_unique_swapChain_ok h1
  obtain ⟨_, s2, h2, g2⟩ := bind_ok g1
  rw [run_modifySelf] at h2
  obtain ⟨_, s3, h3, g3⟩ := bind_ok g2
  have hs3 := InitializeCommandBuffers_ok h3
  obtain ⟨_, s4, h4, g4⟩ := bind_ok g3
  obtain ⟨_, s5, h5, g5⟩ := bind_ok g4
  obtain ⟨_, s6, h6, g6⟩ := bind_ok g5
  obtain ⟨_, s7, h7, g7⟩ := bind_ok g6
  clear h g1 g2 g3 g4 g5 g6 h1 h3
  simp only [Prod.mk.injEq] at h2
  obtain ⟨-, hs2⟩ := h2
  subst hs1
  subst hs2
  subst hs3
  subst hsc
  have hs4 : s4 = Machine.afterSync N initInfo := by
    apply @afterSync_of_loop N initInfo env
    simpa [Renderer.InitializeSynchronizationObjects, Machine.initial, Renderer.members]
      using h4
  subst hs4
  have hs5 := (InitializeTriangle_cases env _).2 s5 h5
  subst hs5
  have hs6 := (InitializeBLAS_cases env _ _ _ _ rfl rfl rfl).2 s6 h6
  subst hs6
  have hs7 := (InitializeTLAS_cases env _ _ rfl).2 s7 h7
  subst hs7
  have hm := (InitializeDescriptorSets_cases env _ _).2 m0 g7
  rw [hm]
  rfl

/-- When the driver reports success for every call, the construction returns. -/
theorem constructor_total (N : Nat) (env : Environment) (initInfo : VulkanInitInfo)
    (hres : ∀ c, env.result c = eSuccess) :
    (Renderer.constructor N env initInfo).run (Machine.initial N) =
      (Except.ok (), Machine.constructed N env initInfo) := by
  have hex : ∃ m0, (Renderer.constructor N env initInfo).run (Machine.initial N) =
      (Except.ok (), m0) := by
    unfold Renderer.constructor Host.run
    have e1 : SwapChain.make_unique env initInfo.width initInfo.height (Machine.initial N) =
        (Except.ok 1,
          { self := Renderer.members N
            device :=
              { calls := [Call.createSwapChain initInfo.width initInfo.height 1]
                objects := 1 } }) := by
      simp [SwapChain.make_unique, run_bind, run_pure, run_issue, run_newHandles, hres,
        Machine.initial]
    rw [run_bind, e1]
    simp only [run_bind, run_modifySelf]
    have e3 : ∀ s, Renderer.InitializeCommandBuffers env s =
        (Except.ok (),
          { self := { s.self with
              _commandBuffers :=
                (List.range s.self._commandBuffers.length).map fun i => s.device.objects + 1 + i }
            device :=
              { calls := s.device.calls ++
                  [Call.allocateCommandBuffers s.self._commandBuffers.length
                    (s.device.objects + 1)]
                objects := s.device.objects + s.self._commandBuffers.length } }) := by
      intro s
      simp [Renderer.InitializeCommandBuffers, run_bind, run_pure, run_issue, run_getSelf,
        run_VkCheckResult, run_modifySelf, run_newHandles, hres]
    rw [e3]
    simp only []
    obtain ⟨s4, h4⟩ := syncLoop_total env N 0
      { self := { ({ Renderer.members N with _swapChain := 1 } : Renderer) with
          _commandBuffers :=
            (List.range (Renderer.members N)._commandBuffers.length).map fun i => 1 + 1 + i }
        device :=
          { calls := [Call.createSwapChain initInfo.width initInfo.height 1] ++
              [Call.allocateCommandBuffers (Renderer.members N)._commandBuffers.length (1 + 1)]
            objects := 1 + (Renderer.members N)._commandBuffers.length } }
      (fun c _ => hres c)
    unfold Renderer.InitializeSynchronizationObjects
    rw [h4]
    simp only []
    rw [(InitializeTriangle_cases env s4).1 (fun c _ => hres c)]
    simp only []
    rw [(InitializeBLAS_cases env s4.afterTriangle _ _ _ rfl rfl rfl).1 (fun c _ => hres c)]
    simp only []
    rw [(InitializeTLAS_cases env _ _ rfl).1 (fun c _ => hres c)]
    simp only []
    rw [(InitializeDescriptorSets_cases env _ _).1 (fun c _ => hres c)]
    exact ⟨_, rfl⟩
  obtain ⟨m0, hm0⟩ := hex
  rw [hm0, constructor_ok hm0]

theorem syncCalls_isSyncCreate : ∀ (k o : Nat) (c : Call), c ∈ syncCalls k o →
    c.isSyncCreate = true := by
  intro k
  induction k with
  | zero => intro o c hc; simp [syncCalls] at hc
  | succ k ih =>
    intro o c hc
    simp only [syncCalls, List.cons_append, List.nil_append, List.mem_cons] at hc
    rcases hc with rfl | rfl | rfl | hc
    · rfl
    · rfl
    · rfl
    · exact ih _ c hc

/-- The log of a completed construction, phase by phase. -/
theorem constructed_calls (N : Nat) (env : Environment) (initInfo : VulkanInitInfo) :
    (Machine.constructed N env initInfo).device.calls =
      [Call.createSwapChain initInfo.width initInfo.height 1, Call.allocateCommandBuffers N 2]
        ++ syncCalls N (1 + N) ++ triangleCalls (1 + N + 3 * N)
        ++ blasCalls env (geometryBuffer "Vertex Buffer" 36 (1 + N + 3 * N + 1))
            (geometryBuffer "Index Buffer" 12 (1 + N + 3 * N + 2))
            (geometryBuffer "Transform Buffer" 12 (1 + N + 3 * N + 3)) (1 + N + 3 * N + 3)
        ++ tlasCalls env (1 + N + 3 * N + 3 + 3)
            (storageBuffer "BLAS Structure Buffer"
              (blasSizes env (geometryBuffer "Vertex Buffer" 36 (1 + N + 3 * N + 1))
                (geometryBuffer "Index Buffer" 12 (1 + N + 3 * N + 2))
                (geometryBuffer "Transform Buffer" 12
                  (1 + N + 3 * N + 3))).accelerationStructureSize
              (1 + N + 3 * N + 3 + 1)) (1 + N + 3 * N + 3 + 3)
        ++ descriptorCalls (1 + N + 3 * N + 3 + 3 + 3) (1 + N + 3 * N + 3 + 3 + 4) := rfl

/-- The per-frame members a completed construction leaves, and that it submitted nothing
to a queue. -/
theorem constructor_members {N : Nat} {env : Environment} {initInfo : VulkanInitInfo}
    {m0 : Machine}
    (h : (Renderer.constructor N env initInfo).run (Machine.initial N) = (Except.ok (), m0)) :
    m0.self._swapChain = 1 ∧
    m0.self._currentResourcesFrame = 0 ∧
    m0.self._commandBuffers = (List.range N).map (fun i => 2 + i) ∧
    m0.self._imageAvailableSemaphores = (List.range N).map (fun i => N + 2 + 3 * i) ∧
    m0.self._renderFinishedSemaphores = (List.range N).map (fun i => N + 3 + 3 * i) ∧
    m0.self._inFlightFences = (List.range N).map (fun i => N + 4 + 3 * i) ∧
    ∀ c ∈ m0.device.calls, c.isQueueSubmit = false := by
  rw [constructor_ok h]
  refine ⟨rfl, rfl, rfl, rfl, rfl, rfl, ?_⟩
  intro c hc
  rw [constructed_calls] at hc
  simp only [List.mem_append, List.mem_cons, List.mem_singleton, List.not_mem_nil, or_false,
    triangleCalls, blasCalls, tlasCalls, descriptorCalls] at hc
  rcases hc with ((((hc | hc) | hc) | hc) | hc) | hc
  · rcases hc with rfl | rfl <;> rfl
  · have := syncCalls_isSyncCreate _ _ c hc
    cases c <;> simp_all [Call.isSyncCreate, Call.isQueueSubmit]
  · rcases hc with rfl | rfl | rfl | rfl | rfl | rfl <;> rfl
  · rcases hc with rfl | rfl | rfl | rfl | rfl | rfl | rfl | rfl | rfl | rfl <;> rfl
  · rcases hc with rfl | rfl | rfl | rfl | rfl | rfl | rfl | rfl | rfl | rfl | rfl <;> rfl
  · rcases hc with rfl | rfl | rfl | rfl | rfl <;> rfl

theorem constructor_framed {N : Nat} {env : Environment} {initInfo : VulkanInitInfo}
    {m0 : Machine}
    (h : (Renderer.constructor N env initInfo).run (Machine.initial N) = (Except.ok (), m0)) :
    m0.self.Framed N := by
  obtain ⟨-, -, hc, ha, hr, hf, -⟩ := constructor_members h
  simp [Renderer.Framed, hc, ha, hr, hf]

/-! ## Frames -/

theorem frameSlot_of_framed {N : Nat} {r : Renderer} (hr : r.Framed N) {i : Nat} (hi : i < N) :
    ∃ slot, r.frameSlot i = some slot := by
  obtain ⟨h1, h2, h3, h4⟩ := hr
  have e1 : r._commandBuffers[i]? = some (r._commandBuffers[i]) :=
    List.getElem?_eq_getElem (by omega)
  have e2 : r._imageAvailableSemaphores[i]? = some (r._imageAvailableSemaphores[i]) :=
    List.getElem?_eq_getElem (by omega)
  have e3 : r._renderFinishedSemaphores[i]? = some (r._renderFinishedSemaphores[i]) :=
    List.getElem?_eq_getElem (by omega)
  have e4 : r._inFlightFences[i]? = some (r._inFlightFences[i]) :=
    List.getElem?_eq_getElem (by omega)
  simp [Renderer.frameSlot, e1, e2, e3, e4]

theorem Render_out_of_range {N : Nat} {d : FrameResults} {s : Machine}
    (h : s.self._inFlightFences.length ≤ s.self._currentResourcesFrame) :
    (Renderer.Render N d) s = (Except.error "std::out_of_range", s) := by
  have e : s.self._inFlightFences[s.self._currentResourcesFrame]? = none :=
    List.getElem?_eq_none h
  simp [Renderer.Render, run_bind, run_getSelf, arrayAt, e, run_raise]

/-- A call of `Render` that returns: the slot exists, every checked call succeeded, the
protocol of the slot was issued and the slot index advanced. -/
theorem Render_ok {N : Nat} {d : FrameResults} {s s' : Machine} (hr : s.self.Framed N)
    (h : (Renderer.Render N d) s = (Except.ok (), s')) :
    s.self._currentResourcesFrame < N ∧ d.allSuccess ∧
    ∃ slot, s.self.frameSlot s.self._currentResourcesFrame = some slot ∧
      s' =
        { self :=
            { s.self with _currentResourcesFrame := (s.self._currentResourcesFrame + 1) % N },
          device :=
            { s.device with
              calls := s.device.calls ++
                perFrameProtocol slot s.self._swapChain d.swapChainImageIndex } } := by
  have hlt : s.self._currentResourcesFrame < N := by
    by_contra hge
    rw [Render_out_of_range (by rw [hr.2.2.2]; omega)] at h
    simp at h
  obtain ⟨slot, hslot⟩ := frameSlot_of_framed hr hlt
  have hrun := Render_run N d s slot hslot
  rw [Host.run, h] at hrun
  refine ⟨hlt, ?_, slot, hslot, ?_⟩
  · unfold FrameResults.allSuccess
    split_ifs at hrun <;> simp_all
  · split_ifs at hrun <;> simp_all [Machine.issued]

theorem frameCalls_setCurrent (N : Nat) (r : Renderer) (c : Nat) :
    ∀ (frames : List FrameResults) (i : Nat),
      frameCalls N { r with _currentResourcesFrame := c } i frames = frameCalls N r i frames := by
  intro frames
  induction frames with
  | nil => intro i; rfl
  | cons d ds ih =>
    intro i
    simp only [frameCalls, ih]
    rfl

theorem renderFrames_cons (N : Nat) (d : FrameResults) (ds : List FrameResults) :
    renderFrames N (d :: ds) = (Renderer.Render N d >>= fun _ => renderFrames N ds) := rfl

/-- A frame loop that returns: the arrays are untouched, the slot index advanced by the
number of frames modulo `N`, the log grew by the frames' protocols, and every checked call
succeeded. -/
theorem renderFrames_ok {N : Nat} : ∀ (frames : List FrameResults) (s s' : Machine),
    s.self.Framed N → s.self._currentResourcesFrame % N = s.self._currentResourcesFrame →
    (renderFrames N frames) s = (Except.ok (), s') →
    s'.self = { s.self with
      _currentResourcesFrame := (s.self._currentResourcesFrame + frames.length) % N } ∧
    s'.device = { s.device with
      calls := s.device.calls ++ frameCalls N s.self s.self._currentResourcesFrame frames } ∧
    ∀ d ∈ frames, d.allSuccess := by
  intro frames
  induction frames with
  | nil =>
    intro s s' _ hc h
    have hs : s' = s := by
      simp [renderFrames, run_pure] at h
      exact h.symm
    subst hs
    simp [frameCalls, hc]
  | cons d ds ih =>
    intro s s' hr hc h
    rw [renderFrames_cons] at h
    obtain ⟨_, s1, h1, h2⟩ := bind_ok h
    obtain ⟨hlt, hd, slot, hslot, hs1⟩ := Render_ok hr h1
    have hr1 : s1.self.Framed N := by rw [hs1]; exact hr
    have hc1 : s1.self._currentResourcesFrame % N = s1.self._currentResourcesFrame := by
      rw [hs1]; exact Nat.mod_mod _ _
    obtain ⟨e1, e2, e3⟩ := ih s1 s' hr1 hc1 h2
    subst hs1
    refine ⟨?_, ?_, ?_⟩
    · rw [e1]
      simp only [List.length_cons]
      congr 1
      rw [Nat.mod_add_mod]
      congr 1
      omega
    · rw [e2]
      simp only [frameCalls, hslot, frameCalls_setCurrent, List.append_assoc]
    · intro x hx
      rcases List.mem_cons.mp hx with rfl | hx
      · exact hd
      · exact e3 x hx

theorem Render_total {N : Nat} {d : FrameResults} {s : Machine} (hr : s.self.Framed N)
    (hlt : s.self._currentResourcesFrame < N) (hd : d.allSuccess) :
    ∃ s', (Renderer.Render N d) s = (Except.ok (), s') ∧ s'.self.Framed N ∧
      s'.self._currentResourcesFrame < N := by
  obtain ⟨slot, hslot⟩ := frameSlot_of_framed hr hlt
  have hrun := Render_run N d s slot hslot
  obtain ⟨h1, h2, h3, h4, h5, h6⟩ := hd
  simp only [h1, h2, h3, h4, h5, h6, ne_eq, not_true_eq_false, if_false, Host.run] at hrun
  exact ⟨_, hrun, hr, Nat.mod_lt _ (by omega)⟩

/-- When the driver reports success throughout, the frame loop returns: no element access
of `Render` is out of range. -/
theorem renderFrames_total {N : Nat} : ∀ (frames : List FrameResults) (s : Machine),
    s.self.Framed N → s.self._currentResourcesFrame < N → (∀ d ∈ frames, d.allSuccess) →
    ∃ s', (renderFrames N frames) s = (Except.ok (), s') := by
  intro frames
  induction frames with
  | nil => intro s _ _ _; exact ⟨s, rfl⟩
  | cons d ds ih =>
    intro s hr hlt hall
    obtain ⟨s1, h1, hr1, hlt1⟩ := Render_total hr hlt (hall d (List.mem_cons_self _ _))
    obtain ⟨s', h2⟩ := ih s1 hr1 hlt1 (fun x hx => hall x (List.mem_cons_of_mem _ hx))
    refine ⟨s', ?_⟩
    rw [renderFrames_cons, run_bind, h1]
    exact h2

theorem range_getElem?_some {n i a : Nat} (h : (List.range n)[i]? = some a) : a = i := by
  have hi : i < n := by
    by_contra hge
    rw [List.getElem?_eq_none (by simpa using hge)] at h
    simp at h
  rw [List.getElem?_range hi] at h
  exact (Option.some.inj h).symm

/-! ## Fences gate the reuse of a slot -/

theorem agrees_step_host {w w' : FenceWorld} {g g' : Gate} {c : Call}
    (h : w.Agrees g) (hw : w.step (.host c) = some w') (hg : g.step c = some g') :
    w'.Agrees g' := by
  obtain ⟨h1, h2, h3, h4⟩ := h
  cases c with
  | createFence signaled f =>
    simp only [FenceWorld.step, Option.some.injEq] at hw
    simp only [Gate.step, Option.some.injEq] at hg
    subst hw
    subst hg
    refine ⟨h1.filter _, ?_, ?_, ?_⟩
    · intro x hx hxo
      simp only [List.mem_filter, decide_eq_true_eq] at hxo
      cases signaled with
      | true =>
        simp only [if_true, List.mem_cons] at hx
        rcases hx with rfl | hx
        · exact hxo.2 rfl
        · exact h2 x hx hxo.1
      | false =>
        simp only [Bool.false_eq_true, if_false, List.mem_filter] at hx
        exact h2 x hx.1 hxo.1
    · intro x hx hxo
      simp only [List.mem_filter, decide_eq_true_eq] at hx hxo
      exact h3 x hx.1 hxo.1
    · intro x hx
      simp only [List.mem_filter, decide_eq_true_eq] at hx
      refine ⟨?_, fun hxo => (h4 x hx.1).2 (List.mem_filter.mp hxo).1⟩
      intro hxs
      cases signaled with
      | true =>
        simp only [if_true, List.mem_cons] at hxs
        rcases hxs with rfl | hxs
        · exact hx.2 rfl
        · exact (h4 x hx.1).1 hxs
      | false =>
        simp only [Bool.false_eq_true, if_false, List.mem_filter] at hxs
        exact (h4 x hx.1).1 hxs.1
  | waitForFences fences waitAll timeout =>
    simp only [FenceWorld.step] at hw
    split at hw
    · rename_i hall
      simp only [Option.some.injEq] at hw
      simp only [Gate.step, Option.some.injEq] at hg
      subst hw
      subst hg
      refine ⟨h1, h2, ?_, h4⟩
      intro x hx
      rcases List.mem_append.mp hx with hx | hx
      · have := List.all_eq_true.mp hall x hx
        exact h2 x (by simpa using this)
      · exact h3 x hx
    · simp at hw
  | resetFences fences =>
    simp only [FenceWorld.step, Option.some.injEq] at hw
    simp only [Gate.step, Option.some.injEq] at hg
    subst hw
    subst hg
    refine ⟨h1, ?_, h3, ?_⟩
    · intro x hx
      exact h2 x (List.mem_filter.mp hx).1
    · intro x hx
      rcases List.mem_append.mp hx with hx | hx
      · simp only [List.mem_filter, decide_eq_true_eq] at hx
        refine ⟨?_, h3 x hx.2⟩
        intro hxs
        simp only [List.mem_filter, decide_eq_true_eq, decide_not, Bool.not_eq_true',
          decide_eq_false_iff_not] at hxs
        exact hxs.2 hx.1
      · refine ⟨?_, (h4 x hx).2⟩
        intro hxs
        exact (h4 x hx).1 (List.mem_filter.mp hxs).1
  | queueSubmit queue info f =>
    simp only [FenceWorld.step, Option.some.injEq] at hw
    simp only [Gate.step] at hg
    split at hg
    · rename_i hf
      simp only [Option.some.injEq] at hg
      subst hw
      subst hg
      obtain ⟨hfs, hfo⟩ := h4 f hf
      refine ⟨List.nodup_cons.mpr ⟨hfo, h1⟩, ?_, ?_, ?_⟩
      · intro x hx hxo
        rcases List.mem_cons.mp hxo with rfl | hxo
        · exact hfs hx
        · exact h2 x hx hxo
      · intro x hx hxo
        simp only [List.mem_filter, decide_eq_true_eq] at hx
        rcases List.mem_cons.mp hxo with rfl | hxo
        · exact hx.2 rfl
        · exact h3 x hx.1 hxo
      · intro x hx
        simp only [List.mem_filter, decide_eq_true_eq] at hx
        refine ⟨(h4 x hx.1).1, ?_⟩
        intro hxo
        rcases List.mem_cons.mp hxo with rfl | hxo
        · exact hx.2 rfl
        · exact (h4 x hx.1).2 hxo
    · simp at hg
  | _ =>
    simp only [FenceWorld.step, Option.some.injEq] at hw
    simp only [Gate.step, Option.some.injEq] at hg
    subst hw
    subst hg
    exact ⟨h1, h2, h3, h4⟩

theorem agrees_step_complete {w w' : FenceWorld} {g : Gate} {f : Handle}
    (h : w.Agrees g) (hw : w.step (.complete f) = some w') : w'.Agrees g := by
  obtain ⟨h1, h2, h3, h4⟩ := h
  simp only [FenceWorld.step] at hw
  split at hw
  · rename_i hf
    simp only [Option.some.injEq] at hw
    subst hw
    refine ⟨h1.erase f, ?_, ?_, ?_⟩
    · intro x hx hxo
      rcases List.mem_cons.mp hx with rfl | hx
      · exact (h1.mem_erase_iff.mp hxo).1 rfl
      · exact h2 x hx (List.mem_of_mem_erase hxo)
    · intro x hx hxo
      exact h3 x hx (List.mem_of_mem_erase hxo)
    · intro x hx
      refine ⟨?_, fun hxo => (h4 x hx).2 (List.mem_of_mem_erase hxo)⟩
      intro hxs
      rcases List.mem_cons.mp hxs with rfl | hxs
      · exact (h4 x hx).2 hf
      · exact (h4 x hx).1 hxs
  · simp at hw

/-- Along any interleaving of a gated host log with completions of the device, the device
state agrees with the host's knowledge; in particular a submission finds its fence
unsignaled and without a submission outstanding. -/
theorem exec_agrees : ∀ (evs : List Event) (w : FenceWorld) (g : Gate),
    w.Agrees g → (g.run (hostCalls evs)).isSome →
    ∀ (n : Nat) (w' : FenceWorld), w.exec (evs.take n) = some w' →
      w'.outstanding.Nodup ∧
      ∀ q info f, evs[n]? = some (.host (.queueSubmit q info f)) →
        f ∉ w'.outstanding ∧ f ∉ w'.signaled := by
  intro evs
  induction evs with
  | nil =>
    intro w g h _ n w' hw
    simp only [List.take_nil, FenceWorld.exec, Option.some.injEq] at hw
    subst hw
    refine ⟨h.1, ?_⟩
    intro q info f hf
    simp at hf
  | cons e es ih =>
    intro w g h hg n w' hw
    cases n with
    | zero =>
      simp only [List.take_zero, FenceWorld.exec, Option.some.injEq] at hw
      subst hw
      refine ⟨h.1, ?_⟩
      intro q info f hf
      simp only [List.getElem?_cons_zero, Option.some.injEq] at hf
      subst hf
      simp only [hostCalls, Gate.run, Gate.step] at hg
      by_cases hfu : f ∈ g.unsignaled
      · exact ⟨(h.2.2.2 f hfu).2, (h.2.2.2 f hfu).1⟩
      · simp [hfu] at hg
    | succ n =>
      simp only [List.take_succ_cons, FenceWorld.exec] at hw
      rcases hstep : w.step e with _ | w1
      · simp [hstep] at hw
      · simp only [hstep, Option.some_bind] at hw
        cases e with
        | host c =>
          simp only [hostCalls, Gate.run] at hg
          rcases hgs : g.step c with _ | g1
          · simp [hgs] at hg
          · simp only [hgs, Option.some_bind] at hg
            have := ih w1 g1 (agrees_step_host h hstep hgs) hg n w' hw
            simpa using this
        | complete f =>
          simp only [hostCalls] at hg
          have := ih w1 g (agrees_step_complete h hstep) hg n w' hw
          simpa using this

theorem Gate.run_append (g : Gate) (a b : List Call) :
    g.run (a ++ b) = (g.run a).bind fun g' => g'.run b := by
  induction a generalizing g with
  | nil => rfl
  | cons c cs ih =>
    simp only [List.cons_append, Gate.run]
    cases g.step c with
    | none => rfl
    | some g1 => exact ih g1

theorem Gate.run_noSubmit : ∀ (l : List Call) (g : Gate),
    (∀ c ∈ l, c.isQueueSubmit = false) → ∃ g', g.run l = some g' := by
  intro l
  induction l with
  | nil => intro g _; exact ⟨g, rfl⟩
  | cons c cs ih =>
    intro g h
    have hc := h c (List.mem_cons_self _ _)
    have hcs : ∀ x ∈ cs, x.isQueueSubmit = false := fun x hx => h x (List.mem_cons_of_mem _ hx)
    cases c with
    | queueSubmit q info f => simp [Call.isQueueSubmit] at hc
    | _ => simp only [Gate.run, Gate.step, Option.some_bind]; exact ih _ hcs

theorem Gate.run_protocol (g : Gate) (slot : FrameSlot) (swapchain : Handle) (image : Nat) :
    ∃ g', g.run (perFrameProtocol slot swapchain image) = some g' := by
  simp [perFrameProtocol, Gate.run, Gate.step]

theorem Gate.run_frameCalls (N : Nat) (r : Renderer) : ∀ (frames : List FrameResults)
    (i : Nat) (g : Gate), ∃ g', g.run (frameCalls N r i frames) = some g' := by
  intro frames
  induction frames with
  | nil => intro i g; exact ⟨g, rfl⟩
  | cons d ds ih =>
    intro i g
    simp only [frameCalls, Gate.run_append]
    cases r.frameSlot i with
    | none =>
      simp only [Gate.run, Option.some_bind]
      exact ih _ g
    | some slot =>
      obtain ⟨g1, hg1⟩ := Gate.run_protocol g slot r._swapChain d.swapChainImageIndex
      simp only [hg1, Option.some_bind]
      exact ih _ g1

theorem hostCalls_append (a b : List Event) : hostCalls (a ++ b) = hostCalls a ++ hostCalls b := by
  induction a with
  | nil => rfl
  | cons e es ih =>
    cases e with
    | host c => exact congrArg (List.cons c) ih
    | complete f => exact ih

theorem hostCalls_map_host (l : List Call) : hostCalls (l.map Event.host) = l := by
  induction l with
  | nil => rfl
  | cons c cs ih => simp only [List.map_cons, hostCalls, ih]

/-! ## The log of a completed construction -/

theorem mem_constructed_calls (N : Nat) (env : Environment) (initInfo : VulkanInitInfo)
    (c : Call) :
    c ∈ (Machine.constructed N env initInfo).device.calls ↔
      c = Call.createSwapChain initInfo.width initInfo.height 1 ∨
      c = Call.allocateCommandBuffers N 2 ∨
      c ∈ syncCalls N (1 + N) ∨
      c ∈ triangleCalls (1 + N + 3 * N) ∨
      c ∈ blasCalls env (geometryBuffer "Vertex Buffer" 36 (1 + N + 3 * N + 1))
        (geometryBuffer "Index Buffer" 12 (1 + N + 3 * N + 2))
        (geometryBuffer "Transform Buffer" 12 (1 + N + 3 * N + 3)) (1 + N + 3 * N + 3) ∨
      c ∈ tlasCalls env (1 + N + 3 * N + 3 + 3)
        (storageBuffer "BLAS Structure Buffer"
          (blasSizes env (geometryBuffer "Vertex Buffer" 36 (1 + N + 3 * N + 1))
            (geometryBuffer "Index Buffer" 12 (1 + N + 3 * N + 2))
            (geometryBuffer "Transform Buffer" 12
              (1 + N + 3 * N + 3))).accelerationStructureSize
          (1 + N + 3 * N + 3 + 1)) (1 + N + 3 * N + 3 + 3) ∨
      c ∈ descriptorCalls (1 + N + 3 * N + 3 + 3 + 3) (1 + N + 3 * N + 3 + 3 + 4) := by
  rw [constructed_calls]
  simp only [List.mem_append, List.mem_cons, List.mem_singleton, List.not_mem_nil, or_false,
    or_assoc]

/-! ## Builds and what depends on them -/

theorem admitsAll_split (env : Environment) (blas : Handle) :
    ∀ (pre : List Call) (b : BuildState) (c : Call) (post : List Call),
      BuildState.AdmitsAll env blas b (pre ++ c :: post) →
      (pre.foldl BuildState.step b).Admits env blas c := by
  intro pre
  induction pre with
  | nil => intro b c post h; exact h.1
  | cons a pre ih => intro b c post h; exact ih (b.step a) c post h.2

theorem admitsAll_append (env : Environment) (blas : Handle) :
    ∀ (xs : List Call) (b : BuildState) (ys : List Call),
      BuildState.AdmitsAll env blas b xs →
      BuildState.AdmitsAll env blas (xs.foldl BuildState.step b) ys →
      BuildState.AdmitsAll env blas b (xs ++ ys) := by
  intro xs
  induction xs with
  | nil => intro b ys _ h; exact h
  | cons a xs ih => intro b ys h1 h2; exact ⟨h1.1, ih (b.step a) ys h1.2 h2⟩

/-- Calls that create synchronization objects neither touch the builds nor ask anything
of them. -/
theorem admitsAll_syncCalls (env : Environment) (blas : Handle) (b : BuildState) :
    ∀ (k o : Nat), BuildState.AdmitsAll env blas b (syncCalls k o) ∧
      (syncCalls k o).foldl BuildState.step b = b := by
  intro k
  induction k with
  | zero => intro o; simp [syncCalls, BuildState.AdmitsAll]
  | succ k ih =>
    intro o
    obtain ⟨h1, h2⟩ := ih (o + 3)
    simp [syncCalls, BuildState.AdmitsAll, BuildState.Admits, BuildState.step, h1, h2]

/-- In the log of a completed construction every call is admitted by the builds complete
before it. -/
theorem constructed_admitsAll (N : Nat) (env : Environment) (initInfo : VulkanInitInfo) :
    BuildState.AdmitsAll env (1 + N + 3 * N + 3 + 3) {}
      (Machine.constructed N env initInfo).device.calls := by
  rw [constructed_calls]
  simp only [List.append_assoc, List.cons_append, List.nil_append]
  refine ⟨by simp [BuildState.Admits], by simp [BuildState.Admits], ?_⟩
  simp only [BuildState.step]
  refine admitsAll_append env _ _ _ _
    (admitsAll_syncCalls env (1 + N + 3 * N + 3 + 3) {} N (1 + N)).1 ?_
  rw [(admitsAll_syncCalls env (1 + N + 3 * N + 3 + 3) {} N (1 + N)).2]
  simp [triangleCalls, blasCalls, tlasCalls, descriptorCalls, BuildState.AdmitsAll,
    BuildState.Admits, BuildState.step, tlasInstance, tlasQuery, blasQuery]

/-- Whatever it returns, `InitializeBLAS` has asked for the structure buffer of the size
the query reported. -/
theorem InitializeBLAS_requests_structure_buffer (env : Environment) (s : Machine)
    (vb ib tb : Buffer)
    (hv : s.self._vertexBuffer = some vb) (hi : s.self._indexBuffer = some ib)
    (ht : s.self._transformBuffer = some tb) :
    Call.createBuffer (storageBuffer "BLAS Structure Buffer"
        (blasSizes env vb ib tb).accelerationStructureSize (s.device.objects + 1)).creation
      (s.device.objects + 1) ∈ (Renderer.InitializeBLAS env s).2.device.calls := by
  by_cases h1 : env.result (Call.createBuffer (storageBuffer "BLAS Structure Buffer"
      (blasSizes env vb ib tb).accelerationStructureSize (s.device.objects + 1)).creation
      (s.device.objects + 1)) = eSuccess
  case neg =>
    simp only [blasSizes, blasQuery, storageBuffer] at h1 ⊢
    simp [Renderer.InitializeBLAS, run_bind, run_pure, run_make_unique, run_modifySelf,
      run_getSelf, run_deref_some, run_issue, run_getBufferAddress, sizeof_Vertex, hv, hi,
      ht, h1]
  by_cases h2 : env.result (Call.createBuffer (scratchBuffer "BLAS Scratch Buffer"
      (blasSizes env vb ib tb).buildScratchSize (s.device.objects + 2)).creation
      (s.device.objects + 2)) = eSuccess
  case neg =>
    simp only [blasSizes, blasQuery, storageBuffer, scratchBuffer] at h1 h2 ⊢
    simp [Renderer.InitializeBLAS, run_bind, run_pure, run_make_unique, run_modifySelf,
      run_getSelf, run_deref_some, run_issue, run_getBufferAddress, sizeof_Vertex, hv, hi,
      ht, h1, h2]
  by_cases h3 : env.result (Call.createAccelerationStructureKHR
      { buffer := s.device.objects + 1
        offset := 0
        size := (blasSizes env vb ib tb).accelerationStructureSize
        type := AccelerationStructureTypeKHR.eBottomLevel } (s.device.objects + 3)) = eSuccess
  case neg =>
    simp only [blasSizes, blasQuery, storageBuffer, scratchBuffer] at h1 h2 h3 ⊢
    simp [Renderer.InitializeBLAS, run_bind, run_pure, run_make_unique, run_modifySelf,
      run_getSelf, run_deref_some, run_issue, run_getBufferAddress, run_newHandles,
      run_vkCall, sizeof_Vertex, hv, hi, ht, h1, h2, h3]
  by_cases h4 : env.result Call.singleTimeCommandsSubmit = eSuccess
  case neg =>
    simp only [blasSizes, blasQuery, storageBuffer, scratchBuffer] at h1 h2 h3 ⊢
    simp [Renderer.InitializeBLAS, run_bind, run_pure, run_make_unique, run_modifySelf,
      run_getSelf, run_deref_some, run_issue, run_getBufferAddress, run_newHandles,
      run_vkCall, run_Submit, SingleTimeCommands.Record, sizeof_Vertex, hv, hi, ht, h1, h2,
      h3, h4]
  simp only [blasSizes, blasQuery, storageBuffer, scratchBuffer] at h1 h2 h3 ⊢
  simp [Renderer.InitializeBLAS, run_bind, run_pure, run_make_unique, run_modifySelf,
    run_getSelf, run_deref_some, run_issue, run_getBufferAddress, run_newHandles,
    run_vkCall, run_Submit, SingleTimeCommands.Record, sizeof_Vertex, hv, hi, ht, h1, h2,
    h3, h4]

/-- What `InitializeBLAS` does on a machine that holds the three geometry buffers, by the
first of its checked calls that fails: it raises that call's exception having issued its
calls up to that one, or, none failing, it runs to its end. -/
theorem InitializeBLAS_outcome (env : Environment) (s : Machine) (vb ib tb : Buffer)
    (hv : s.self._vertexBuffer = some vb) (hi : s.self._indexBuffer = some ib)
    (ht : s.self._transformBuffer = some tb) :
    (∃ k e, k < 4 ∧
      (∀ c ∈ (blasChecked env vb ib tb s.device.objects).take k, env.result c = eSuccess) ∧
      (∃ c, (blasChecked env vb ib tb s.device.objects)[k]? = some c ∧
        env.result c ≠ eSuccess ∧
        (blasCalls env vb ib tb s.device.objects)[[4, 5, 6, 9].getD k 0]? = some c) ∧
      (Renderer.InitializeBLAS env s).1 = Except.error e ∧
      (Renderer.InitializeBLAS env s).2.device.calls = s.device.calls ++
        (blasCalls env vb ib tb s.device.objects).take ([4, 5, 6, 9].getD k 0 + 1)) ∨
    ((∀ c ∈ blasChecked env vb ib tb s.device.objects, env.result c = eSuccess) ∧
      Renderer.InitializeBLAS env s = (Except.ok (), s.afterBLAS env vb ib tb)) := by
  by_cases h1 : env.result (Call.createBuffer (storageBuffer "BLAS Structure Buffer"
      (blasSizes env vb ib tb).accelerationStructureSize (s.device.objects + 1)).creation
      (s.device.objects + 1)) = eSuccess
  case neg =>
    refine Or.inl ⟨0, "[VULKAN] Failed creating buffer!", by decide, by simp, ⟨_, rfl, h1, rfl⟩,
      ?_, ?_⟩
    all_goals
      simp only [blasSizes, blasQuery, storageBuffer, blasCalls] at h1 ⊢
      simp [Renderer.InitializeBLAS, run_bind, run_pure, run_make_unique, run_modifySelf,
        run_getSelf, run_deref_some, run_issue, run_getBufferAddress, sizeof_Vertex, hv, hi,
        ht, h1]
  by_cases h2 : env.result (Call.createBuffer (scratchBuffer "BLAS Scratch Buffer"
      (blasSizes env vb ib tb).buildScratchSize (s.device.objects + 2)).creation
      (s.device.objects + 2)) = eSuccess
  case neg =>
    refine Or.inl ⟨1, "[VULKAN] Failed creating buffer!", by decide, ?_, ⟨_, rfl, h2, rfl⟩,
      ?_, ?_⟩
    · simpa [blasChecked] using h1
    all_goals
      simp only [blasSizes, blasQuery, storageBuffer, scratchBuffer, blasCalls] at h1 h2 ⊢
      simp [Renderer.InitializeBLAS, run_bind, run_pure, run_make_unique, run_modifySelf,
        run_getSelf, run_deref_some, run_issue, run_getBufferAddress, sizeof_Vertex, hv, hi,
        ht, h1, h2]
  by_cases h3 : env.result (Call.createAccelerationStructureKHR
      { buffer := s.device.objects + 1
        offset := 0
        size := (blasSizes env vb ib tb).accelerationStructureSize
        type := AccelerationStructureTypeKHR.eBottomLevel } (s.device.objects + 3)) = eSuccess
  case neg =>
    refine Or.inl ⟨2, "vk::SystemError", by decide, ?_, ⟨_, rfl, h3, rfl⟩, ?_, ?_⟩
    · simpa [blasChecked] using ⟨h1, h2⟩
    all_goals
      simp only [blasSizes, blasQuery, storageBuffer, scratchBuffer, blasCalls] at h1 h2 h3 ⊢
      simp [Renderer.InitializeBLAS, run_bind, run_pure, run_make_unique, run_modifySelf,
        run_getSelf, run_deref_some, run_issue, run_getBufferAddress, run_newHandles,
        run_vkCall, sizeof_Vertex, hv, hi, ht, h1, h2, h3]
  by_cases h4 : env.result Call.singleTimeCommandsSubmit = eSuccess
  case neg =>
    refine Or.inl ⟨3, "[VULKAN] Failed submitting one time commands!", by decide, ?_,
      ⟨_, rfl, h4, rfl⟩, ?_, ?_⟩
    · simpa [blasChecked] using ⟨h1, h2, h3⟩
    all_goals
      simp only [blasSizes, blasQuery, storageBuffer, scratchBuffer, blasCalls] at h1 h2 h3 ⊢
      simp [Renderer.InitializeBLAS, run_bind, run_pure, run_make_unique, run_modifySelf,
        run_getSelf, run_deref_some, run_issue, run_getBufferAddress, run_newHandles,
        run_vkCall, run_Submit, SingleTimeCommands.Record, sizeof_Vertex, hv, hi, ht, h1, h2,
        h3, h4, onePrimitive]
  refine Or.inr ⟨by simpa [blasChecked] using ⟨h1, h2, h3, h4⟩, ?_⟩
  simp only [blasSizes, blasQuery, storageBuffer, scratchBuffer] at h1 h2 h3
  simp [Renderer.InitializeBLAS, run_bind, run_pure, run_make_unique, run_modifySelf,
    run_getSelf, run_deref_some, run_issue, run_getBufferAddress, run_newHandles,
    run_vkCall, run_Submit, SingleTimeCommands.Record, sizeof_Vertex, hv, hi, ht, h1, h2,
    h3, h4, Machine.afterBLAS, blasCalls, blasSizes, blasQuery, storageBuffer, scratchBuffer,
    onePrimitive]

/-! ## The destructor -/

theorem issued_issued (s : Machine) (a b : List Call) :
    (s.issued a).issued b = s.issued (a ++ b) := by
  simp [Machine.issued, List.append_assoc]

theorem destructor_body_run {N : Nat} {s : Machine} (hr : s.self.Framed N) {i : Nat}
    (hi : i < N) :
    Renderer.destructor.body i s = (Except.ok (), s.issued (s.self.slotReleases i)) := by
  obtain ⟨-, h2, h3, h4⟩ := hr
  obtain ⟨a, ha⟩ : ∃ a, s.self._imageAvailableSemaphores[i]? = some a :=
    ⟨_, List.getElem?_eq_getElem (by omega)⟩
  obtain ⟨f, hf⟩ : ∃ a, s.self._renderFinishedSemaphores[i]? = some a :=
    ⟨_, List.getElem?_eq_getElem (by omega)⟩
  obtain ⟨w, hw⟩ : ∃ a, s.self._inFlightFences[i]? = some a :=
    ⟨_, List.getElem?_eq_getElem (by omega)⟩
  simp [Renderer.destructor.body, Renderer.slotReleases, run_bind, run_getSelf, run_issue,
    run_arrayAt_some ha, run_arrayAt_some hf, run_arrayAt_some hw, ha, hf, hw, Machine.issued]

theorem destructor_loop_run {N : Nat} : ∀ (k i : Nat) (s : Machine), s.self.Framed N →
    i + k ≤ N →
    forLoop Renderer.destructor.body k i s =
      (Except.ok (), s.issued ((List.range' i k).flatMap s.self.slotReleases)) := by
  intro k
  induction k with
  | zero => intro i s _ _; simp [forLoop, Machine.issued]; rfl
  | succ k ih =>
    intro i s hr hik
    rw [forLoop_succ, run_bind, destructor_body_run hr (by omega)]
    simp only []
    have h := ih (i + 1) (s.issued (s.self.slotReleases i)) hr (by omega)
    rw [h, issued_issued]
    simp [List.range'_succ, List.flatMap_cons, Machine.issued]

/-- On a renderer whose per-frame arrays have `N` elements the destructor runs to its end
and issues `releases`. -/
theorem destructor_run {N : Nat} (s : Machine) (hr : s.self.Framed N) :
    Renderer.destructor N s = (Except.ok (), s.issued (s.self.releases N)) := by
  simp only [Renderer.destructor, run_bind, run_getSelf, run_issue]
  have h := destructor_loop_run N 0 (s.issued [ Call.destroyDescriptorSetLayout s.self._descriptorSetLayout,
    Call.destroyDescriptorPool s.self._descriptorPool,
    Call.destroyAccelerationStructureKHR s.self._tlas.vkStructure,
    Call.destroyAccelerationStructureKHR s.self._blas.vkStructure ]) hr (by omega)
  simp only [Machine.issued, List.append_assoc, List.cons_append, List.nil_append] at h ⊢
  rw [h]
  simp [Renderer.releases]

theorem destutter'_replicate_append (a : ResourceGroup) (l : List ResourceGroup) :
    ∀ n : Nat, List.destutter' (· ≠ ·) a (List.replicate n a ++ l) =
      List.destutter' (· ≠ ·) a l := by
  intro n
  induction n with
  | zero => rfl
  | succ n ih => simp [List.replicate_succ, List.destutter', ih]

theorem destutter'_replicate (a : ResourceGroup) (n : Nat) :
    List.destutter' (· ≠ ·) a (List.replicate n a) = [a] := by
  have h := destutter'_replicate_append a [] n
  simpa using h

theorem group_syncCalls (created : List Call) : ∀ (k o : Nat),
    (syncCalls k o).filterMap (Call.group created) =
      List.replicate (3 * k) ResourceGroup.synchronization := by
  intro k
  induction k with
  | zero => intro o; rfl
  | succ k ih =>
    intro o
    rw [syncCalls_succ, List.filterMap_append, ih (o + 3)]
    simp [syncCalls, Call.group, Nat.mul_succ, List.replicate_succ]

theorem structureType_syncCalls (h : Handle) : ∀ (k o : Nat) (rest : List Call),
    structureType (syncCalls k o ++ rest) h = structureType rest h := by
  intro k
  induction k with
  | zero => intro o rest; rfl
  | succ k ih =>
    intro o rest
    have := ih (o + 3) rest
    simp only [structureType] at this ⊢
    rw [syncCalls_succ]
    simp [syncCalls, List.findSome?_cons, this]

theorem group_slotReleases (created : List Call) {N : Nat} {r : Renderer} (hr : r.Framed N) :
    ∀ (k i : Nat), i + k ≤ N →
      ((List.range' i k).flatMap r.slotReleases).filterMap (Call.group created) =
        List.replicate (3 * k) ResourceGroup.synchronization := by
  intro k
  induction k with
  | zero => intro i _; rfl
  | succ k ih =>
    intro i hik
    obtain ⟨-, h2, h3, h4⟩ := hr
    obtain ⟨a, ha⟩ : ∃ a, r._imageAvailableSemaphores[i]? = some a :=
      ⟨_, List.getElem?_eq_getElem (by omega)⟩
    obtain ⟨f, hf⟩ : ∃ a, r._renderFinishedSemaphores[i]? = some a :=
      ⟨_, List.getElem?_eq_getElem (by omega)⟩
    obtain ⟨w, hw⟩ : ∃ a, r._inFlightFences[i]? = some a :=
      ⟨_, List.getElem?_eq_getElem (by omega)⟩
    rw [List.range'_succ, List.flatMap_cons, List.filterMap_append, ih (i + 1) (by omega)]
    simp [Renderer.slotReleases, ha, hf, hw, Call.group, Nat.mul_succ, List.replicate_succ]

/-- The construction goes through the groups in the order synchronization objects,
bottom-level structure, top-level structure, descriptor set. -/
theorem constructed_groupOrder (N : Nat) (hN : 0 < N) (env : Environment)
    (initInfo : VulkanInitInfo) (created : List Call) :
    groupOrder created (Machine.constructed N env initInfo).device.calls =
      [ResourceGroup.synchronization, ResourceGroup.bottomLevel, ResourceGroup.topLevel,
        ResourceGroup.bindingSet] := by
  obtain ⟨n, rfl⟩ : ∃ n, N = n + 1 := ⟨N - 1, by omega⟩
  rw [constructed_calls, groupOrder]
  simp only [List.filterMap_append, group_syncCalls]
  simp [triangleCalls, blasCalls, tlasCalls, descriptorCalls, Call.group, ResourceGroup.ofType,
    Nat.mul_succ, List.replicate_succ, List.destutter, List.destutter',
    destutter'_replicate_append]

/-- The types the two structures of a completed construction were created with. -/
theorem constructed_structureType (N : Nat) (env : Environment) (initInfo : VulkanInitInfo) :
    structureType (Machine.constructed N env initInfo).device.calls
        (Machine.constructed N env initInfo).self._tlas.vkStructure =
      some AccelerationStructureTypeKHR.eTopLevel ∧
    structureType (Machine.constructed N env initInfo).device.calls
        (Machine.constructed N env initInfo).self._blas.vkStructure =
      some AccelerationStructureTypeKHR.eBottomLevel := by
  have hblas : (Machine.constructed N env initInfo).self._blas.vkStructure =
      1 + N + 3 * N + 3 + 3 := rfl
  have htlas : (Machine.constructed N env initInfo).self._tlas.vkStructure =
      1 + N + 3 * N + 3 + 3 + 3 := rfl
  rw [hblas, htlas, constructed_calls]
  simp only [List.append_assoc, List.cons_append, List.nil_append]
  constructor
  · simp only [structureType, List.findSome?_cons]
    have h := structureType_syncCalls (1 + N + 3 * N + 3 + 3 + 3) N (1 + N)
    simp only [structureType] at h
    rw [h]
    simp [triangleCalls, blasCalls, tlasCalls, List.findSome?_cons]
  · simp only [structureType, List.findSome?_cons]
    have h := structureType_syncCalls (1 + N + 3 * N + 3 + 3) N (1 + N)
    simp only [structureType] at h
    rw [h]
    simp [triangleCalls, blasCalls, List.findSome?_cons]

/-- The destructor goes through the groups in the order descriptor set, top-level
structure, bottom-level structure, synchronization objects. -/
theorem releases_groupOrder (N : Nat) (hN : 0 < N) (env : Environment)
    (initInfo : VulkanInitInfo) :
    groupOrder (Machine.constructed N env initInfo).device.calls
        ((Machine.constructed N env initInfo).self.releases N) =
      [ResourceGroup.bindingSet, ResourceGroup.topLevel, ResourceGroup.bottomLevel,
        ResourceGroup.synchronization] := by
  obtain ⟨h1, h2⟩ := constructed_structureType N env initInfo
  have hr : (Machine.constructed N env initInfo).self.Framed N := by
    refine ⟨?_, ?_, ?_, ?_⟩ <;> simp [Machine.constructed, Machine.afterDescriptorSets,
      Machine.afterTLAS, Machine.afterBLAS, Machine.afterTriangle, Machine.afterSync]
  have h3 := group_slotReleases (Machine.constructed N env initInfo).device.calls hr N 0
    (by omega)
  obtain ⟨n, rfl⟩ : ∃ n, N = n + 1 := ⟨N - 1, by omega⟩
  rw [groupOrder, Renderer.releases, List.filterMap_append, h3]
  simp [Call.group, h1, h2, ResourceGroup.ofType, Nat.mul_succ, List.replicate_succ,
    List.destutter, List.destutter', destutter'_replicate_append]
  exact destutter'_replicate _ _

/-! ## Reading the instance record back -/

theorem length_eq_four {l : List Nat} (h : l.length = 4) : ∃ a b c d, l = [a, b, c, d] := by
  rcases l with _ | ⟨a, _ | ⟨b, _ | ⟨c, _ | ⟨d, _ | ⟨e, t⟩⟩⟩⟩⟩ <;> simp at h
  exact ⟨a, b, c, d, rfl⟩

theorem word32_bytes32 {w : Nat} (h : w < 2 ^ 32) :
    w % 256 + 256 * (w / 256 % 256) + 65536 * (w / 65536 % 256)
      + 16777216 * (w / 16777216 % 256) = w := by
  omega

/-- The record of a fitting instance has 64 bytes and reads back as the instance. -/
theorem ofBytes_bytes (i : VkAccelerationStructureInstanceKHR) (h : i.Fits) :
    i.bytes.length = 64 ∧ (∀ b ∈ i.bytes, b < 256) ∧
      VkAccelerationStructureInstanceKHR.ofBytes i.bytes = i := by
  obtain ⟨⟨m⟩, ci, mask, off, flags, ref⟩ := i
  obtain ⟨⟨h3, hrows⟩, hci, hmask, hoff, hflags, href⟩ := h
  simp only at h3 hrows hci hmask hoff hflags href
  obtain ⟨r0, r1, r2, rfl⟩ := List.length_eq_three.mp h3
  obtain ⟨l0, b0⟩ := hrows r0 (by simp)
  obtain ⟨l1, b1⟩ := hrows r1 (by simp)
  obtain ⟨l2, b2⟩ := hrows r2 (by simp)
  obtain ⟨a0, a1, a2, a3, rfl⟩ := length_eq_four l0
  obtain ⟨a4, a5, a6, a7, rfl⟩ := length_eq_four l1
  obtain ⟨a8, a9, a10, a11, rfl⟩ := length_eq_four l2
  have c0 := b0 a0 (by simp)
  have c1 := b0 a1 (by simp)
  have c2 := b0 a2 (by simp)
  have c3 := b0 a3 (by simp)
  have c4 := b1 a4 (by simp)
  have c5 := b1 a5 (by simp)
  have c6 := b1 a6 (by simp)
  have c7 := b1 a7 (by simp)
  have c8 := b2 a8 (by simp)
  have c9 := b2 a9 (by simp)
  have c10 := b2 a10 (by simp)
  have c11 := b2 a11 (by simp)
  clear hrows b0 b1 b2 l0 l1 l2 h3
  refine ⟨by simp [VkAccelerationStructureInstanceKHR.bytes, bytes32, bytes64], ?_, ?_⟩
  · intro b hb
    simp only [VkAccelerationStructureInstanceKHR.bytes, bytes32, bytes64, List.flatten,
      List.flatMap_cons, List.flatMap_nil, List.cons_append, List.nil_append, List.append_nil,
      List.mem_cons, List.not_mem_nil, or_false] at hb
    omega
  · simp only [VkAccelerationStructureInstanceKHR.bytes, bytes32, bytes64, List.flatten,
      List.flatMap_cons, List.flatMap_nil, List.cons_append, List.nil_append, List.append_nil,
      VkAccelerationStructureInstanceKHR.ofBytes, word32, List.getD_cons_zero,
      List.getD_cons_succ, Nat.reduceAdd]
    have w1 : ci + 16777216 * mask < 2 ^ 32 := by omega
    have w2 : off + 16777216 * flags < 2 ^ 32 := by omega
    have w3 : ref % 4294967296 < 2 ^ 32 := by omega
    have w4 : ref / 4294967296 < 2 ^ 32 := by omega
    simp only [word32_bytes32 c0, word32_bytes32 c1, word32_bytes32 c2, word32_bytes32 c3,
      word32_bytes32 c4, word32_bytes32 c5, word32_bytes32 c6, word32_bytes32 c7,
      word32_bytes32 c8, word32_bytes32 c9, word32_bytes32 c10, word32_bytes32 c11,
      word32_bytes32 w1, word32_bytes32 w2, word32_bytes32 w3, word32_bytes32 w4,
      VkAccelerationStructureInstanceKHR.mk.injEq, true_and]
    refine ⟨?_, ?_, ?_, ?_, ?_⟩ <;> omega

/-! ## The example -/

theorem exampleMachine_constructed :
    (Renderer.constructor 2 exampleEnvironment exampleInitInfo).run (Machine.initial 2) =
      (Except.ok (), exampleMachine) :=
  constructor_total 2 exampleEnvironment exampleInitInfo (fun _ => rfl)

theorem exampleMachine_slot0 :
    exampleMachine.self.frameSlot 0 = some exampleSlot := rfl

theorem exampleEvents_hostCalls :
    hostCalls exampleEvents =
      exampleMachine.device.calls ++ frameCalls 2 exampleMachine.self 0 [{}, {}, {}] := by
  simp only [exampleEvents, hostCalls_append, hostCalls_map_host]
  rfl

theorem exampleEvents_exec :
    FenceWorld.exec {} (exampleEvents.take 66) = some { signaled := [], outstanding := [9] } := by
  decide

theorem exampleEvents_submit :
    exampleEvents[66]? = some (Event.host (Call.queueSubmit Queue.graphics
      { waitSemaphores := [4], waitDstStageMask := [PipelineStage.eColorAttachmentOutput],
        commandBuffers := [2], signalSemaphores := [5] } 6)) := by
  decide

/-! ## The claims -/

/-- C1. Start from the device before the construction (no fence, no submission), let the
host run the constructor and then any number of calls of `Render` that return, and let the
device complete outstanding submissions at any moments in between (a completion signals
the fence the submission was made with; a wait returns only when its fence is signaled).
Then the calls of the frames are the per-frame protocols (wait on the slot's fence, ...,
reset of the fence and of the command buffer, ..., submit with that fence), at every
moment at most one submission per fence, hence per slot, is outstanding, and whenever the
host is about to submit with a fence, no submission made with that fence is outstanding and
the fence is unsignaled (it was waited on and then reset). -/
theorem frame_slot_reuse_gated (N : Nat) (env : Environment) (initInfo : VulkanInitInfo)
    (m0 : Machine)
    (hctor : (Renderer.constructor N env initInfo).run (Machine.initial N) = (Except.ok (), m0))
    (frames : List FrameResults) (m : Machine)
    (hframes : (renderFrames N frames).run m0 = (Except.ok (), m))
    (evs : List Event) (hhost : hostCalls evs = m.device.calls)
    (n : Nat) (w : FenceWorld) (hexec : FenceWorld.exec {} (evs.take n) = some w) :
    m.device.calls = m0.device.calls ++ frameCalls N m0.self 0 frames ∧
    (∀ f, w.outstanding.count f ≤ 1) ∧
    ∀ q info f, evs[n]? = some (.host (.queueSubmit q info f)) →
      f ∉ w.outstanding ∧ f ∉ w.signaled := by
  have hf := constructor_framed hctor
  obtain ⟨-, h0, -, -, -, -, hq⟩ := constructor_members hctor
  obtain ⟨-, e2, -⟩ := renderFrames_ok frames m0 m hf (by rw [h0]; exact Nat.zero_mod N) hframes
  have hcalls : m.device.calls = m0.device.calls ++ frameCalls N m0.self 0 frames := by
    rw [e2, h0]
  have hgate : (Gate.run {} (hostCalls evs)).isSome := by
    rw [hhost, hcalls, Gate.run_append]
    obtain ⟨g1, hg1⟩ := Gate.run_noSubmit m0.device.calls {} hq
    obtain ⟨g2, hg2⟩ := Gate.run_frameCalls N m0.self frames 0 g1
    simp [hg1, hg2]
  have hagree : FenceWorld.Agrees {} {} := by
    refine ⟨List.nodup_nil, ?_, ?_, ?_⟩ <;> intro f hf <;> simp at hf
  obtain ⟨hnodup, hsubmit⟩ := exec_agrees evs {} {} hagree hgate n w hexec
  exact ⟨hcalls, fun f => List.nodup_iff_count_le_one.mp hnodup f, hsubmit⟩

/-- Witness of C1: the example renderer, three frames, the device completing the first
submission of slot 0 before the third frame waits on fence 6; when the third frame
submits, only the submission of slot 1 (fence 9) is outstanding. -/
theorem frame_slot_reuse_gated_witness :
    (Renderer.constructor 2 exampleEnvironment exampleInitInfo).run (Machine.initial 2) =
      (Except.ok (), exampleMachine) ∧
    ∃ m, (renderFrames 2 [{}, {}, {}]).run exampleMachine = (Except.ok (), m) ∧
      hostCalls exampleEvents = m.device.calls ∧
      FenceWorld.exec {} (exampleEvents.take 66) = some { signaled := [], outstanding := [9] } ∧
      (6 ∉ [9] ∧ 6 ∉ ([] : List Handle)) := by
  refine ⟨exampleMachine_constructed, ?_⟩
  obtain ⟨m, hm⟩ := renderFrames_total [{}, {}, {}] exampleMachine
    (constructor_framed exampleMachine_constructed) (by decide) (by
      intro d hd
      simp only [List.mem_cons, List.mem_singleton, List.not_mem_nil, or_false, or_self] at hd
      subst hd
      exact ⟨rfl, rfl, rfl, rfl, rfl, rfl⟩)
  obtain ⟨-, e2, -⟩ := renderFrames_ok [{}, {}, {}] exampleMachine m
    (constructor_framed exampleMachine_constructed) rfl hm
  have hhost : hostCalls exampleEvents = m.device.calls := by
    rw [exampleEvents_hostCalls, e2]
    rfl
  have h := frame_slot_reuse_gated 2 exampleEnvironment exampleInitInfo exampleMachine
    exampleMachine_constructed [{}, {}, {}] m hm exampleEvents hhost 66 _ exampleEvents_exec
  exact ⟨m, hm, hhost, exampleEvents_exec, h.2.2 _ _ 6 exampleEvents_submit⟩

/-- C2. From the constructed renderer (slot index zero) and with a positive
`MAX_FRAMES_IN_FLIGHT`, after `k` calls of `Render` that returned the slot index is
`k mod MAX_FRAMES_IN_FLIGHT`; it is below `MAX_FRAMES_IN_FLIGHT`, which is the size of each
of the four per-slot arrays, so every `.at(_currentResourcesFrame)` is in range; and when
the driver reports success throughout, the `k` calls do return (no access throws). -/
theorem slot_index_is_frame_count_mod (N : Nat) (hN : 0 < N) (env : Environment)
    (initInfo : VulkanInitInfo) (m0 : Machine)
    (hctor : (Renderer.constructor N env initInfo).run (Machine.initial N) = (Except.ok (), m0))
    (frames : List FrameResults) :
    (∀ m, (renderFrames N frames).run m0 = (Except.ok (), m) →
      m.self._currentResourcesFrame = frames.length % N ∧
      m.self._currentResourcesFrame < N ∧
      m.self._inFlightFences.length = N ∧
      m.self._imageAvailableSemaphores.length = N ∧
      m.self._renderFinishedSemaphores.length = N ∧
      m.self._commandBuffers.length = N) ∧
    ((∀ d ∈ frames, d.allSuccess) →
      ∃ m, (renderFrames N frames).run m0 = (Except.ok (), m)) := by
  have hf := constructor_framed hctor
  obtain ⟨-, h0, -⟩ := constructor_members hctor
  constructor
  · intro m hm
    obtain ⟨e1, -, -⟩ := renderFrames_ok frames m0 m hf (by rw [h0]; exact Nat.zero_mod N) hm
    obtain ⟨f1, f2, f3, f4⟩ := hf
    rw [e1]
    simp only [h0, Nat.zero_add]
    exact ⟨trivial, Nat.mod_lt _ hN, f4, f2, f3, f1⟩
  · intro hall
    exact renderFrames_total frames m0 hf (by rw [h0]; exact hN) hall

/-- Witness of C2: two frames in flight, the example driver, three frames. -/
theorem slot_index_is_frame_count_mod_witness :
    0 < 2 ∧
    (Renderer.constructor 2 exampleEnvironment exampleInitInfo).run (Machine.initial 2) =
      (Except.ok (), exampleMachine) ∧
    ∃ m, (renderFrames 2 [{}, {}, {}]).run exampleMachine = (Except.ok (), m) ∧
      m.self._currentResourcesFrame = 1 := by
  have h := slot_index_is_frame_count_mod 2 (by decide) exampleEnvironment exampleInitInfo
    exampleMachine exampleMachine_constructed [{}, {}, {}]
  obtain ⟨m, hm⟩ := h.2 (by
    intro d hd
    simp only [List.mem_cons, List.mem_singleton, List.not_mem_nil, or_false, or_self] at hd
    subst hd
    exact ⟨rfl, rfl, rfl, rfl, rfl, rfl⟩)
  exact ⟨by decide, exampleMachine_constructed, m, hm, (h.1 m hm).1⟩

/-- C3. For the constructed renderer with any active slot `i`, a call of `Render` that
returns has issued exactly the per-frame protocol of the specification on the objects of
slot `i` (element `i` of each array) and then advanced the slot index; and no call of it
names the fence, a semaphore or the command buffer of another slot `j`. -/
theorem render_issues_per_frame_protocol (N : Nat) (env : Environment)
    (initInfo : VulkanInitInfo) (m0 : Machine)
    (hctor : (Renderer.constructor N env initInfo).run (Machine.initial N) = (Except.ok (), m0))
    (i : Nat) (d : FrameResults) (s s' : Machine)
    (hs : s.self = { m0.self with _currentResourcesFrame := i })
    (hrender : (Renderer.Render N d).run s = (Except.ok (), s')) :
    ∃ slot, m0.self.frameSlot i = some slot ∧
      s'.device.calls =
        s.device.calls ++ perFrameProtocol slot m0.self._swapChain d.swapChainImageIndex ∧
      s'.self = { m0.self with _currentResourcesFrame := (i + 1) % N } ∧
      ∀ c ∈ perFrameProtocol slot m0.self._swapChain d.swapChainImageIndex,
        ∀ j other, j ≠ i → m0.self.frameSlot j = some other →
          other.workDone ∉ c.fencesUsed ∧ other.imageReady ∉ c.semaphoresUsed ∧
          other.renderComplete ∉ c.semaphoresUsed ∧
          other.commandContext ∉ c.commandBuffersUsed := by
  have hf : s.self.Framed N := by rw [hs]; exact constructor_framed hctor
  obtain ⟨hlt, -, slot, hslot, hs'⟩ := Render_ok hf hrender
  rw [hs] at hslot hs' hlt
  have hslot' : m0.self.frameSlot i = some slot := hslot
  refine ⟨slot, hslot', ?_, ?_, ?_⟩
  · rw [hs']
  · rw [hs']
  · obtain ⟨-, -, hc, ha, hr, hfe, -⟩ := constructor_members hctor
    obtain ⟨c1, c2, c3, c4⟩ := frameSlot_eq_some hslot'
    intro c hcmem j other hji hother
    obtain ⟨o1, o2, o3, o4⟩ := frameSlot_eq_some hother
    rw [hc] at c1 o1
    rw [ha] at c2 o2
    rw [hr] at c3 o3
    rw [hfe] at c4 o4
    simp only [List.getElem?_map, Option.map_eq_some'] at c1 c2 c3 c4 o1 o2 o3 o4
    obtain ⟨a1, ha1, c1⟩ := c1
    obtain ⟨a2, ha2, c2⟩ := c2
    obtain ⟨a3, ha3, c3⟩ := c3
    obtain ⟨a4, ha4, c4⟩ := c4
    obtain ⟨b1, hb1, o1⟩ := o1
    obtain ⟨b2, hb2, o2⟩ := o2
    obtain ⟨b3, hb3, o3⟩ := o3
    obtain ⟨b4, hb4, o4⟩ := o4
    obtain rfl := range_getElem?_some ha1
    obtain rfl := range_getElem?_some ha2
    obtain rfl := range_getElem?_some ha3
    obtain rfl := range_getElem?_some ha4
    obtain rfl := range_getElem?_some hb1
    obtain rfl := range_getElem?_some hb2
    obtain rfl := range_getElem?_some hb3
    obtain rfl := range_getElem?_some hb4
    clear hs hs' hslot hrender hf hlt
    simp only [perFrameProtocol, List.mem_cons, List.mem_singleton, List.not_mem_nil,
      or_false] at hcmem
    rcases hcmem with rfl | rfl | rfl | rfl | rfl | rfl | rfl | rfl | rfl <;>
      simp only [Call.fencesUsed, Call.semaphoresUsed, Call.commandBuffersUsed,
        List.mem_cons, List.mem_singleton, List.not_mem_nil, List.mem_append, or_false,
        not_false_eq_true, true_and, and_true, not_or] <;>
      unfold Handle at * <;>
      omega

/-- Witness of C3: slot 0 of the example renderer, the driver reporting success and image 1. -/
theorem render_issues_per_frame_protocol_witness :
    ∃ s', (Renderer.Render 2 { swapChainImageIndex := 1 }).run exampleMachine =
        (Except.ok (), s') ∧
      s'.device.calls = exampleMachine.device.calls ++
        perFrameProtocol exampleSlot 1 1 ∧
      s'.self._currentResourcesFrame = 1 := by
  obtain ⟨s', hs', -, -⟩ := @Render_total 2 { swapChainImageIndex := 1 } exampleMachine
    (constructor_framed exampleMachine_constructed) (by decide)
    ⟨rfl, rfl, rfl, rfl, rfl, rfl⟩
  obtain ⟨slot, hslot, hcalls, hself, -⟩ := render_issues_per_frame_protocol 2
    exampleEnvironment exampleInitInfo exampleMachine exampleMachine_constructed 0
    { swapChainImageIndex := 1 } exampleMachine s' rfl hs'
  rw [exampleMachine_slot0] at hslot
  obtain rfl := Option.some.inj hslot
  exact ⟨s', hs', hcalls, by rw [hself]⟩

/-- C4. In a completed construction each of the two builds asks the driver for the sizes
of its own build description (the bottom-level triangle description, the top-level
instances description; there is no other size query), and whatever the driver answers:
the structure buffer of the build is requested with exactly the reported
`accelerationStructureSize`, its structure is created with that size, its scratch buffer
is requested with exactly the reported `buildScratchSize` of the same query, and its build
command uses the address of its own scratch buffer, which is not the other build's. -/
theorem build_sizes_follow_own_query (N : Nat) (env : Environment) (initInfo : VulkanInitInfo)
    (m0 : Machine)
    (hctor : (Renderer.constructor N env initInfo).run (Machine.initial N) = (Except.ok (), m0)) :
    ∃ blasInfo tlasInfo blasStructure blasScratch tlasStructure tlasScratch,
      blasInfo.type = AccelerationStructureTypeKHR.eBottomLevel ∧
      tlasInfo.type = AccelerationStructureTypeKHR.eTopLevel ∧
      Call.getAccelerationStructureBuildSizesKHR AccelerationStructureBuildTypeKHR.eDevice
        blasInfo 1 ∈ m0.device.calls ∧
      Call.getAccelerationStructureBuildSizesKHR AccelerationStructureBuildTypeKHR.eDevice
        tlasInfo 1 ∈ m0.device.calls ∧
      (∀ t info n, Call.getAccelerationStructureBuildSizesKHR t info n ∈ m0.device.calls →
        (info = blasInfo ∨ info = tlasInfo) ∧ n = 1) ∧
      m0.self._blas.structureBuffer = some blasStructure ∧
      m0.self._blas.scratchBuffer = some blasScratch ∧
      m0.self._tlas.structureBuffer = some tlasStructure ∧
      m0.self._tlas.scratchBuffer = some tlasScratch ∧
      Call.createBuffer blasStructure.creation blasStructure.buffer ∈ m0.device.calls ∧
      Call.createBuffer blasScratch.creation blasScratch.buffer ∈ m0.device.calls ∧
      Call.createBuffer tlasStructure.creation tlasStructure.buffer ∈ m0.device.calls ∧
      Call.createBuffer tlasScratch.creation tlasScratch.buffer ∈ m0.device.calls ∧
      blasStructure.creation.size =
        (env.getAccelerationStructureBuildSizesKHR blasInfo 1).accelerationStructureSize ∧
      blasScratch.creation.size =
        (env.getAccelerationStructureBuildSizesKHR blasInfo 1).buildScratchSize ∧
      tlasStructure.creation.size =
        (env.getAccelerationStructureBuildSizesKHR tlasInfo 1).accelerationStructureSize ∧
      tlasScratch.creation.size =
        (env.getAccelerationStructureBuildSizesKHR tlasInfo 1).buildScratchSize ∧
      blasScratch.buffer ≠ tlasScratch.buffer ∧
      (∀ createInfo h, Call.createAccelerationStructureKHR createInfo h ∈ m0.device.calls →
        (h = m0.self._blas.vkStructure ∧
          createInfo.type = AccelerationStructureTypeKHR.eBottomLevel ∧
          createInfo.size =
            (env.getAccelerationStructureBuildSizesKHR blasInfo 1).accelerationStructureSize) ∨
        (h = m0.self._tlas.vkStructure ∧
          createInfo.type = AccelerationStructureTypeKHR.eTopLevel ∧
          createInfo.size =
            (env.getAccelerationStructureBuildSizesKHR tlasInfo 1).accelerationStructureSize)) ∧
      (∀ buildInfo ranges,
        Call.buildAccelerationStructuresKHR buildInfo ranges ∈ m0.device.calls →
        (buildInfo.dstAccelerationStructure = m0.self._blas.vkStructure ∧
          buildInfo.type = AccelerationStructureTypeKHR.eBottomLevel ∧
          buildInfo.scratchData = env.getBufferAddress blasScratch.buffer) ∨
        (buildInfo.dstAccelerationStructure = m0.self._tlas.vkStructure ∧
          buildInfo.type = AccelerationStructureTypeKHR.eTopLevel ∧
          buildInfo.scratchData = env.getBufferAddress tlasScratch.buffer)) := by
  rw [constructor_ok hctor]
  refine ⟨blasQuery env (geometryBuffer "Vertex Buffer" 36 (1 + N + 3 * N + 1))
      (geometryBuffer "Index Buffer" 12 (1 + N + 3 * N + 2))
      (geometryBuffer "Transform Buffer" 12 (1 + N + 3 * N + 3)), tlasQuery,
    storageBuffer "BLAS Structure Buffer"
      (blasSizes env (geometryBuffer "Vertex Buffer" 36 (1 + N + 3 * N + 1))
        (geometryBuffer "Index Buffer" 12 (1 + N + 3 * N + 2))
        (geometryBuffer "Transform Buffer" 12 (1 + N + 3 * N + 3))).accelerationStructureSize
      (1 + N + 3 * N + 3 + 1),
    scratchBuffer "BLAS Scratch Buffer"
      (blasSizes env (geometryBuffer "Vertex Buffer" 36 (1 + N + 3 * N + 1))
        (geometryBuffer "Index Buffer" 12 (1 + N + 3 * N + 2))
        (geometryBuffer "Transform Buffer" 12 (1 + N + 3 * N + 3))).buildScratchSize
      (1 + N + 3 * N + 3 + 2),
    storageBuffer "TLAS Structure Buffer" (tlasSizes env).accelerationStructureSize
      (1 + N + 3 * N + 3 + 3 + 1),
    scratchBuffer "TLAS Scratch Buffer" (tlasSizes env).buildScratchSize
      (1 + N + 3 * N + 3 + 3 + 2), rfl, rfl, ?_, ?_, ?_, rfl, rfl, rfl, rfl, ?_, ?_, ?_, ?_, rfl, rfl, rfl, rfl,
    ?_, ?_, ?_⟩
  · rw [mem_constructed_calls]; simp [blasCalls]
  · rw [mem_constructed_calls]; simp [tlasCalls]
  · intro t info n hmem
    rw [mem_constructed_calls] at hmem
    rcases hmem with h | h | h | h | h | h | h
    · simp at h
    · simp at h
    · simpa [Call.isSyncCreate] using syncCalls_isSyncCreate _ _ _ h
    · simp [triangleCalls] at h
    · simp [blasCalls] at h
      exact ⟨Or.inl h.1, h.2⟩
    · simp [tlasCalls] at h
      exact ⟨Or.inr h.1, h.2⟩
    · simp [descriptorCalls] at h
  · rw [mem_constructed_calls]; simp [blasCalls, storageBuffer]
  · rw [mem_constructed_calls]; simp [blasCalls, storageBuffer, scratchBuffer]
  · rw [mem_constructed_calls]; simp [tlasCalls, storageBuffer]
  · rw [mem_constructed_calls]; simp [tlasCalls, storageBuffer, scratchBuffer]
  · simp [scratchBuffer]
  · intro createInfo h hmem
    rw [mem_constructed_calls] at hmem
    rcases hmem with h | h | h | h | h | h | h
    · simp at h
    · simp at h
    · simpa [Call.isSyncCreate] using syncCalls_isSyncCreate _ _ _ h
    · simp [triangleCalls] at h
    · simp [blasCalls] at h
      left
      obtain ⟨rfl, rfl⟩ := h
      exact ⟨rfl, rfl, rfl⟩
    · simp [tlasCalls] at h
      right
      obtain ⟨rfl, rfl⟩ := h
      exact ⟨rfl, rfl, rfl⟩
    · simp [descriptorCalls] at h
  · intro buildInfo ranges hmem
    rw [mem_constructed_calls] at hmem
    rcases hmem with h | h | h | h | h | h | h
    · simp at h
    · simp at h
    · simpa [Call.isSyncCreate] using syncCalls_isSyncCreate _ _ _ h
    · simp [triangleCalls] at h
    · simp [blasCalls] at h
      left
      obtain ⟨rfl, rfl⟩ := h
      exact ⟨rfl, rfl, rfl⟩
    · simp [tlasCalls] at h
      right
      obtain ⟨rfl, rfl⟩ := h
      exact ⟨rfl, rfl, rfl⟩
    · simp [descriptorCalls] at h

/-- Witness of C4: the example renderer, whose driver reports 256 and 128 bytes. -/
theorem build_sizes_follow_own_query_witness :
    (Renderer.constructor 2 exampleEnvironment exampleInitInfo).run (Machine.initial 2) =
      (Except.ok (), exampleMachine) ∧
    ∃ blasStructure blasScratch tlasStructure tlasScratch,
      exampleMachine.self._blas.structureBuffer = some blasStructure ∧
      exampleMachine.self._blas.scratchBuffer = some blasScratch ∧
      exampleMachine.self._tlas.structureBuffer = some tlasStructure ∧
      exampleMachine.self._tlas.scratchBuffer = some tlasScratch ∧
      blasStructure.creation.size = 256 ∧ blasScratch.creation.size = 128 ∧
      tlasStructure.creation.size = 256 ∧ tlasScratch.creation.size = 128 := by
  obtain ⟨_, _, a, b, c, d, -, -, -, -, -, ha, hb, hc, hd, -, -, -, -, sa, sb, sc, sd, -⟩ :=
    build_sizes_follow_own_query 2 exampleEnvironment exampleInitInfo exampleMachine
      exampleMachine_constructed
  exact ⟨exampleMachine_constructed, a, b, c, d, ha, hb, hc, hd, sa, sb, sc, sd⟩

/-- C5, as the code has it. In a completed construction both structures are created on
the structure buffer of `_blas`: `InitializeTLAS` passes `_blas.structureBuffer->buffer`,
not `_tlas.structureBuffer->buffer`, as `createInfo.buffer`. So the buffer of `_blas` is
the backing storage of two structures and the buffer allocated for `_tlas` is the backing
storage of none. -/
theorem tlas_created_on_blas_structure_buffer (N : Nat) (env : Environment)
    (initInfo : VulkanInitInfo) (m0 : Machine)
    (hctor : (Renderer.constructor N env initInfo).run (Machine.initial N) = (Except.ok (), m0)) :
    ∃ blasBuffer tlasBuffer blasInfo tlasInfo,
      m0.self._blas.structureBuffer = some blasBuffer ∧
      m0.self._tlas.structureBuffer = some tlasBuffer ∧
      blasBuffer.buffer ≠ tlasBuffer.buffer ∧
      m0.self._blas.vkStructure ≠ m0.self._tlas.vkStructure ∧
      Call.createAccelerationStructureKHR blasInfo m0.self._blas.vkStructure ∈ m0.device.calls ∧
      Call.createAccelerationStructureKHR tlasInfo m0.self._tlas.vkStructure ∈ m0.device.calls ∧
      blasInfo.buffer = blasBuffer.buffer ∧
      tlasInfo.buffer = blasBuffer.buffer ∧
      ∀ createInfo h, Call.createAccelerationStructureKHR createInfo h ∈ m0.device.calls →
        createInfo.buffer ≠ tlasBuffer.buffer := by
  rw [constructor_ok hctor]
  refine ⟨storageBuffer "BLAS Structure Buffer"
      (blasSizes env (geometryBuffer "Vertex Buffer" 36 (1 + N + 3 * N + 1))
        (geometryBuffer "Index Buffer" 12 (1 + N + 3 * N + 2))
        (geometryBuffer "Transform Buffer" 12 (1 + N + 3 * N + 3))).accelerationStructureSize
      (1 + N + 3 * N + 3 + 1),
    storageBuffer "TLAS Structure Buffer" (tlasSizes env).accelerationStructureSize
      (1 + N + 3 * N + 3 + 3 + 1),
    { buffer := 1 + N + 3 * N + 3 + 1
      offset := 0
      size := (blasSizes env (geometryBuffer "Vertex Buffer" 36 (1 + N + 3 * N + 1))
        (geometryBuffer "Index Buffer" 12 (1 + N + 3 * N + 2))
        (geometryBuffer "Transform Buffer" 12 (1 + N + 3 * N + 3))).accelerationStructureSize
      type := AccelerationStructureTypeKHR.eBottomLevel },
    { buffer := 1 + N + 3 * N + 3 + 1
      offset := 0
      size := (tlasSizes env).accelerationStructureSize
      type := AccelerationStructureTypeKHR.eTopLevel },
    rfl, rfl, ?_, ?_, ?_, ?_, rfl, rfl, ?_⟩
  · simp [storageBuffer]
  · simp [Machine.constructed, Machine.afterDescriptorSets, Machine.afterTLAS,
      Machine.afterBLAS, Machine.afterTriangle, Machine.afterSync]
  · rw [mem_constructed_calls]
    simp [blasCalls, Machine.constructed, Machine.afterDescriptorSets, Machine.afterTLAS,
      Machine.afterBLAS, Machine.afterTriangle, Machine.afterSync]
  · rw [mem_constructed_calls]
    simp [tlasCalls, storageBuffer, Machine.constructed, Machine.afterDescriptorSets,
      Machine.afterTLAS, Machine.afterBLAS, Machine.afterTriangle, Machine.afterSync]
  · intro createInfo h hmem
    rw [mem_constructed_calls] at hmem
    rcases hmem with h | h | h | h | h | h | h
    · simp at h
    · simp at h
    · simpa [Call.isSyncCreate] using syncCalls_isSyncCreate _ _ _ h
    · simp [triangleCalls] at h
    · simp [blasCalls] at h
      obtain ⟨rfl, rfl⟩ := h
      simp [storageBuffer]
    · simp [tlasCalls] at h
      obtain ⟨rfl, rfl⟩ := h
      simp [storageBuffer]
    · simp [descriptorCalls] at h

/-- The failing input of C5: on the example renderer buffer 13 is the structure buffer of
`_blas`, buffer 16 that of `_tlas`, and both structures (15 and 18) were created on
buffer 13. -/
theorem tlas_created_on_blas_structure_buffer_witness :
    (Renderer.constructor 2 exampleEnvironment exampleInitInfo).run (Machine.initial 2) =
      (Except.ok (), exampleMachine) ∧
    (exampleMachine.self._blas.structureBuffer.map fun b => b.buffer) = some 13 ∧
    (exampleMachine.self._tlas.structureBuffer.map fun b => b.buffer) = some 16 ∧
    exampleMachine.self._blas.vkStructure = 15 ∧ exampleMachine.self._tlas.vkStructure = 18 ∧
    Call.createAccelerationStructureKHR
      { buffer := 13, offset := 0, size := 256, type := AccelerationStructureTypeKHR.eBottomLevel }
      15 ∈ exampleMachine.device.calls ∧
    Call.createAccelerationStructureKHR
      { buffer := 13, offset := 0, size := 256, type := AccelerationStructureTypeKHR.eTopLevel }
      18 ∈ exampleMachine.device.calls ∧
    ∀ createInfo h,
      Call.createAccelerationStructureKHR createInfo h ∈ exampleMachine.device.calls →
        createInfo.buffer ≠ 16 := by
  obtain ⟨bb, tb, bi, ti, hb, ht, -, -, -, -, -, -, hall⟩ :=
    tlas_created_on_blas_structure_buffer 2 exampleEnvironment exampleInitInfo exampleMachine
      exampleMachine_constructed
  have ht' : exampleMachine.self._tlas.structureBuffer =
      some (storageBuffer "TLAS Structure Buffer" 256 16) := rfl
  rw [ht'] at ht
  obtain rfl := Option.some.inj ht
  exact ⟨exampleMachine_constructed, rfl, rfl, rfl, rfl, by decide, by decide, hall⟩

/-- C6, as the code has it. A completed construction creates one descriptor pool, with
`maxSets` 1, and a layout with a storage-image, an acceleration-structure and a
uniform-buffer binding of count 1 each; but the three pool sizes are all written through
`poolSizes.at(0)`, so the array passed to `createDescriptorPool` is one uniform-buffer
entry of count 1 followed by two value-initialised entries (`eSampler`, count 0): it has
no capacity for the storage image or the acceleration structure. -/
theorem descriptor_pool_sizes_written_to_element_zero (N : Nat) (env : Environment)
    (initInfo : VulkanInitInfo) (m0 : Machine)
    (hctor : (Renderer.constructor N env initInfo).run (Machine.initial N) = (Except.ok (), m0)) :
    ∃ createInfo bindings,
      Call.createDescriptorPool createInfo m0.self._descriptorPool ∈ m0.device.calls ∧
      (∀ info h, Call.createDescriptorPool info h ∈ m0.device.calls →
        info = createInfo ∧ h = m0.self._descriptorPool) ∧
      Call.createDescriptorSetLayout bindings m0.self._descriptorSetLayout ∈ m0.device.calls ∧
      bindings.map (fun b => (b.descriptorType, b.descriptorCount)) =
        [(DescriptorType.eStorageImage, 1), (DescriptorType.eAccelerationStructureKHR, 1),
          (DescriptorType.eUniformBuffer, 1)] ∧
      createInfo.maxSets = 1 ∧
      createInfo.poolSizeCount = 3 ∧
      createInfo.pPoolSizes.map (fun p => (p.type, p.descriptorCount)) =
        [(DescriptorType.eUniformBuffer, 1), (DescriptorType.eSampler, 0),
          (DescriptorType.eSampler, 0)] ∧
      ∀ p ∈ createInfo.pPoolSizes,
        p.type ≠ DescriptorType.eStorageImage ∧
        p.type ≠ DescriptorType.eAccelerationStructureKHR := by
  rw [constructor_ok hctor]
  refine ⟨poolCreateInfo, layoutBindings, ?_, ?_, ?_, rfl, rfl, rfl, rfl, by decide⟩
  · rw [mem_constructed_calls]
    simp [descriptorCalls, Machine.constructed, Machine.afterDescriptorSets, Machine.afterTLAS,
      Machine.afterBLAS, Machine.afterTriangle, Machine.afterSync]
  · intro info h hmem
    rw [mem_constructed_calls] at hmem
    rcases hmem with h | h | h | h | h | h | h
    · simp at h
    · simp at h
    · simpa [Call.isSyncCreate] using syncCalls_isSyncCreate _ _ _ h
    · simp [triangleCalls] at h
    · simp [blasCalls] at h
    · simp [tlasCalls] at h
    · simp [descriptorCalls] at h
      obtain ⟨rfl, rfl⟩ := h
      simp [Machine.constructed, Machine.afterDescriptorSets, Machine.afterTLAS,
        Machine.afterBLAS, Machine.afterTriangle, Machine.afterSync]
  · rw [mem_constructed_calls]
    simp [descriptorCalls, Machine.constructed, Machine.afterDescriptorSets, Machine.afterTLAS,
      Machine.afterBLAS, Machine.afterTriangle, Machine.afterSync]

/-- The failing input of C6: the example renderer creates its pool, object 22, with one
uniform-buffer entry and two empty sampler entries. -/
theorem descriptor_pool_sizes_written_to_element_zero_witness :
    (Renderer.constructor 2 exampleEnvironment exampleInitInfo).run (Machine.initial 2) =
      (Except.ok (), exampleMachine) ∧
    exampleMachine.self._descriptorPool = 22 ∧
    Call.createDescriptorPool
      { maxSets := 1
        poolSizeCount := 3
        pPoolSizes :=
          [ { type := DescriptorType.eUniformBuffer, descriptorCount := 1 },
            { type := DescriptorType.eSampler, descriptorCount := 0 },
            { type := DescriptorType.eSampler, descriptorCount := 0 } ] }
      22 ∈ exampleMachine.device.calls ∧
    ∃ createInfo,
      Call.createDescriptorPool createInfo 22 ∈ exampleMachine.device.calls ∧
      ∀ p ∈ createInfo.pPoolSizes,
        p.type ≠ DescriptorType.eStorageImage ∧
        p.type ≠ DescriptorType.eAccelerationStructureKHR := by
  obtain ⟨createInfo, _, hmem, -, -, -, -, -, -, hno⟩ :=
    descriptor_pool_sizes_written_to_element_zero 2 exampleEnvironment exampleInitInfo
      exampleMachine exampleMachine_constructed
  exact ⟨exampleMachine_constructed, rfl, by decide, createInfo, hmem, hno⟩

/-- C7, as the code has it. A completed construction creates the layout with the bindings
0, 1, 2 of types storage image, acceleration structure and uniform buffer, count 1 each,
and issues one `updateDescriptorSets` with three writes, all to `_descriptorSet`, whose
bindings, types and counts are those of the layout in order; the second write points at
`_tlas.vkStructure` and the third at the whole camera uniform buffer. The first write
points at a `vk::DescriptorImageInfo` whose `imageView` was never assigned and is the
null handle: no output image is bound. -/
theorem descriptor_image_write_has_null_view (N : Nat) (env : Environment)
    (initInfo : VulkanInitInfo) (m0 : Machine)
    (hctor : (Renderer.constructor N env initInfo).run (Machine.initial N) = (Except.ok (), m0)) :
    ∃ bindings imageWrite structureWrite uniformWrite uniform,
      Call.createDescriptorSetLayout bindings m0.self._descriptorSetLayout ∈ m0.device.calls ∧
      (∀ b h, Call.createDescriptorSetLayout b h ∈ m0.device.calls → b = bindings) ∧
      bindings.map (fun b => (b.binding, b.descriptorType, b.descriptorCount)) =
        [(0, DescriptorType.eStorageImage, 1), (1, DescriptorType.eAccelerationStructureKHR, 1),
          (2, DescriptorType.eUniformBuffer, 1)] ∧
      Call.updateDescriptorSets [imageWrite, structureWrite, uniformWrite] ∈ m0.device.calls ∧
      (∀ writes, Call.updateDescriptorSets writes ∈ m0.device.calls →
        writes = [imageWrite, structureWrite, uniformWrite]) ∧
      [imageWrite, structureWrite, uniformWrite].map
          (fun w => (w.dstSet, w.dstBinding, w.descriptorType, w.descriptorCount)) =
        bindings.map
          (fun b => (m0.self._descriptorSet, b.binding, b.descriptorType, b.descriptorCount)) ∧
      structureWrite.pNext =
        some { accelerationStructureCount := 1
               pAccelerationStructures := [m0.self._tlas.vkStructure] } ∧
      m0.self._uniformBuffer = some uniform ∧
      uniformWrite.pBufferInfo =
        some { buffer := uniform.buffer, offset := 0, range := uniform.creation.size } ∧
      imageWrite.pImageInfo =
        some { sampler := 0, imageView := 0, imageLayout := ImageLayout.eGeneral } := by
  rw [constructor_ok hctor]
  refine ⟨layoutBindings,
    { dstSet := 1 + N + 3 * N + 3 + 3 + 4 + 4, dstBinding := 0, dstArrayElement := 0,
      descriptorCount := 1, descriptorType := DescriptorType.eStorageImage,
      pImageInfo := some { sampler := 0, imageView := 0, imageLayout := ImageLayout.eGeneral } },
    { pNext := some { accelerationStructureCount := 1,
                      pAccelerationStructures := [1 + N + 3 * N + 3 + 3 + 3] },
      dstSet := 1 + N + 3 * N + 3 + 3 + 4 + 4, dstBinding := 1, dstArrayElement := 0,
      descriptorCount := 1, descriptorType := DescriptorType.eAccelerationStructureKHR },
    { dstSet := 1 + N + 3 * N + 3 + 3 + 4 + 4, dstBinding := 2, dstArrayElement := 0,
      descriptorCount := 1, descriptorType := DescriptorType.eUniformBuffer,
      pBufferInfo := some { buffer := 1 + N + 3 * N + 3 + 3 + 4 + 1, offset := 0, range := 128 } },
    uniformBuffer (1 + N + 3 * N + 3 + 3 + 4 + 1), ?_, ?_, rfl, ?_, ?_, rfl, rfl, rfl, rfl, rfl⟩
  · rw [mem_constructed_calls]
    simp [descriptorCalls, Machine.constructed, Machine.afterDescriptorSets, Machine.afterTLAS,
      Machine.afterBLAS, Machine.afterTriangle, Machine.afterSync]
  · intro b h hmem
    rw [mem_constructed_calls] at hmem
    rcases hmem with h | h | h | h | h | h | h
    · simp at h
    · simp at h
    · simpa [Call.isSyncCreate] using syncCalls_isSyncCreate _ _ _ h
    · simp [triangleCalls] at h
    · simp [blasCalls] at h
    · simp [tlasCalls] at h
    · simp [descriptorCalls] at h
      exact h.1
  · rw [mem_constructed_calls]
    simp [descriptorCalls, descriptorWrites]
  · intro writes hmem
    rw [mem_constructed_calls] at hmem
    rcases hmem with h | h | h | h | h | h | h
    · simp at h
    · simp at h
    · simpa [Call.isSyncCreate] using syncCalls_isSyncCreate _ _ _ h
    · simp [triangleCalls] at h
    · simp [blasCalls] at h
    · simp [tlasCalls] at h
    · simp [descriptorCalls, descriptorWrites] at h
      exact h

/-- The failing input of C7: the example renderer writes its set, object 23, once; the
write of binding 0 carries the image view 0, the write of binding 1 the top-level
structure 18 and the write of binding 2 the uniform buffer 20. -/
theorem descriptor_image_write_has_null_view_witness :
    (Renderer.constructor 2 exampleEnvironment exampleInitInfo).run (Machine.initial 2) =
      (Except.ok (), exampleMachine) ∧
    Call.updateDescriptorSets
      [ { dstSet := 23, dstBinding := 0, dstArrayElement := 0, descriptorCount := 1,
          descriptorType := DescriptorType.eStorageImage,
          pImageInfo :=
            some { sampler := 0, imageView := 0, imageLayout := ImageLayout.eGeneral } },
        { pNext := some { accelerationStructureCount := 1, pAccelerationStructures := [18] },
          dstSet := 23, dstBinding := 1, dstArrayElement := 0, descriptorCount := 1,
          descriptorType := DescriptorType.eAccelerationStructureKHR },
        { dstSet := 23, dstBinding := 2, dstArrayElement := 0, descriptorCount := 1,
          descriptorType := DescriptorType.eUniformBuffer,
          pBufferInfo := some { buffer := 20, offset := 0, range := 128 } } ]
      ∈ exampleMachine.device.calls ∧
    ∃ imageWrite structureWrite uniformWrite,
      Call.updateDescriptorSets [imageWrite, structureWrite, uniformWrite] ∈
        exampleMachine.device.calls ∧
      imageWrite.pImageInfo =
        some { sampler := 0, imageView := 0, imageLayout := ImageLayout.eGeneral } := by
  obtain ⟨_, a, b, c, _, -, -, -, hmem, -, -, -, -, -, himg⟩ :=
    descriptor_image_write_has_null_view 2 exampleEnvironment exampleInitInfo exampleMachine
      exampleMachine_constructed
  exact ⟨exampleMachine_constructed, by decide, a, b, c, hmem, himg⟩

/-- C8, the counterexample. The driver reports a structure size of 256 and a scratch size of
zero, and its allocator rejects an empty buffer. `InitializeBLAS` raises, but only at the
allocation of the scratch buffer: before that it has asked for the structure buffer 13 of
256 bytes, the allocator has granted it, and `_blas.structureBuffer` owns it. So with a
reported size of zero a buffer allocation was performed. -/
theorem blas_allocates_before_empty_scratch_is_rejected :
    (blasSizes noScratchEnvironment (geometryBuffer "Vertex Buffer" 36 10)
      (geometryBuffer "Index Buffer" 12 11)
      (geometryBuffer "Transform Buffer" 12 12)).buildScratchSize = 0 ∧
    noScratchEnvironment.result
      (Call.createBuffer (scratchBuffer "BLAS Scratch Buffer" 0 14).creation 14) ≠ eSuccess ∧
    noScratchEnvironment.result
      (Call.createBuffer (storageBuffer "BLAS Structure Buffer" 256 13).creation 13) = eSuccess ∧
    Call.createBuffer (storageBuffer "BLAS Structure Buffer" 256 13).creation 13 ∉
      exampleGeometryMachine.device.calls ∧
    (Renderer.InitializeBLAS noScratchEnvironment exampleGeometryMachine).1 =
      Except.error "[VULKAN] Failed creating buffer!" ∧
    (Renderer.InitializeBLAS noScratchEnvironment exampleGeometryMachine).2.device.calls =
      exampleGeometryMachine.device.calls ++
        [ Call.getBufferAddress 10, Call.getBufferAddress 11, Call.getBufferAddress 12,
          Call.getAccelerationStructureBuildSizesKHR AccelerationStructureBuildTypeKHR.eDevice
            (blasQuery noScratchEnvironment (geometryBuffer "Vertex Buffer" 36 10)
              (geometryBuffer "Index Buffer" 12 11) (geometryBuffer "Transform Buffer" 12 12)) 1,
          Call.createBuffer (storageBuffer "BLAS Structure Buffer" 256 13).creation 13,
          Call.createBuffer (scratchBuffer "BLAS Scratch Buffer" 0 14).creation 14 ] ∧
    (Renderer.InitializeBLAS noScratchEnvironment exampleGeometryMachine).2.self._blas.structureBuffer
      = some (storageBuffer "BLAS Structure Buffer" 256 13) := by
  refine ⟨rfl, by decide, by decide, by decide, ?_, ?_, ?_⟩
  all_goals
    simp [Renderer.InitializeBLAS, run_bind, run_pure, run_make_unique, run_modifySelf,
      run_getSelf, run_deref_some, run_issue, run_getBufferAddress, sizeof_Vertex,
      exampleGeometryMachine, Machine.afterTriangle, Machine.afterSync, noScratchEnvironment,
      exampleEnvironment, eSuccess, blasQuery, storageBuffer, scratchBuffer, geometryBuffer,
      triangleCalls, syncCalls]

/-- C8, as the code has it. `InitializeBLAS` does not look at the sizes the query reports.
Whatever they are it asks for the structure buffer of the reported size. It runs to its
end, for every reported size, exactly when its four checked calls report success: the
allocation of the structure buffer, the allocation of the scratch buffer, the creation of
the structure and the one-shot submission. When it raises, one of these four has reported
a failure, the checked calls before it have succeeded, and it is the last call issued. -/
theorem blas_build_ignores_reported_sizes (env : Environment) (s : Machine)
    (vb ib tb : Buffer)
    (hv : s.self._vertexBuffer = some vb) (hi : s.self._indexBuffer = some ib)
    (ht : s.self._transformBuffer = some tb) :
    Call.createBuffer (storageBuffer "BLAS Structure Buffer"
        (blasSizes env vb ib tb).accelerationStructureSize (s.device.objects + 1)).creation
      (s.device.objects + 1) ∈ (Renderer.InitializeBLAS env s).2.device.calls ∧
    ((∀ c ∈ blasChecked env vb ib tb s.device.objects, env.result c = eSuccess) →
      Renderer.InitializeBLAS env s = (Except.ok (), s.afterBLAS env vb ib tb)) ∧
    (∀ s', Renderer.InitializeBLAS env s = (Except.ok (), s') →
      (∀ c ∈ blasChecked env vb ib tb s.device.objects, env.result c = eSuccess) ∧
      s' = s.afterBLAS env vb ib tb) ∧
    (∀ e s', Renderer.InitializeBLAS env s = (Except.error e, s') →
      ∃ (k : Nat) (c : Call) (n : Nat), (blasChecked env vb ib tb s.device.objects)[k]? = some c ∧
        env.result c ≠ eSuccess ∧
        (∀ c' ∈ (blasChecked env vb ib tb s.device.objects).take k,
          env.result c' = eSuccess) ∧
        (blasCalls env vb ib tb s.device.objects)[n]? = some c ∧
        s'.device.calls = s.device.calls ++
          (blasCalls env vb ib tb s.device.objects).take (n + 1)) := by
  refine ⟨InitializeBLAS_requests_structure_buffer env s vb ib tb hv hi ht, ?_, ?_, ?_⟩
  · intro hall
    rcases InitializeBLAS_outcome env s vb ib tb hv hi ht with
      ⟨k, e, -, -, ⟨c, hc, hfail, -⟩, -, -⟩ | ⟨-, hrun⟩
    · exact absurd (hall c (List.getElem?_mem hc)) hfail
    · exact hrun
  · intro s' hok
    rcases InitializeBLAS_outcome env s vb ib tb hv hi ht with
      ⟨k, e, -, -, -, herr, -⟩ | ⟨hall, hrun⟩
    · rw [hok] at herr
      cases herr
    · rw [hrun] at hok
      exact ⟨hall, (Prod.mk.inj hok).2.symm⟩
  · intro e s' herr
    rcases InitializeBLAS_outcome env s vb ib tb hv hi ht with
      ⟨k, e', -, hbefore, ⟨c, hc, hfail, hn⟩, -, hcalls⟩ | ⟨-, hrun⟩
    · rw [herr] at hcalls
      exact ⟨k, c, _, hc, hfail, hbefore, hn, hcalls⟩
    · rw [hrun] at herr
      cases (Prod.mk.inj herr).1

/-- Witness of C8 as the code has it: the driver reports a scratch size of zero and its
allocator rejects an empty buffer; `InitializeBLAS` raises at the second of its checked
calls, the sixth of its calls, the first checked call having succeeded. -/
theorem blas_build_ignores_reported_sizes_witness :
    exampleGeometryMachine.self._vertexBuffer = some (geometryBuffer "Vertex Buffer" 36 10) ∧
    exampleGeometryMachine.self._indexBuffer = some (geometryBuffer "Index Buffer" 12 11) ∧
    exampleGeometryMachine.self._transformBuffer =
      some (geometryBuffer "Transform Buffer" 12 12) ∧
    (Renderer.InitializeBLAS noScratchEnvironment exampleGeometryMachine).1 =
      Except.error "[VULKAN] Failed creating buffer!" ∧
    Call.createBuffer (storageBuffer "BLAS Structure Buffer" 256 13).creation 13 ∈
      (Renderer.InitializeBLAS noScratchEnvironment exampleGeometryMachine).2.device.calls ∧
    ∃ (k : Nat) (c : Call) (n : Nat),
      (blasChecked noScratchEnvironment (geometryBuffer "Vertex Buffer" 36 10)
        (geometryBuffer "Index Buffer" 12 11) (geometryBuffer "Transform Buffer" 12 12) 12)[k]?
        = some c ∧
      noScratchEnvironment.result c ≠ eSuccess ∧
      (blasCalls noScratchEnvironment (geometryBuffer "Vertex Buffer" 36 10)
        (geometryBuffer "Index Buffer" 12 11) (geometryBuffer "Transform Buffer" 12 12) 12)[n]?
        = some c := by
  have herr : (Renderer.InitializeBLAS noScratchEnvironment exampleGeometryMachine).1 =
      Except.error "[VULKAN] Failed creating buffer!" := by
    simp [Renderer.InitializeBLAS, run_bind, run_pure, run_make_unique, run_modifySelf,
      run_getSelf, run_deref_some, run_issue, run_getBufferAddress, sizeof_Vertex,
      exampleGeometryMachine, Machine.afterTriangle, Machine.afterSync, noScratchEnvironment,
      exampleEnvironment, eSuccess]
  have h := blas_build_ignores_reported_sizes noScratchEnvironment exampleGeometryMachine
    (geometryBuffer "Vertex Buffer" 36 10) (geometryBuffer "Index Buffer" 12 11)
    (geometryBuffer "Transform Buffer" 12 12) rfl rfl rfl
  obtain ⟨k, c, n, hc, hfail, -, hn, -⟩ := h.2.2.2 "[VULKAN] Failed creating buffer!"
    (Renderer.InitializeBLAS noScratchEnvironment exampleGeometryMachine).2 (Prod.ext herr rfl)
  exact ⟨rfl, rfl, rfl, herr, h.1, k, c, n, hc, hfail, hn⟩

/-- C9. For the constructed renderer with any active slot `i` and whatever the driver
answers: the first checked call of `Render` that returns a result other than `eSuccess`
(`waitForFences`, `acquireNextImageKHR`, `resetFences`, the command buffer's `begin`, the
queue's `submit`, `presentKHR`, at positions 0, 1, 2, 4, 7, 8 of the per-frame protocol)
makes `Render` raise that call's message; the calls issued are the protocol up to and
including the failed call and none after it, and the renderer, the slot index included, is
as it was. -/
theorem render_aborts_at_failed_call (N : Nat) (env : Environment)
    (initInfo : VulkanInitInfo) (m0 : Machine)
    (hctor : (Renderer.constructor N env initInfo).run (Machine.initial N) = (Except.ok (), m0))
    (i : Nat) (hi : i < N) (d : FrameResults) (s : Machine)
    (hs : s.self = { m0.self with _currentResourcesFrame := i }) :
    ∃ slot, m0.self.frameSlot i = some slot ∧
      (d.waitForFences ≠ eSuccess →
        (Renderer.Render N d).run s =
          (Except.error "[VULKAN] Failed waiting on in flight fence!",
            { self := { m0.self with _currentResourcesFrame := i },
              device := { s.device with calls := s.device.calls ++
                (perFrameProtocol slot m0.self._swapChain d.swapChainImageIndex).take 1 } })) ∧
      (d.waitForFences = eSuccess → d.acquireNextImageKHR ≠ eSuccess →
        (Renderer.Render N d).run s =
          (Except.error "[VULKAN] Failed to acquire swap chain image!",
            { self := { m0.self with _currentResourcesFrame := i },
              device := { s.device with calls := s.device.calls ++
                (perFrameProtocol slot m0.self._swapChain d.swapChainImageIndex).take 2 } })) ∧
      (d.waitForFences = eSuccess → d.acquireNextImageKHR = eSuccess →
        d.resetFences ≠ eSuccess →
        (Renderer.Render N d).run s =
          (Except.error "[VULKAN] Failed resetting fences!",
            { self := { m0.self with _currentResourcesFrame := i },
              device := { s.device with calls := s.device.calls ++
                (perFrameProtocol slot m0.self._swapChain d.swapChainImageIndex).take 3 } })) ∧
      (d.waitForFences = eSuccess → d.acquireNextImageKHR = eSuccess →
        d.resetFences = eSuccess → d.commandBufferBegin ≠ eSuccess →
        (Renderer.Render N d).run s =
          (Except.error "[VULKAN] Failed to begin recording command buffer!",
            { self := { m0.self with _currentResourcesFrame := i },
              device := { s.device with calls := s.device.calls ++
                (perFrameProtocol slot m0.self._swapChain d.swapChainImageIndex).take 5 } })) ∧
      (d.waitForFences = eSuccess → d.acquireNextImageKHR = eSuccess →
        d.resetFences = eSuccess → d.commandBufferBegin = eSuccess →
        d.queueSubmit ≠ eSuccess →
        (Renderer.Render N d).run s =
          (Except.error "[VULKAN] Failed submitting to graphics queue!",
            { self := { m0.self with _currentResourcesFrame := i },
              device := { s.device with calls := s.device.calls ++
                (perFrameProtocol slot m0.self._swapChain d.swapChainImageIndex).take 8 } })) ∧
      (d.waitForFences = eSuccess → d.acquireNextImageKHR = eSuccess →
        d.resetFences = eSuccess → d.commandBufferBegin = eSuccess →
        d.queueSubmit = eSuccess → d.presentKHR ≠ eSuccess →
        (Renderer.Render N d).run s =
          (Except.error "[VULKAN] Failed to present swap chain image!",
            { self := { m0.self with _currentResourcesFrame := i },
              device := { s.device with calls := s.device.calls ++
                (perFrameProtocol slot m0.self._swapChain d.swapChainImageIndex).take 9 } })) := by
  have hf : s.self.Framed N := by rw [hs]; exact constructor_framed hctor
  have hlt : s.self._currentResourcesFrame < N := by rw [hs]; exact hi
  obtain ⟨slot, hslot⟩ := frameSlot_of_framed hf hlt
  have hrun := Render_run N d s slot hslot
  have hsw : s.self._swapChain = m0.self._swapChain := by rw [hs]
  have hslot' : m0.self.frameSlot i = some slot := by
    rw [hs] at hslot
    exact hslot
  rw [hsw] at hrun
  have hissued : ∀ cs, s.issued cs =
      { self := { m0.self with _currentResourcesFrame := i },
        device := { s.device with calls := s.device.calls ++ cs } } := by
    intro cs
    simp only [Machine.issued, ← hs]
  refine ⟨slot, hslot', ?_, ?_, ?_, ?_, ?_, ?_⟩
  · intro h1
    rw [hrun, if_pos h1, hissued]
  · intro h1 h2
    rw [hrun, if_neg (not_not.mpr h1), if_pos h2, hissued]
  · intro h1 h2 h3
    rw [hrun, if_neg (not_not.mpr h1), if_neg (not_not.mpr h2), if_pos h3, hissued]
  · intro h1 h2 h3 h4
    rw [hrun, if_neg (not_not.mpr h1), if_neg (not_not.mpr h2), if_neg (not_not.mpr h3),
      if_pos h4, hissued]
  · intro h1 h2 h3 h4 h5
    rw [hrun, if_neg (not_not.mpr h1), if_neg (not_not.mpr h2), if_neg (not_not.mpr h3),
      if_neg (not_not.mpr h4), if_pos h5, hissued]
  · intro h1 h2 h3 h4 h5 h6
    rw [hrun, if_neg (not_not.mpr h1), if_neg (not_not.mpr h2), if_neg (not_not.mpr h3),
      if_neg (not_not.mpr h4), if_neg (not_not.mpr h5), if_pos h6, hissued]
    rfl

/-- Witness of C9: slot 0 of the example renderer, the queue submission reporting
`VK_ERROR_DEVICE_LOST` (-4): the first eight calls of the protocol were issued, the present
was not, and the slot index is still 0. -/
theorem render_aborts_at_failed_call_witness :
    (Renderer.Render 2 submitFails).run exampleMachine =
      (Except.error "[VULKAN] Failed submitting to graphics queue!",
        { self := { exampleMachine.self with _currentResourcesFrame := 0 },
          device := { exampleMachine.device with
            calls := exampleMachine.device.calls ++ (perFrameProtocol exampleSlot 1 0).take 8 } }) := by
  obtain ⟨slot, hslot, -, -, -, -, h5, -⟩ := render_aborts_at_failed_call 2
    exampleEnvironment exampleInitInfo exampleMachine exampleMachine_constructed 0
    (by decide) submitFails exampleMachine rfl
  rw [exampleMachine_slot0] at hslot
  obtain rfl := Option.some.inj hslot
  exact h5 rfl rfl rfl rfl (by decide)

/-- C10. In the log of a completed construction the address of a structure is taken of
`_blas.vkStructure` only, and that call, every recording of a top-level build and every
write of an instance come after the one-shot submission of the bottom-level build has
returned; the instance written refers to the address of `_blas.vkStructure`. The address
is taken, an instance is written and a top-level build is recorded. -/
theorem blas_address_taken_after_build_completed (N : Nat) (env : Environment)
    (initInfo : VulkanInitInfo) (m0 : Machine)
    (hctor : (Renderer.constructor N env initInfo).run (Machine.initial N) = (Except.ok (), m0)) :
    (∀ pre post h,
      m0.device.calls = pre ++ Call.getAccelerationStructureAddressKHR h :: post →
        h = m0.self._blas.vkStructure ∧ h ∈ completedBuilds pre) ∧
    (∀ pre post buildInfo ranges,
      m0.device.calls = pre ++ Call.buildAccelerationStructuresKHR buildInfo ranges :: post →
        buildInfo.type = AccelerationStructureTypeKHR.eTopLevel →
          m0.self._blas.vkStructure ∈ completedBuilds pre) ∧
    (∀ pre post dst inst bytes,
      m0.device.calls = pre ++ Call.memcpy dst (.accelerationStructureInstance inst) bytes :: post →
        inst.accelerationStructureReference =
            env.getAccelerationStructureAddressKHR m0.self._blas.vkStructure ∧
          m0.self._blas.vkStructure ∈ completedBuilds pre) ∧
    Call.getAccelerationStructureAddressKHR m0.self._blas.vkStructure ∈ m0.device.calls ∧
    (∃ dst inst bytes,
      Call.memcpy dst (.accelerationStructureInstance inst) bytes ∈ m0.device.calls) ∧
    ∃ buildInfo ranges,
      Call.buildAccelerationStructuresKHR buildInfo ranges ∈ m0.device.calls ∧
      buildInfo.type = AccelerationStructureTypeKHR.eTopLevel ∧
      buildInfo.dstAccelerationStructure = m0.self._tlas.vkStructure := by
  rw [constructor_ok hctor]
  have hblas : (Machine.constructed N env initInfo).self._blas.vkStructure =
      1 + N + 3 * N + 3 + 3 := rfl
  have htlas : (Machine.constructed N env initInfo).self._tlas.vkStructure =
      1 + N + 3 * N + 3 + 3 + 3 := rfl
  rw [hblas, htlas]
  have key := constructed_admitsAll N env initInfo
  refine ⟨?_, ?_, ?_, ?_, ?_, ?_⟩
  · intro pre post h hsplit
    rw [hsplit] at key
    obtain ⟨h1, h2⟩ := (admitsAll_split env _ pre {} _ post key).1 h rfl
    exact ⟨h1, h1 ▸ h2⟩
  · intro pre post buildInfo ranges hsplit htop
    rw [hsplit] at key
    exact (admitsAll_split env _ pre {} _ post key).2.1 buildInfo ranges rfl htop
  · intro pre post dst inst bytes hsplit
    rw [hsplit] at key
    exact (admitsAll_split env _ pre {} _ post key).2.2 dst inst bytes rfl
  · rw [constructed_calls]
    simp [tlasCalls]
  · rw [constructed_calls]
    exact ⟨geometryBuffer "TLAS Instances Buffer" (tlasSizes env).accelerationStructureSize
      (1 + N + 3 * N + 3 + 3 + 4), tlasInstance env (1 + N + 3 * N + 3 + 3), 64,
      by simp [tlasCalls]⟩
  · rw [constructed_calls]
    refine ⟨{ tlasQuery with
        dstAccelerationStructure := 1 + N + 3 * N + 3 + 3 + 3
        scratchData := env.getBufferAddress (1 + N + 3 * N + 3 + 3 + 2)
        pGeometries :=
          [ { flags := [GeometryFlagBitsKHR.eOpaque]
              geometryType := GeometryTypeKHR.eInstances
              geometry := .instances
                { arrayOfPointers := false
                  data := env.getBufferAddress (1 + N + 3 * N + 3 + 3 + 4) } } ] },
      [onePrimitive], ?_, rfl, rfl⟩
    simp [tlasCalls]

/-- Witness of C10: on the example renderer the address of structure 15 is taken by call
28 of the log, when the builds complete are that of structure 15 alone. -/
theorem blas_address_taken_after_build_completed_witness :
    (Renderer.constructor 2 exampleEnvironment exampleInitInfo).run (Machine.initial 2) =
      (Except.ok (), exampleMachine) ∧
    exampleMachine.device.calls[28]? = some (Call.getAccelerationStructureAddressKHR 15) ∧
    completedBuilds (exampleMachine.device.calls.take 28) = [15] ∧
    15 = exampleMachine.self._blas.vkStructure ∧
    15 ∈ completedBuilds (exampleMachine.device.calls.take 28) :=
  ⟨exampleMachine_constructed, by decide, by decide,
    (blas_address_taken_after_build_completed 2 exampleEnvironment exampleInitInfo
      exampleMachine exampleMachine_constructed).1
      (exampleMachine.device.calls.take 28) (exampleMachine.device.calls.drop 29) 15
      (by decide)⟩

/-- C11. After a completed construction and any frames, with a positive
`MAX_FRAMES_IN_FLIGHT`, the destructor runs to its end and issues: the destruction of the
descriptor set layout and of the descriptor pool, of the top-level structure, of the
bottom-level structure, and per slot of the fence and the two semaphores. It goes through
the groups in the order descriptor set, top-level structure, bottom-level structure,
synchronization objects; the construction went through them in the order synchronization
objects, bottom-level structure, top-level structure, descriptor set; the one is the
reverse of the other. -/
theorem teardown_reverses_creation (N : Nat) (hN : 0 < N) (env : Environment)
    (initInfo : VulkanInitInfo) (m0 : Machine)
    (hctor : (Renderer.constructor N env initInfo).run (Machine.initial N) = (Except.ok (), m0))
    (frames : List FrameResults) (m : Machine)
    (hframes : (renderFrames N frames).run m0 = (Except.ok (), m)) :
    ∃ m', (Renderer.destructor N).run m = (Except.ok (), m') ∧
      m'.device.calls = m.device.calls ++
        ([ Call.destroyDescriptorSetLayout m0.self._descriptorSetLayout,
           Call.destroyDescriptorPool m0.self._descriptorPool,
           Call.destroyAccelerationStructureKHR m0.self._tlas.vkStructure,
           Call.destroyAccelerationStructureKHR m0.self._blas.vkStructure ]
          ++ (List.range' 0 N).flatMap m0.self.slotReleases) ∧
      groupOrder m0.device.calls (m0.self.releases N) =
        [ResourceGroup.bindingSet, ResourceGroup.topLevel, ResourceGroup.bottomLevel,
          ResourceGroup.synchronization] ∧
      groupOrder m0.device.calls m0.device.calls =
        [ResourceGroup.synchronization, ResourceGroup.bottomLevel, ResourceGroup.topLevel,
          ResourceGroup.bindingSet] ∧
      groupOrder m0.device.calls (m0.self.releases N) =
        (groupOrder m0.device.calls m0.device.calls).reverse := by
  have hf := constructor_framed hctor
  obtain ⟨-, h0, -⟩ := constructor_members hctor
  obtain ⟨e1, -, -⟩ := renderFrames_ok frames m0 m hf (by rw [h0]; exact Nat.zero_mod N) hframes
  have hfm : m.self.Framed N := by rw [e1]; exact hf
  have hrel : m.self.releases N = m0.self.releases N := by rw [e1]; rfl
  have hA := releases_groupOrder N hN env initInfo
  have hB := constructed_groupOrder N hN env initInfo
    (Machine.constructed N env initInfo).device.calls
  rw [← constructor_ok hctor] at hA hB
  refine ⟨_, destructor_run m hfm, ?_, hA, hB, ?_⟩
  · rw [hrel]
    rfl
  · rw [hA, hB]
    rfl

/-- Witness of C11: the example renderer, two frames in flight, destroyed after one
frame. -/
theorem teardown_reverses_creation_witness :
    0 < 2 ∧
    (Renderer.constructor 2 exampleEnvironment exampleInitInfo).run (Machine.initial 2) =
      (Except.ok (), exampleMachine) ∧
    ∃ m m', (renderFrames 2 [{}]).run exampleMachine = (Except.ok (), m) ∧
      (Renderer.destructor 2).run m = (Except.ok (), m') ∧
      m'.device.calls = m.device.calls ++
        [ Call.destroyDescriptorSetLayout 21, Call.destroyDescriptorPool 22,
          Call.destroyAccelerationStructureKHR 18, Call.destroyAccelerationStructureKHR 15,
          Call.destroyFence 6, Call.destroySemaphore 5, Call.destroySemaphore 4,
          Call.destroyFence 9, Call.destroySemaphore 8, Call.destroySemaphore 7 ] := by
  obtain ⟨m, hm⟩ := renderFrames_total [{}] exampleMachine
    (constructor_framed exampleMachine_constructed) (by decide) (by
      intro d hd
      simp only [List.mem_singleton] at hd
      subst hd
      exact ⟨rfl, rfl, rfl, rfl, rfl, rfl⟩)
  obtain ⟨m', h1, h2, -⟩ := teardown_reverses_creation 2 (by decide) exampleEnvironment
    exampleInitInfo exampleMachine exampleMachine_constructed [{}] m hm
  exact ⟨by decide, exampleMachine_constructed, m, m', hm, h1, h2⟩

/-- C12. Every instance whose fields fit their widths has a record of 64 bytes that reads
back as the same instance. In a completed construction, when the
address of the bottom-level structure is a 64-bit address, `InitializeTLAS` copies
`sizeof(vk::AccelerationStructureInstanceKHR)` = 64 bytes, the record of an instance that
fits, into the instances buffer, and the record reads back as the identity transform bit
for bit, custom index 0, mask 0xFF, record offset 0, the facing-cull-disable flag and the
address of `_blas.vkStructure`. -/
theorem instance_record_round_trip (N : Nat) (env : Environment)
    (initInfo : VulkanInitInfo) (m0 : Machine)
    (hctor : (Renderer.constructor N env initInfo).run (Machine.initial N) = (Except.ok (), m0))
    (haddr : env.getAccelerationStructureAddressKHR m0.self._blas.vkStructure < 2 ^ 64) :
    (∀ i : VkAccelerationStructureInstanceKHR, i.Fits →
      i.bytes.length = 64 ∧ (∀ b ∈ i.bytes, b < 256) ∧
        VkAccelerationStructureInstanceKHR.ofBytes i.bytes = i) ∧
    (∃ dst inst, m0.self._tlas.instancesBuffer = some dst ∧
      Call.memcpy dst (.accelerationStructureInstance inst)
        sizeof_AccelerationStructureInstanceKHR ∈ m0.device.calls) ∧
    ∀ dst inst n,
      Call.memcpy dst (.accelerationStructureInstance inst) n ∈ m0.device.calls →
        inst.toC.Fits ∧ n = inst.toC.bytes.length ∧
        VkAccelerationStructureInstanceKHR.ofBytes inst.toC.bytes =
          { transform := identityTransform
            instanceCustomIndex := 0
            mask := 0xFF
            instanceShaderBindingTableRecordOffset := 0
            flags := GeometryInstanceFlagBitsKHR.value
              .VK_GEOMETRY_INSTANCE_TRIANGLE_FACING_CULL_DISABLE_BIT_KHR
            accelerationStructureReference :=
              env.getAccelerationStructureAddressKHR m0.self._blas.vkStructure } := by
  rw [constructor_ok hctor] at haddr ⊢
  have hblas : (Machine.constructed N env initInfo).self._blas.vkStructure =
      1 + N + 3 * N + 3 + 3 := rfl
  rw [hblas] at haddr ⊢
  refine ⟨ofBytes_bytes, ⟨geometryBuffer "TLAS Instances Buffer"
      (tlasSizes env).accelerationStructureSize (1 + N + 3 * N + 3 + 3 + 4),
    tlasInstance env (1 + N + 3 * N + 3 + 3), rfl, ?_⟩, ?_⟩
  · rw [mem_constructed_calls]
    simp [tlasCalls, sizeof_AccelerationStructureInstanceKHR]
  · intro dst inst n hmem
    have hinst : inst = tlasInstance env (1 + N + 3 * N + 3 + 3) ∧ n = 64 := by
      rw [mem_constructed_calls] at hmem
      rcases hmem with h | h | h | h | h | h | h
      · simp at h
      · simp at h
      · simpa [Call.isSyncCreate] using syncCalls_isSyncCreate _ _ _ h
      · simp [triangleCalls] at h
      · simp [blasCalls] at h
      · simp only [tlasCalls, List.mem_cons, List.mem_singleton, List.not_mem_nil,
          or_false, Call.memcpy.injEq, false_or, reduceCtorEq, or_false,
          HostData.accelerationStructureInstance.injEq] at h
        exact ⟨h.2.1, h.2.2⟩
      · simp [descriptorCalls] at h
    obtain ⟨rfl, rfl⟩ := hinst
    have hfits : (tlasInstance env (1 + N + 3 * N + 3 + 3)).toC.Fits := by
      refine ⟨⟨rfl, ?_⟩, ?_, ?_, ?_, ?_, haddr⟩
      rotate_left
      · show 0 < 2 ^ 24
        decide
      · show 255 < 2 ^ 8
        decide
      · show 0 < 2 ^ 24
        decide
      · show (0 ||| 1) < 2 ^ 8
        decide
      intro row hrow
      simp only [AccelerationStructureInstanceKHR.toC, tlasInstance, identityTransform,
        List.mem_cons, List.mem_singleton, List.not_mem_nil, or_false] at hrow
      rcases hrow with rfl | rfl | rfl <;>
        simp [f32_one, f32_zero]
    obtain ⟨hlen, -, hback⟩ := ofBytes_bytes _ hfits
    exact ⟨hfits, hlen.symm, hback⟩

/-- Witness of C12: the instance the example renderer writes, referring to structure 15 at
address 65551; its 64 bytes, and what they read back as. -/
theorem instance_record_round_trip_witness :
    (Renderer.constructor 2 exampleEnvironment exampleInitInfo).run (Machine.initial 2) =
      (Except.ok (), exampleMachine) ∧
    exampleEnvironment.getAccelerationStructureAddressKHR exampleMachine.self._blas.vkStructure
      < 2 ^ 64 ∧
    (tlasInstance exampleEnvironment 15).toC.bytes =
      [ 0, 0, 128, 63, 0, 0, 0, 0, 0, 0, 0, 0, 0, 0, 0, 0,
        0, 0, 0, 0, 0, 0, 128, 63, 0, 0, 0, 0, 0, 0, 0, 0,
        0, 0, 0, 0, 0, 0, 0, 0, 0, 0, 128, 63, 0, 0, 0, 0,
        0, 0, 0, 255, 0, 0, 0, 1, 15, 0, 1, 0, 0, 0, 0, 0 ] ∧
    VkAccelerationStructureInstanceKHR.ofBytes (tlasInstance exampleEnvironment 15).toC.bytes =
      { transform := identityTransform
        instanceCustomIndex := 0
        mask := 255
        instanceShaderBindingTableRecordOffset := 0
        flags := 1
        accelerationStructureReference := 65551 } := by
  have haddr : exampleEnvironment.getAccelerationStructureAddressKHR
      exampleMachine.self._blas.vkStructure < 2 ^ 64 := by decide
  refine ⟨exampleMachine_constructed, haddr, by decide, ?_⟩
  exact ((instance_record_round_trip 2 exampleEnvironment exampleInitInfo exampleMachine
    exampleMachine_constructed haddr).2.2
      (geometryBuffer "TLAS Instances Buffer" 256 19) (tlasInstance exampleEnvironment 15) 64
      (by decide)).2.2

/-- C13, as the code has it. In a completed construction `InitializeTriangle` has copied
36 bytes into the vertex buffer of 36 bytes and 12 bytes into the index buffer of 12
bytes, but `sizeof(VkTransformMatrixKHR)` = 48 bytes into the transform buffer, which was
created with `sizeof(uint32_t) * indices.size()` = 12 bytes: the copy runs 36 bytes past
the size the buffer was created with. These are the only copies into the three buffers. -/
theorem transform_copy_exceeds_buffer (N : Nat) (env : Environment)
    (initInfo : VulkanInitInfo) (m0 : Machine)
    (hctor : (Renderer.constructor N env initInfo).run (Machine.initial N) = (Except.ok (), m0)) :
    ∃ vb ib tb,
      m0.self._vertexBuffer = some vb ∧ m0.self._indexBuffer = some ib ∧
      m0.self._transformBuffer = some tb ∧
      Call.createBuffer vb.creation vb.buffer ∈ m0.device.calls ∧
      Call.createBuffer ib.creation ib.buffer ∈ m0.device.calls ∧
      Call.createBuffer tb.creation tb.buffer ∈ m0.device.calls ∧
      Call.memcpy vb (.vertices triangleVertices) (sizeof_Vertex * 3) ∈ m0.device.calls ∧
      Call.memcpy ib (.indices [0, 1, 2]) (sizeof_uint32_t * 3) ∈ m0.device.calls ∧
      Call.memcpy tb (.transformMatrix identityTransform) sizeof_VkTransformMatrixKHR ∈
        m0.device.calls ∧
      (∀ dst src bytes, Call.memcpy dst src bytes ∈ m0.device.calls →
        (dst.buffer = vb.buffer → dst = vb ∧ bytes = sizeof_Vertex * 3) ∧
        (dst.buffer = ib.buffer → dst = ib ∧ bytes = sizeof_uint32_t * 3) ∧
        (dst.buffer = tb.buffer → dst = tb ∧ bytes = sizeof_VkTransformMatrixKHR)) ∧
      sizeof_Vertex * 3 ≤ vb.creation.size ∧
      sizeof_uint32_t * 3 ≤ ib.creation.size ∧
      tb.creation.size = sizeof_uint32_t * 3 ∧
      tb.creation.size < sizeof_VkTransformMatrixKHR := by
  rw [constructor_ok hctor]
  refine ⟨geometryBuffer "Vertex Buffer" 36 (1 + N + 3 * N + 1),
    geometryBuffer "Index Buffer" 12 (1 + N + 3 * N + 2),
    geometryBuffer "Transform Buffer" 12 (1 + N + 3 * N + 3), rfl, rfl, rfl, ?_, ?_, ?_, ?_,
    ?_, ?_, ?_, ?_, ?_, ?_, ?_⟩
  · rw [mem_constructed_calls]; simp [triangleCalls, geometryBuffer]
  · rw [mem_constructed_calls]; simp [triangleCalls, geometryBuffer]
  · rw [mem_constructed_calls]; simp [triangleCalls, geometryBuffer]
  · rw [mem_constructed_calls]; simp [triangleCalls, sizeof_Vertex]
  · rw [mem_constructed_calls]; simp [triangleCalls, sizeof_uint32_t]
  · rw [mem_constructed_calls]; simp [triangleCalls, sizeof_VkTransformMatrixKHR]
  · intro dst src bytes hmem
    rw [mem_constructed_calls] at hmem
    rcases hmem with h | h | h | h | h | h | h
    · simp at h
    · simp at h
    · simpa [Call.isSyncCreate] using syncCalls_isSyncCreate _ _ _ h
    · simp only [triangleCalls, List.mem_cons, List.mem_singleton, List.not_mem_nil,
        or_false, Call.memcpy.injEq, false_or, reduceCtorEq] at h
      rcases h with ⟨rfl, -, rfl⟩ | ⟨rfl, -, rfl⟩ | ⟨rfl, -, rfl⟩ <;>
        simp [geometryBuffer, sizeof_Vertex, sizeof_uint32_t, sizeof_VkTransformMatrixKHR]
    · simp [blasCalls] at h
    · simp only [tlasCalls, List.mem_cons, List.mem_singleton, List.not_mem_nil,
        or_false, Call.memcpy.injEq, false_or, reduceCtorEq, or_false] at h
      obtain ⟨rfl, -, rfl⟩ := h
      simp only [geometryBuffer]
      refine ⟨?_, ?_, ?_⟩ <;> intro h <;> unfold Handle at * <;> omega
    · simp [descriptorCalls] at h
  · simp [geometryBuffer, sizeof_Vertex]
  · simp [geometryBuffer, sizeof_uint32_t]
  · simp [geometryBuffer, sizeof_uint32_t]
  · simp [geometryBuffer, sizeof_VkTransformMatrixKHR]

/-- The failing input of C13: on the example renderer the transform buffer, buffer 12, was
created with 12 bytes and 48 bytes were copied into it. -/
theorem transform_copy_exceeds_buffer_witness :
    (Renderer.constructor 2 exampleEnvironment exampleInitInfo).run (Machine.initial 2) =
      (Except.ok (), exampleMachine) ∧
    Call.createBuffer (geometryBuffer "Transform Buffer" 12 12).creation 12 ∈
      exampleMachine.device.calls ∧
    Call.memcpy (geometryBuffer "Transform Buffer" 12 12)
      (.transformMatrix identityTransform) 48 ∈ exampleMachine.device.calls ∧
    ∃ tb, exampleMachine.self._transformBuffer = some tb ∧
      tb.creation.size < sizeof_VkTransformMatrixKHR := by
  obtain ⟨_, _, tb, -, -, ht, -, -, -, -, -, -, -, -, -, -, hlt⟩ :=
    transform_copy_exceeds_buffer 2 exampleEnvironment exampleInitInfo exampleMachine
      exampleMachine_constructed
  exact ⟨exampleMachine_constructed, by decide, by decide, tb, ht, hlt⟩

/-- C14, as the code has it. In a completed construction `InitializeDescriptorSets` has
created the camera uniform buffer of `sizeof(UniformData)` = 128 bytes and published it at
binding 2 with offset 0 and range 128, but no copy into it was ever made: the computed
`cameraData` is not used, and the construction is the same whatever the camera matrices
are. -/
theorem camera_data_never_written (N : Nat) (env : Environment)
    (initInfo : VulkanInitInfo) (m0 : Machine)
    (hctor : (Renderer.constructor N env initInfo).run (Machine.initial N) = (Except.ok (), m0)) :
    ∃ uniform,
      m0.self._uniformBuffer = some uniform ∧
      uniform.creation.size = sizeof_UniformData ∧
      Call.createBuffer uniform.creation uniform.buffer ∈ m0.device.calls ∧
      (∃ writes write, Call.updateDescriptorSets writes ∈ m0.device.calls ∧ write ∈ writes ∧
        write.dstSet = m0.self._descriptorSet ∧ write.dstBinding = 2 ∧
        write.pBufferInfo =
          some { buffer := uniform.buffer, offset := 0, range := sizeof_UniformData }) ∧
      (∀ dst src bytes, Call.memcpy dst src bytes ∈ m0.device.calls →
        dst.buffer ≠ uniform.buffer) ∧
      ∀ camera : Nat → Nat → UniformData,
        (Renderer.constructor N { env with cameraData := camera } initInfo).run
          (Machine.initial N) = (Except.ok (), m0) := by
  refine ⟨uniformBuffer (1 + N + 3 * N + 3 + 3 + 4 + 1), ?_, rfl, ?_, ?_, ?_, ?_⟩
  · rw [constructor_ok hctor]
    rfl
  · rw [constructor_ok hctor, mem_constructed_calls]
    simp [descriptorCalls, uniformBuffer]
  · rw [constructor_ok hctor]
    refine ⟨descriptorWrites (1 + N + 3 * N + 3 + 3 + 4 + 4) (1 + N + 3 * N + 3 + 3 + 3)
        (1 + N + 3 * N + 3 + 3 + 4 + 1),
      { dstSet := 1 + N + 3 * N + 3 + 3 + 4 + 4, dstBinding := 2, dstArrayElement := 0,
        descriptorCount := 1, descriptorType := DescriptorType.eUniformBuffer,
        pBufferInfo :=
          some { buffer := 1 + N + 3 * N + 3 + 3 + 4 + 1, offset := 0, range := 128 } },
      ?_, ?_, rfl, rfl, rfl⟩
    · rw [mem_constructed_calls]
      simp [descriptorCalls]
    · simp [descriptorWrites]
  · rw [constructor_ok hctor]
    intro dst src bytes hmem
    rw [mem_constructed_calls] at hmem
    rcases hmem with h | h | h | h | h | h | h
    · simp at h
    · simp at h
    · simpa [Call.isSyncCreate] using syncCalls_isSyncCreate _ _ _ h
    · simp only [triangleCalls, List.mem_cons, List.mem_singleton, List.not_mem_nil,
        or_false, Call.memcpy.injEq, false_or, reduceCtorEq] at h
      rcases h with ⟨rfl, -, rfl⟩ | ⟨rfl, -, rfl⟩ | ⟨rfl, -, rfl⟩ <;>
        simp only [geometryBuffer, uniformBuffer] <;> unfold Handle at * <;> omega
    · simp [blasCalls] at h
    · simp only [tlasCalls, List.mem_cons, List.mem_singleton, List.not_mem_nil,
        or_false, Call.memcpy.injEq, false_or, reduceCtorEq, or_false] at h
      obtain ⟨rfl, -, rfl⟩ := h
      simp only [geometryBuffer, uniformBuffer]
      unfold Handle at *
      omega
    · simp [descriptorCalls] at h
  · intro camera
    exact hctor

/-- The failing input of C14: on the example renderer the uniform buffer is buffer 20; the
only copies of the construction go into the buffers 10, 11, 12 and 19. -/
theorem camera_data_never_written_witness :
    (Renderer.constructor 2 exampleEnvironment exampleInitInfo).run (Machine.initial 2) =
      (Except.ok (), exampleMachine) ∧
    exampleMachine.self._uniformBuffer = some (uniformBuffer 20) ∧
    (exampleMachine.device.calls.filterMap fun c =>
      match c with
      | .memcpy dst _ _ => some dst.buffer
      | _ => none) = [10, 11, 12, 19] ∧
    ∃ uniform, exampleMachine.self._uniformBuffer = some uniform ∧
      ∀ dst src bytes, Call.memcpy dst src bytes ∈ exampleMachine.device.calls →
        dst.buffer ≠ uniform.buffer := by
  obtain ⟨uniform, hu, -, -, -, hno, -⟩ :=
    camera_data_never_written 2 exampleEnvironment exampleInitInfo exampleMachine
      exampleMachine_constructed
  exact ⟨exampleMachine_constructed, rfl, by decide, uniform, hu, hno⟩

/-- C15, as the code has it. In a completed construction the index buffer holds the
indices 0, 1, 2 and the one bottom-level build reads its indices from that buffer, with one
primitive, so three times the primitive count is the number of indices; but the build
description, in the size query and in the build alike, has `maxVertex` 0, below the
indices 1 and 2. -/
theorem blas_maxVertex_below_indices (N : Nat) (env : Environment)
    (initInfo : VulkanInitInfo) (m0 : Machine)
    (hctor : (Renderer.constructor N env initInfo).run (Machine.initial N) = (Except.ok (), m0)) :
    ∃ ib indices buildInfo range geometry triangles,
      m0.self._indexBuffer = some ib ∧
      Call.memcpy ib (.indices indices) (sizeof_uint32_t * indices.length) ∈ m0.device.calls ∧
      indices = [0, 1, 2] ∧
      Call.buildAccelerationStructuresKHR buildInfo [range] ∈ m0.device.calls ∧
      (∀ info ranges, Call.buildAccelerationStructuresKHR info ranges ∈ m0.device.calls →
        info.type = AccelerationStructureTypeKHR.eBottomLevel →
          info = buildInfo ∧ ranges = [range]) ∧
      (∀ buildType info n,
        Call.getAccelerationStructureBuildSizesKHR buildType info n ∈ m0.device.calls →
        info.type = AccelerationStructureTypeKHR.eBottomLevel →
          info.pGeometries = buildInfo.pGeometries) ∧
      buildInfo.type = AccelerationStructureTypeKHR.eBottomLevel ∧
      buildInfo.dstAccelerationStructure = m0.self._blas.vkStructure ∧
      buildInfo.pGeometries = [geometry] ∧
      geometry.geometry = .triangles triangles ∧
      triangles.indexType = IndexType.eUint32 ∧
      triangles.indexData = env.getBufferAddress ib.buffer ∧
      range.primitiveCount * 3 = indices.length ∧
      triangles.maxVertex = 0 ∧
      ∃ i ∈ indices, triangles.maxVertex < i := by
  rw [constructor_ok hctor]
  refine ⟨geometryBuffer "Index Buffer" 12 (1 + N + 3 * N + 2), [0, 1, 2],
    { blasQuery env (geometryBuffer "Vertex Buffer" 36 (1 + N + 3 * N + 1))
        (geometryBuffer "Index Buffer" 12 (1 + N + 3 * N + 2))
        (geometryBuffer "Transform Buffer" 12 (1 + N + 3 * N + 3)) with
      dstAccelerationStructure := 1 + N + 3 * N + 3 + 3
      scratchData := env.getBufferAddress (1 + N + 3 * N + 3 + 2) },
    onePrimitive, _, _, rfl, ?_, rfl, ?_, ?_, ?_, rfl, rfl, rfl, rfl, rfl, rfl, rfl, rfl,
    ⟨2, by simp, by simp [blasQuery]⟩⟩
  · rw [mem_constructed_calls]
    simp [triangleCalls, sizeof_uint32_t]
  · rw [mem_constructed_calls]
    simp [blasCalls]
  · intro info ranges hmem htype
    rw [mem_constructed_calls] at hmem
    rcases hmem with h | h | h | h | h | h | h
    · simp at h
    · simp at h
    · simpa [Call.isSyncCreate] using syncCalls_isSyncCreate _ _ _ h
    · simp [triangleCalls] at h
    · simp [blasCalls] at h
      obtain ⟨rfl, rfl⟩ := h
      exact ⟨rfl, rfl⟩
    · simp [tlasCalls] at h
      obtain ⟨rfl, rfl⟩ := h
      simp [tlasQuery] at htype
    · simp [descriptorCalls] at h
  · intro buildType info n hmem htype
    rw [mem_constructed_calls] at hmem
    rcases hmem with h | h | h | h | h | h | h
    · simp at h
    · simp at h
    · simpa [Call.isSyncCreate] using syncCalls_isSyncCreate _ _ _ h
    · simp [triangleCalls] at h
    · simp [blasCalls] at h
      obtain ⟨rfl, -⟩ := h
      rfl
    · simp [tlasCalls] at h
      obtain ⟨rfl, -⟩ := h
      simp [tlasQuery] at htype
    · simp [descriptorCalls] at h

/-- The failing input of C15: on the example renderer the build of structure 15 has
`maxVertex` 0 while the index buffer, buffer 11, holds the indices 0, 1, 2. -/
theorem blas_maxVertex_below_indices_witness :
    (Renderer.constructor 2 exampleEnvironment exampleInitInfo).run (Machine.initial 2) =
      (Except.ok (), exampleMachine) ∧
    Call.memcpy (geometryBuffer "Index Buffer" 12 11) (.indices [0, 1, 2]) 12 ∈
      exampleMachine.device.calls ∧
    ∃ buildInfo range geometry triangles,
      Call.buildAccelerationStructuresKHR buildInfo [range] ∈ exampleMachine.device.calls ∧
      buildInfo.dstAccelerationStructure = 15 ∧
      buildInfo.pGeometries = [geometry] ∧
      geometry.geometry = .triangles triangles ∧
      triangles.indexData = exampleEnvironment.getBufferAddress 11 ∧
      triangles.maxVertex = 0 ∧ range.primitiveCount = 1 := by
  obtain ⟨ib, indices, buildInfo, range, geometry, triangles, hib, -, hidx, hb, -, -, -, hd,
      hg, ht, -, hi, hp, hm, -⟩ :=
    blas_maxVertex_below_indices 2 exampleEnvironment exampleInitInfo exampleMachine
      exampleMachine_constructed
  have hib' : exampleMachine.self._indexBuffer =
      some (geometryBuffer "Index Buffer" 12 11) := rfl
  rw [hib'] at hib
  obtain rfl := Option.some.inj hib
  refine ⟨exampleMachine_constructed, by decide, buildInfo, range, geometry, triangles, hb,
    hd, hg, ht, hi, hm, ?_⟩
  rw [hidx] at hp
  simp only [List.length_cons, List.length_nil] at hp
  omega

end RayTracer
